import Mathlib

/-!
Verification development for the TransposeMusicXML-JS repository.

The repository's core is a streaming MusicXML transposer:
* `MusicTransposer` (src/transposer.js): pure pitch arithmetic
  (`parseInterval`, `transposeNote`, `transposeKeySignature`);
* `SAXMusicXMLParser._transposeXMLWithSAX` (the TypeScript parser embedded
  in src/README.md, mirrored by src/unnamed/part_011): an event-driven
  rewrite over SAX open/text/close events;
* `parseStructure` / `transposeToAllKeys`: structural split into
  header/parts/measures and reassembly;
* `_fifthsToKeyName` / `_calculateTransposedKeyName`: key labels for the
  all-keys generator.

JavaScript strings are modelled as `List Char` (`Str`), JavaScript numbers
that hold integers as `Int` (with `parseInt` failure — NaN — modelled as
`Option.none`), and SAX events as an inductive type.  Output construction,
including the source's `lastIndexOf`-based insertion and first-occurrence
regex patches over the whole accumulated output string, is implemented over
`Str` so that those global-search behaviours are preserved exactly.
-/

set_option autoImplicit false

namespace TransposeMusicXML

/-- Strings of the JavaScript source are modelled as lists of characters. -/
abbrev Str := List Char

/-- Characters removed by JavaScript `String.prototype.trim` (the forms that
occur in XML text nodes). -/
def isJsWhitespace (c : Char) : Bool :=
  c = ' ' || c = '\n' || c = '\t' || c = '\r'

/-- JavaScript `trim`: whitespace removed from both ends. -/
def jsTrim (s : Str) : Str :=
  ((s.dropWhile isJsWhitespace).reverse.dropWhile isJsWhitespace).reverse

/-- Leading decimal-digit prefix of a string, `none` when there is none.
Helper for the `parseInt` model. -/
def digitsPrefixVal (s : Str) : Option Nat :=
  let ds := s.takeWhile Char.isDigit
  if ds = [] then none
  else some (ds.foldl (fun a c => a * 10 + (c.toNat - '0'.toNat)) 0)

/-- JavaScript `parseInt` on base 10: optional sign, then the longest digit
prefix; `none` models the NaN result. -/
def jsParseInt (s : Str) : Option Int :=
  match s with
  | '-' :: rest => (digitsPrefixVal rest).map (fun n => -(n : Int))
  | '+' :: rest => (digitsPrefixVal rest).map (fun n => (n : Int))
  | _ => (digitsPrefixVal s).map (fun n => (n : Int))

/-- Decimal rendering of an integer, as JavaScript `Number.prototype.toString`
produces for integral values. -/
def intStr (i : Int) : Str := (toString i).toList

/-- The `noteMap` table of `MusicTransposer` (src/transposer.js lines 3-7). -/
def noteMap : List (Str × Int) :=
  [("C".toList, 0), ("C#".toList, 1), ("Db".toList, 1), ("D".toList, 2),
   ("D#".toList, 3), ("Eb".toList, 3), ("E".toList, 4), ("F".toList, 5),
   ("F#".toList, 6), ("Gb".toList, 6), ("G".toList, 7), ("G#".toList, 8),
   ("Ab".toList, 8), ("A".toList, 9), ("A#".toList, 10), ("Bb".toList, 10),
   ("B".toList, 11)]

/-- The sharp-only spelling table `numberToNote` (src/transposer.js lines 9-11). -/
def numberToNote : List Str :=
  ["C".toList, "C#".toList, "D".toList, "D#".toList, "E".toList, "F".toList,
   "F#".toList, "G".toList, "G#".toList, "A".toList, "A#".toList, "B".toList]

/-- The alter number read off the second character of a spelling-table entry
(the `newNote[1]` checks of `transposeNote`, src/transposer.js lines 42-50). -/
def entryAlterNum (e : Str) : Int :=
  if 1 < e.length then
    if e.getD 1 ' ' = '#' then 1 else if e.getD 1 ' ' = 'b' then -1 else 0
  else 0

/-- Result record of `transposeNote`: `alter` is `none` where the JavaScript
object carries `undefined` (the numeric value of the emitted string is kept). -/
structure TNote where
  step : Str
  alter : Option Int
  octave : Int
  deriving DecidableEq, Repr

/-- The `transposeNote` method of `MusicTransposer`
(src/transposer.js lines 25-57).  `noteMap[step] || 0` is the `getD 0`
lookup; `if (alter) noteValue += parseInt(alter)` adds the alter exactly when
it is nonzero; `Math.floor(totalSemitones / 12)` is flooring division
(`Int.fdiv`); the JavaScript `%` remainder (sign of the dividend) is
`Int.mod`, and the `newNoteValue < 0` branch adds 12 to the remainder and
decrements the octave once more. -/
def transposeNote (step : Str) (alter : Int) (octave : Int) (semitones : Int) :
    TNote :=
  let noteValue0 : Int := ((noteMap.lookup step).getD 0)
  let noteValue : Int := if alter ≠ 0 then noteValue0 + alter else noteValue0
  let totalSemitones : Int := noteValue + octave * 12 + semitones
  let newOctave0 : Int := Int.fdiv totalSemitones 12
  let rem : Int := Int.tmod totalSemitones 12
  let newNoteValue : Int := if rem < 0 then rem + 12 else rem
  let newOctave : Int := if rem < 0 then newOctave0 - 1 else newOctave0
  let newNote : Str := numberToNote.getD newNoteValue.toNat []
  let newStep : Str := newNote.take 1
  let newAlterNum : Int := entryAlterNum newNote
  { step := newStep
    alter := if newAlterNum ≠ 0 then some newAlterNum else none
    octave := newOctave }

/-- The `parseInterval` method of `MusicTransposer`
(src/transposer.js lines 14-23): the string must match `^([+-]?)(\d+)$`;
`none` models the thrown `Invalid interval format` error. -/
def parseInterval (s : Str) : Option Int :=
  match s with
  | [] => none
  | c :: rest =>
    if c = '-' then
      if rest ≠ [] ∧ rest.all Char.isDigit then
        some (-(((rest.foldl (fun a d => a * 10 + (d.toNat - '0'.toNat)) 0) : Nat) : Int))
      else none
    else if c = '+' then
      if rest ≠ [] ∧ rest.all Char.isDigit then
        some (((rest.foldl (fun a d => a * 10 + (d.toNat - '0'.toNat)) 0 : Nat) : Int))
      else none
    else
      if (c :: rest).all Char.isDigit then
        some ((((c :: rest).foldl (fun a d => a * 10 + (d.toNat - '0'.toNat)) 0 : Nat) : Int))
      else none

/-- Natural semitone value of a step text: the `noteMap[step] || 0` lookup
used by `transposeNote`. -/
def naturalValue (step : Str) : Int := (noteMap.lookup step).getD 0

/-- Step letter of the sharp-only table entry for a pitch class. -/
def spellStepOfClass (pc : Nat) : Str := (numberToNote.getD pc []).take 1

/-- Alter of the sharp-only table entry for a pitch class: `some 1` exactly
when the entry carries a `#`, `none` otherwise. -/
def spellAlterOfClass (pc : Nat) : Option Int :=
  if (numberToNote.getD pc []).contains '#' then some 1 else none

/-- One step of `while (newFifths > 7) newFifths -= 12;` with explicit fuel
(the loop runs at most `n.toNat` times, see `wrapFifthsDown`). -/
def wrapFifthsDownAux : Nat → Int → Int
  | 0, n => n
  | f + 1, n => if n > 7 then wrapFifthsDownAux f (n - 12) else n

/-- The loop `while (newFifths > 7) newFifths -= 12;` of the source. -/
def wrapFifthsDown (n : Int) : Int := wrapFifthsDownAux n.toNat n

/-- One step of `while (newFifths < -7) newFifths += 12;` with explicit fuel. -/
def wrapFifthsUpAux : Nat → Int → Int
  | 0, n => n
  | f + 1, n => if n < -7 then wrapFifthsUpAux f (n + 12) else n

/-- The loop `while (newFifths < -7) newFifths += 12;` of the source. -/
def wrapFifthsUp (n : Int) : Int := wrapFifthsUpAux (-n).toNat n

/-- The `semitonesToFifthsMap` delta table of the `fifths` branch of
`_transposeXMLWithSAX` (src/README.md lines 1033-1046,
src/unnamed/part_011 lines 210-223). -/
def semitonesToFifthsMap : List Int := [0, 7, 2, -3, 4, -1, 6, 1, -4, 3, -2, 5]

/-- The table-driven key-signature transposition performed by the `fifths`
branch of `_transposeXMLWithSAX` (src/README.md lines 1028-1057):
`((semitones % 12) + 12) % 12` (JavaScript `%` is `Int.tmod`), delta-table
lookup, add to fifths, then both wrap loops in source order. -/
def transposeFifthsTable (currentFifths : Int) (semitones : Int) : Int :=
  let normalizedSemitones := Int.tmod (Int.tmod semitones 12 + 12) 12
  let fifthsChange := semitonesToFifthsMap.getD normalizedSemitones.toNat 0
  wrapFifthsUp (wrapFifthsDown (currentFifths + fifthsChange))

/-- The naive `transposeKeySignature` of `MusicTransposer`
(src/transposer.js lines 83-101): `fifths + semitones`, then the same two
wrap loops.  The surrounding element plumbing is value-level identity. -/
def transposeKeySignatureFifths (fifths : Int) (semitones : Int) : Int :=
  wrapFifthsUp (wrapFifthsDown (fifths + semitones))

/-- The `majorKeysByFifths` table of `_fifthsToKeyName`
(src/README.md lines 1311-1329). -/
def majorKeysByFifths : List (Int × Str) :=
  [(0, "C".toList), (1, "G".toList), (2, "D".toList), (3, "A".toList),
   (4, "E".toList), (5, "B".toList), (6, "F♯".toList), (7, "C♯".toList),
   (-1, "F".toList), (-2, "B♭".toList), (-3, "E♭".toList), (-4, "A♭".toList),
   (-5, "D♭".toList), (-6, "G♭".toList), (-7, "C♭".toList)]

/-- The `minorKeysByFifths` table of `_fifthsToKeyName`
(src/README.md lines 1331-1349). -/
def minorKeysByFifths : List (Int × Str) :=
  [(0, "A".toList), (1, "E".toList), (2, "B".toList), (3, "F♯".toList),
   (4, "C♯".toList), (5, "G♯".toList), (6, "D♯".toList), (7, "A♯".toList),
   (-1, "D".toList), (-2, "G".toList), (-3, "C".toList), (-4, "F".toList),
   (-5, "B♭".toList), (-6, "E♭".toList), (-7, "A♭".toList)]

/-- The `_fifthsToKeyName` helper (src/README.md lines 1307-1359): clamp the
fifths to `[-7, 7]`, select the table by lowercased mode, default `C`,
append `" minor"` or `" major"`. -/
def fifthsToKeyName (fifths : Int) (mode : Str) : Str :=
  let clampedFifths := max (-7) (min 7 fifths)
  let isMinor := mode.map Char.toLower = "minor".toList
  let keys := if isMinor then minorKeysByFifths else majorKeysByFifths
  let keyName := (keys.lookup clampedFifths).getD "C".toList
  let suffix := if isMinor then " minor".toList else " major".toList
  keyName ++ suffix

/-- The `_calculateTransposedKeyName` helper (src/README.md lines 1291-1305):
the label fifths come from `transposer.transposeKeySignature` (the naive
formula of src/transposer.js), then `_fifthsToKeyName` with the original
mode. -/
def calculateTransposedKeyName (origFifths : Int) (mode : Str)
    (semitones : Int) : Str :=
  fifthsToKeyName (transposeKeySignatureFifths origFifths semitones) mode

/-! ### String-search helpers used by the rewriter

The source patches the accumulated output string with
`String.prototype.replace` (first occurrence) and
`String.prototype.lastIndexOf`; these are modelled directly on `Str`. -/

/-- Index of the leftmost occurrence of `p` in `s` (JavaScript `indexOf`,
with `none` for `-1`). -/
def findSub : Str → Str → Option Nat
  | s, p =>
    if p.isPrefixOf s then some 0
    else
      match s with
      | [] => none
      | _ :: t => (findSub t p).map (· + 1)

/-- Index of the rightmost occurrence of `p` in `s` (JavaScript
`lastIndexOf`, with `none` for `-1`). -/
def lastIndexOfSub : Str → Str → Option Nat
  | s, p =>
    match s with
    | [] => if p = [] then some 0 else none
    | _ :: t =>
      match lastIndexOfSub t p with
      | some i => some (i + 1)
      | none => if p.isPrefixOf s then some 0 else none

/-- Insertion of `ins` at position `i` — the
`output.substring(0, pos) + ins + output.substring(pos)` idiom. -/
def insertAt (s : Str) (i : Nat) (ins : Str) : Str :=
  s.take i ++ ins ++ s.drop i

/-- Whether the pattern `<root-step>([A-G])</root-step>` matches at the head
of `s`. -/
def matchesRootStepAt (s : Str) : Bool :=
  "<root-step>".toList.isPrefixOf s &&
    match s.drop 11 with
    | c :: rest =>
      decide ('A' ≤ c) && decide (c ≤ 'G') &&
        "</root-step>".toList.isPrefixOf rest
    | [] => false

/-- JavaScript `output.replace(/<root-step>([A-G])<\/root-step>/, ...)`:
the leftmost match anywhere in the output is rewritten with the new step
letter; no match leaves the string unchanged. -/
def replaceFirstRootStep (s : Str) (newStep : Str) : Str :=
  if matchesRootStepAt s then
    "<root-step>".toList ++ newStep ++ "</root-step>".toList ++ s.drop 24
  else
    match s with
    | [] => []
    | c :: t => c :: replaceFirstRootStep t newStep

/-- JavaScript `output.replace(/<pre>.*?<\/suf>/, '')`: leftmost occurrence
of the opening tag, then the earliest following closing tag, and the whole
span is removed.  (The JavaScript `.` also refuses to cross a newline; the
documents considered here contain none inside alteration elements.) -/
def removeFirstSpan (pre suf s : Str) : Str :=
  match findSub s pre with
  | none => s
  | some i =>
    match findSub (s.drop (i + pre.length)) suf with
    | none => s
    | some j => s.take i ++ s.drop (i + pre.length + j + suf.length)

/-! ### The streaming rewriter `_transposeXMLWithSAX`

Embedding of the TypeScript `_transposeXMLWithSAX`
(src/README.md lines 789-1155; src/unnamed/part_011 lines 13-297 is the same
state machine without the root-step patch / alter-removal flags).  SAX events
are the function's interface; the `elementStack` array and the `insideNote`
and `keyData`/`accidentalValue` variables of the source are written but never
read, so they are not part of the state. -/

/-- SAX events delivered to the rewriter by the `saxes` parser. -/
inductive SaxEvent where
  | openTag (name : Str) (attrs : List (Str × Str))
  | text (t : Str)
  | closeTag (name : Str)
  deriving DecidableEq, Repr

/-- Mutable locals of `_transposeXMLWithSAX`.  `noteStep`/`noteAlter`/
`noteOctave`/`noteTransposedAlter` are the read fields of `noteData`;
`harmonyRootStepText`/`harmonyBassStepText` are the read entries of
`harmonyData` (the stored `root-alter`/`bass-alter` texts are never read),
and the remaining fields are the `_`-prefixed `harmonyData` flags. -/
structure RState where
  output : Str := []
  currentElement : Option Str := none
  textContent : Str := []
  insideHarmony : Bool := false
  insideKey : Bool := false
  insidePitch : Bool := false
  insideAccidental : Bool := false
  noteStep : Option Str := none
  noteAlter : Option Int := none
  noteOctave : Option Int := none
  noteTransposedAlter : Option Int := none
  pitchBuffer : Str := []
  harmonyRootStepText : Option Str := none
  harmonyBassStepText : Option Str := none
  transposedRoot : Option TNote := none
  transposedBass : Option TNote := none
  needsRootAlter : Bool := false
  needsBassAlter : Bool := false
  hasOriginalRootAlter : Bool := false
  hasOriginalBassAlter : Bool := false
  updateRootStep : Bool := false
  removeLastRootAlter : Bool := false
  removeLastBassAlter : Bool := false
  deriving Repr, DecidableEq

/-- Serialization of an opening tag as the handler rebuilds it:
`'<' + name` then ` attr="value"` for each attribute then `'>'`. -/
def serializeTag (name : Str) (attrs : List (Str × Str)) : Str :=
  '<' :: (name ++ attrs.foldl
    (fun acc kv => acc ++ ' ' :: kv.1 ++ '=' :: '"' :: kv.2 ++ ['"']) [] ++ ['>'])

/-- Serialization of a closing tag: `'</' + tagName + '>'`. -/
def closeTagStr (name : Str) : Str := '<' :: '/' :: (name ++ ['>'])

/-- The flag / scratch-record initialization at the top of the `opentag`
handler (the `if (node.name === 'note') ... else if ...` chain). -/
def applyOpenFlags (st : RState) (name : Str) : RState :=
  if name = "note".toList then
    { st with
      noteStep := none
      noteAlter := none
      noteOctave := none
      noteTransposedAlter := none }
  else if name = "pitch".toList then
    { st with insidePitch := true, pitchBuffer := [] }
  else if name = "accidental".toList then { st with insideAccidental := true }
  else if name = "harmony".toList then
    { st with
      insideHarmony := true
      harmonyRootStepText := none
      harmonyBassStepText := none
      transposedRoot := none
      transposedBass := none
      needsRootAlter := false
      needsBassAlter := false
      hasOriginalRootAlter := false
      hasOriginalBassAlter := false
      updateRootStep := false
      removeLastRootAlter := false
      removeLastBassAlter := false }
  else if name = "key".toList then { st with insideKey := true }
  else st

/-- The capture-target selection of the `opentag` handler (run after the
flags are updated, as in the source). -/
def captureTarget (st : RState) (name : Str) : Option Str :=
  if st.insidePitch ∧ (name = "step".toList ∨ name = "alter".toList ∨
      name = "octave".toList) then some name
  else if st.insideHarmony ∧ (name = "root-step".toList ∨
      name = "root-alter".toList ∨ name = "bass-step".toList ∨
      name = "bass-alter".toList) then some name
  else if st.insideKey ∧ name = "fifths".toList then some name
  else none

/-- The `opentag` handler. -/
def stepOpen (st : RState) (name : Str) (attrs : List (Str × Str)) : RState :=
  let st1 := applyOpenFlags st name
  let ce := captureTarget st1 name
  let tag := serializeTag name attrs
  if st1.insidePitch then
    { st1 with
      pitchBuffer := st1.pitchBuffer ++ tag
      currentElement := ce
      textContent := [] }
  else
    { st1 with
      output := st1.output ++ tag
      currentElement := ce
      textContent := [] }

/-- The `text` handler. -/
def stepText (st : RState) (t : Str) : RState :=
  { st with textContent := st.textContent ++ t }

/-- The `tagName === 'pitch'` block of the `closetag` handler: transpose the
captured step/alter/octave (`noteData.alter || 0`, `noteData.octave || 4`) and
emit a freshly built pitch element, or flush the buffer verbatim when no step
was captured. -/
def pitchEmit (s : Int) (st : RState) : RState :=
  if st.noteStep.isSome then
    let step := st.noteStep.getD []
    let alter : Int := match st.noteAlter with | some a => a | none => 0
    let octave : Int :=
      match st.noteOctave with
      | some o => if o = 0 then 4 else o
      | none => 4
    let t := transposeNote step alter octave s
    let ta : Int := match t.alter with | some v => v | none => 0
    let alterPart : Str :=
      match t.alter with
      | some v => "<alter>".toList ++ intStr v ++ "</alter>".toList
      | none => []
    let pitchOut := "<pitch><step>".toList ++ t.step ++ "</step>".toList ++
      alterPart ++ "<octave>".toList ++ intStr t.octave ++
      "</octave></pitch>".toList
    { st with
      output := st.output ++ pitchOut
      noteTransposedAlter := some ta
      insidePitch := false
      pitchBuffer := [] }
  else
    { st with
      output := st.output ++ st.pitchBuffer
      insidePitch := false
      pitchBuffer := [] }

/-- The `if (insidePitch)` block of the `closetag` handler: record captured
pitch fields, extend the buffer, and rebuild the element when `pitch`
closes. -/
def stepClosePitchPart (s : Int) (st : RState) (name : Str) : RState :=
  let st1 :=
    if st.currentElement.isSome ∧ jsTrim st.textContent ≠ [] then
      let ov := jsTrim st.textContent
      let stA :=
        match st.currentElement with
        | some ce =>
          if ce = "step".toList then { st with noteStep := some ov }
          else if ce = "alter".toList then { st with noteAlter := jsParseInt ov }
          else if ce = "octave".toList then
            { st with noteOctave := jsParseInt ov }
          else st
        | none => st
      { stA with pitchBuffer := stA.pitchBuffer ++ ov }
    else { st with pitchBuffer := st.pitchBuffer ++ st.textContent }
  let st2 :=
    if name ≠ "pitch".toList then
      { st1 with pitchBuffer := st1.pitchBuffer ++ closeTagStr name }
    else st1
  if name = "pitch".toList then pitchEmit s st2 else st2

/-- The accidental remap of the `closetag` handler: canonical name for the
remembered transposed alter, original text otherwise. -/
def accidentalReplacement (ta : Option Int) (orig : Str) : Str :=
  match ta with
  | some v =>
    if v = 1 then "sharp".toList
    else if v = -1 then "flat".toList
    else if v = 0 then "natural".toList
    else if v = 2 then "double-sharp".toList
    else if v = -2 then "double-flat".toList
    else orig
  | none => orig

/-- The harmony-field branch of the `closetag` handler: returns the updated
state and the `transposedValue` text that is emitted in place of the captured
text. -/
def harmonyFieldClose (s : Int) (st : RState) (name : Str) (ov : Str) :
    RState × Str :=
  if name = "root-step".toList then
    let t := transposeNote ov 0 4 s
    ({ st with
        harmonyRootStepText := some ov
        transposedRoot := some t
        needsRootAlter := t.alter.isSome
        hasOriginalRootAlter := false },
     t.step)
  else if name = "root-alter".toList then
    let step := st.harmonyRootStepText.getD "C".toList
    let t := transposeNote step ((jsParseInt ov).getD 0) 4 s
    let st1 := { st with
      transposedRoot := some t
      hasOriginalRootAlter := true
      needsRootAlter := false
      updateRootStep := true }
    match t.alter with
    | some v => (st1, intStr v)
    | none => ({ st1 with removeLastRootAlter := true }, ov)
  else if name = "bass-step".toList then
    let t := transposeNote ov 0 4 s
    ({ st with
        harmonyBassStepText := some ov
        transposedBass := some t
        needsBassAlter := t.alter.isSome
        hasOriginalBassAlter := false },
     t.step)
  else if name = "bass-alter".toList then
    let step := st.harmonyBassStepText.getD "C".toList
    let t := transposeNote step ((jsParseInt ov).getD 0) 4 s
    let st1 := { st with
      transposedBass := some t
      hasOriginalBassAlter := true
      needsBassAlter := false }
    match t.alter with
    | some v => (st1, intStr v)
    | none => ({ st1 with removeLastBassAlter := true }, ov)
  else (st, ov)

/-- The `fifths` branch of the `closetag` handler (table-driven; a
non-numeric capture propagates NaN to the printed value). -/
def fifthsClose (s : Int) (ov : Str) : Str :=
  match jsParseInt ov with
  | some currentFifths => intStr (transposeFifthsTable currentFifths s)
  | none => "NaN".toList

/-- The `tagName === 'root'` patch block: first-occurrence root-step rewrite
when an explicit root-alter was seen, then either first-occurrence root-alter
removal or insertion of a new root-alter before the last `</root>`. -/
def rootCloseFix (st : RState) : RState :=
  let st1 :=
    match st.transposedRoot with
    | some t =>
      if st.updateRootStep then
        { st with output := replaceFirstRootStep st.output t.step }
      else st
    | none => st
  if st1.removeLastRootAlter then
    { st1 with output :=
        removeFirstSpan "<root-alter>".toList "</root-alter>".toList st1.output }
  else if st1.needsRootAlter ∧ ¬st1.hasOriginalRootAlter then
    match st1.transposedRoot with
    | some t =>
      match t.alter with
      | some a =>
        match lastIndexOfSub st1.output "</root>".toList with
        | some pos =>
          let ins := "<root-alter>".toList ++ intStr a ++ "</root-alter>".toList
          { st1 with output := insertAt st1.output pos ins }
        | none => st1
      | none => st1
    | none => st1
  else st1

/-- The `tagName === 'bass'` patch block (removal or insertion only — the
source has no bass analogue of the root-step rewrite). -/
def bassCloseFix (st : RState) : RState :=
  if st.removeLastBassAlter then
    { st with output :=
        removeFirstSpan "<bass-alter>".toList "</bass-alter>".toList st.output }
  else if st.needsBassAlter ∧ ¬st.hasOriginalBassAlter then
    match st.transposedBass with
    | some t =>
      match t.alter with
      | some a =>
        match lastIndexOfSub st.output "</bass>".toList with
        | some pos =>
          let ins := "<bass-alter>".toList ++ intStr a ++ "</bass-alter>".toList
          { st with output := insertAt st.output pos ins }
        | none => st
      | none => st
    | none => st
  else st

/-- The `closetag` handler: capture branches, closing-tag emission,
root/bass patches, and flag resets, in source order. -/
def stepClose (s : Int) (st : RState) (name : Str) : RState :=
  let stAD :=
    if st.insidePitch then stepClosePitchPart s st name
    else if st.insideAccidental ∧ name = "accidental".toList ∧
        jsTrim st.textContent ≠ [] then
      { st with output := st.output ++
          accidentalReplacement st.noteTransposedAlter (jsTrim st.textContent) }
    else if st.currentElement.isSome ∧ jsTrim st.textContent ≠ [] then
      let ov := jsTrim st.textContent
      let p :=
        if st.insideHarmony ∧ st.currentElement = some name then
          harmonyFieldClose s st name ov
        else if st.insideKey ∧ st.currentElement = some "fifths".toList then
          (st, fifthsClose s ov)
        else (st, ov)
      { p.1 with output := p.1.output ++ p.2 }
    else { st with output := st.output ++ st.textContent }
  let stE :=
    if ¬stAD.insidePitch ∨ name = "pitch".toList then
      if name ≠ "pitch".toList then
        { stAD with output := stAD.output ++ closeTagStr name }
      else stAD
    else stAD
  let stF :=
    if stE.insideHarmony ∧ name = "root".toList then rootCloseFix stE
    else if stE.insideHarmony ∧ name = "bass".toList then bassCloseFix stE
    else stE
  let stG :=
    if name = "note".toList then
      { stF with
        noteStep := none
        noteAlter := none
        noteOctave := none
        noteTransposedAlter := none }
    else if name = "accidental".toList then { stF with insideAccidental := false }
    else if name = "harmony".toList then
      { stF with
        insideHarmony := false
        harmonyRootStepText := none
        harmonyBassStepText := none
        transposedRoot := none
        transposedBass := none
        needsRootAlter := false
        needsBassAlter := false
        hasOriginalRootAlter := false
        hasOriginalBassAlter := false
        updateRootStep := false
        removeLastRootAlter := false
        removeLastBassAlter := false }
    else if name = "key".toList then { stF with insideKey := false }
    else stF
  { stG with currentElement := none, textContent := [] }

/-- Dispatch of one SAX event. -/
def stepEvent (s : Int) (st : RState) : SaxEvent → RState
  | .openTag name attrs => stepOpen st name attrs
  | .text t => stepText st t
  | .closeTag name => stepClose s st name

/-- The whole event pass. -/
def runRewriter (s : Int) (st : RState) (evts : List SaxEvent) : RState :=
  evts.foldl (stepEvent s) st

/-- The fresh per-call state of `_transposeXMLWithSAX`. -/
def initialState : RState := {}

/-- Output of `_transposeXMLWithSAX` for a given semitone count and event
stream. -/
def rewriteDoc (s : Int) (evts : List SaxEvent) : Str :=
  (runRewriter s initialState evts).output

/-- Presence of a substring (JavaScript `includes` / a matched regex). -/
def containsSub (s p : Str) : Bool := (findSub s p).isSome

/-! ### Interval-string validation and the single-interval pipeline -/

/-- The required interval pattern, written from the spec's words: an optional
sign, then one or more decimal digits, and nothing else. -/
def intervalPatternSpec (s : Str) : Bool :=
  match s with
  | [] => false
  | c :: rest =>
    if c = '+' || c = '-' then !rest.isEmpty && rest.all Char.isDigit
    else (c :: rest).all Char.isDigit

/-- Decimal value of a digit string, written from the spec's words. -/
def decimalValue (s : Str) : Nat :=
  s.foldl (fun a c => a * 10 + (c.toNat - '0'.toNat)) 0

/-- The `transposeByInterval` pipeline (src/README.md lines 1157-1201): the
declaration/DOCTYPE split is byte concatenation, `parseInterval` runs before
the document's SAX pass, and a SAX failure surfaces as an error with no
output.  The outcome of the external SAX parse is the `docParse` argument,
inspected only after the interval has been validated, as in the source. -/
def transposeByInterval (docParse : Except Str (List SaxEvent))
    (interval : Str) : Except Str Str :=
  match parseInterval interval with
  | none => Except.error ("Invalid interval format".toList)
  | some s =>
    match docParse with
    | Except.error e => Except.error e
    | Except.ok evts => Except.ok (rewriteDoc s evts)

/-! ### Frame documents

The rewriter's `opentag` handler discards any accumulated text before
writing the tag, so text nodes are preserved only when they immediately
precede a closing tag.  `FrameItem` lists capture exactly that shape, and
`serFrame` is their canonical serialization. -/

/-- Names of the elements whose open/close events mutate the rewriter's
scratch state; everything else is frame content. -/
def containerNames : List Str :=
  ["note".toList, "pitch".toList, "accidental".toList, "harmony".toList,
   "key".toList]

/-- Frame fragments: an opening tag, or accumulated text followed by a
closing tag. -/
inductive FrameItem where
  | openTag (name : Str) (attrs : List (Str × Str))
  | closeTag (t : Str) (name : Str)
  deriving DecidableEq, Repr

/-- Event stream of a frame-item list. -/
def frameEvents : List FrameItem → List SaxEvent
  | [] => []
  | .openTag n a :: rest => SaxEvent.openTag n a :: frameEvents rest
  | .closeTag t n :: rest =>
    SaxEvent.text t :: SaxEvent.closeTag n :: frameEvents rest

/-- Canonical serialization of a frame-item list: rebuilt tags with
double-quoted attributes in original order, and text verbatim. -/
def serFrame : List FrameItem → Str
  | [] => []
  | .openTag n a :: rest => serializeTag n a ++ serFrame rest
  | .closeTag t n :: rest => t ++ closeTagStr n ++ serFrame rest

/-- Frame items that keep clear of the musical containers. -/
def goodFrameItem : FrameItem → Prop
  | .openTag n _ => n ∉ containerNames
  | .closeTag _ n => n ∉ containerNames

instance goodFrameItem.decPred : DecidablePred goodFrameItem := fun it =>
  match it with
  | .openTag n _ => inferInstanceAs (Decidable (n ∉ containerNames))
  | .closeTag _ n => inferInstanceAs (Decidable (n ∉ containerNames))

/-- A state with no musical container open and empty capture buffers. -/
def CleanFrameState (st : RState) : Prop :=
  st.insidePitch = false ∧ st.insideHarmony = false ∧ st.insideKey = false ∧
  st.insideAccidental = false ∧ st.currentElement = none ∧ st.textContent = []

/-- Canonical serialization of an arbitrary event list, keeping every text
node: what byte-identical reproduction demands at the event level. -/
def serAllEvents : List SaxEvent → Str
  | [] => []
  | .openTag n a :: r => serializeTag n a ++ serAllEvents r
  | .text t :: r => t ++ serAllEvents r
  | .closeTag n :: r => closeTagStr n ++ serAllEvents r

/-- An event that involves no recognized musical container. -/
def eventOutsideMusicalSet : SaxEvent → Prop
  | .openTag n _ => n ∉ containerNames
  | .text _ => True
  | .closeTag n => n ∉ containerNames

instance eventOutsideMusicalSet.decPred : DecidablePred eventOutsideMusicalSet :=
  fun e =>
    match e with
    | .openTag n _ => inferInstanceAs (Decidable (n ∉ containerNames))
    | .text _ => inferInstanceAs (Decidable True)
    | .closeTag n => inferInstanceAs (Decidable (n ∉ containerNames))

/-! ### Concrete documents used in the claim analyses -/

/-- Events of a harmony block whose root has step C and no alter element. -/
def harmonyRootCEvents : List SaxEvent :=
  [SaxEvent.openTag "harmony".toList [], SaxEvent.openTag "root".toList [],
   SaxEvent.openTag "root-step".toList [], SaxEvent.text "C".toList,
   SaxEvent.closeTag "root-step".toList, SaxEvent.closeTag "root".toList,
   SaxEvent.closeTag "harmony".toList]

/-- A purely non-musical document with whitespace before a child element's
opening tag. -/
def docFrameText : List SaxEvent :=
  [SaxEvent.openTag "measure".toList [("number".toList, "1".toList)],
   SaxEvent.text " ".toList,
   SaxEvent.openTag "forward".toList [], SaxEvent.closeTag "forward".toList,
   SaxEvent.text "\n".toList, SaxEvent.closeTag "measure".toList]

/-- Two harmony blocks: the first has root C with no alter, the second has
root D with an explicit alter 1. -/
def docTwoHarmonies : List SaxEvent :=
  [SaxEvent.openTag "harmony".toList [], SaxEvent.openTag "root".toList [],
   SaxEvent.openTag "root-step".toList [], SaxEvent.text "C".toList,
   SaxEvent.closeTag "root-step".toList, SaxEvent.closeTag "root".toList,
   SaxEvent.closeTag "harmony".toList,
   SaxEvent.openTag "harmony".toList [], SaxEvent.openTag "root".toList [],
   SaxEvent.openTag "root-step".toList [], SaxEvent.text "D".toList,
   SaxEvent.closeTag "root-step".toList,
   SaxEvent.openTag "root-alter".toList [], SaxEvent.text "1".toList,
   SaxEvent.closeTag "root-alter".toList, SaxEvent.closeTag "root".toList,
   SaxEvent.closeTag "harmony".toList]

/-- A harmony block with bass step D and an explicit bass-alter 1. -/
def docBassAlter : List SaxEvent :=
  [SaxEvent.openTag "harmony".toList [], SaxEvent.openTag "bass".toList [],
   SaxEvent.openTag "bass-step".toList [], SaxEvent.text "D".toList,
   SaxEvent.closeTag "bass-step".toList,
   SaxEvent.openTag "bass-alter".toList [], SaxEvent.text "1".toList,
   SaxEvent.closeTag "bass-alter".toList, SaxEvent.closeTag "bass".toList,
   SaxEvent.closeTag "harmony".toList]

/-- Two harmony blocks with explicit root alters; at 0 semitones the second
block's alter (B sharp, i.e. C) collapses to zero. -/
def docCollapsingAlter : List SaxEvent :=
  [SaxEvent.openTag "harmony".toList [], SaxEvent.openTag "root".toList [],
   SaxEvent.openTag "root-step".toList [], SaxEvent.text "C".toList,
   SaxEvent.closeTag "root-step".toList,
   SaxEvent.openTag "root-alter".toList [], SaxEvent.text "1".toList,
   SaxEvent.closeTag "root-alter".toList, SaxEvent.closeTag "root".toList,
   SaxEvent.closeTag "harmony".toList,
   SaxEvent.openTag "harmony".toList [], SaxEvent.openTag "root".toList [],
   SaxEvent.openTag "root-step".toList [], SaxEvent.text "B".toList,
   SaxEvent.closeTag "root-step".toList,
   SaxEvent.openTag "root-alter".toList [], SaxEvent.text "1".toList,
   SaxEvent.closeTag "root-alter".toList, SaxEvent.closeTag "root".toList,
   SaxEvent.closeTag "harmony".toList]

/-! ### The structural splitter `parseStructure` and zero-semitone reassembly

Embedding of the TypeScript `parseStructure` (src/README.md lines 640-743)
and of the reassembly loop of `transposeToAllKeys`
(src/README.md lines 574-638) specialised to the spec's invariant: a single
pass with every measure transposed by 0 semitones and no measure
renumbering or barline edits. -/

/-- Mutable locals of `parseStructure`; `hasCurrentPart` models
`currentPart !== null`, and `currentPartId`/`currentPartMeasures` are the
fields of `currentPart`. -/
structure SplitState where
  header : Str := []
  parts : List (Str × List Str) := []
  currentPartId : Str := []
  currentPartMeasures : List Str := []
  hasCurrentPart : Bool := false
  currentMeasure : Str := []
  insideHeader : Bool := true
  insidePart : Bool := false
  insideMeasure : Bool := false
  deriving Repr, DecidableEq

/-- The tag-append phase shared by the `opentag`/`closetag` handlers of
`parseStructure` (header before the first part, measure capture inside a
measure, dropped otherwise). -/
def splitAppendPhase (st : SplitState) (tag : Str) : SplitState :=
  if st.insideHeader then { st with header := st.header ++ tag }
  else if st.insideMeasure then
    { st with currentMeasure := st.currentMeasure ++ tag }
  else st

/-- The `opentag` handler of `parseStructure`.  A missing `id` attribute on
`part` renders as the text `undefined` in the rebuilt tag, as in
JavaScript. -/
def stepSplitOpen (st : SplitState) (name : Str)
    (attrs : List (Str × Str)) : SplitState :=
  if name = "part".toList then
    let st1 := { st with
      insideHeader := false
      insidePart := true
      hasCurrentPart := true
      currentPartId := (attrs.lookup "id".toList).getD "undefined".toList
      currentPartMeasures := [] }
    splitAppendPhase st1 (serializeTag name attrs)
  else if name = "measure".toList ∧ st.insidePart then
    { st with insideMeasure := true, currentMeasure := serializeTag name attrs }
  else splitAppendPhase st (serializeTag name attrs)

/-- The `text` handler of `parseStructure`. -/
def stepSplitText (st : SplitState) (t : Str) : SplitState :=
  if st.insideHeader then { st with header := st.header ++ t }
  else if st.insideMeasure then
    { st with currentMeasure := st.currentMeasure ++ t }
  else st

/-- The `closetag` handler of `parseStructure`. -/
def stepSplitClose (st : SplitState) (name : Str) : SplitState :=
  if name = "part".toList then
    let st1 := { st with
      insidePart := false
      parts := if st.hasCurrentPart then
          st.parts ++ [(st.currentPartId, st.currentPartMeasures)]
        else st.parts
      hasCurrentPart := false }
    splitAppendPhase st1 (closeTagStr name)
  else if name = "measure".toList ∧ st.insideMeasure then
    let m := st.currentMeasure ++ closeTagStr name
    { st with
      insideMeasure := false
      currentPartMeasures := if st.hasCurrentPart then
          st.currentPartMeasures ++ [m]
        else st.currentPartMeasures
      currentMeasure := [] }
  else splitAppendPhase st (closeTagStr name)

/-- Dispatch of one SAX event to the splitter. -/
def stepSplit (st : SplitState) : SaxEvent → SplitState
  | .openTag n a => stepSplitOpen st n a
  | .text t => stepSplitText st t
  | .closeTag n => stepSplitClose st n

/-- The whole `parseStructure` pass. -/
def splitStructure (evts : List SaxEvent) : SplitState :=
  evts.foldl stepSplit {}

/-- Attribute scanner of the canonical-fragment lexer below
(` key="value"` pairs, double quotes). -/
def lexAttrsGo : Nat → Str → List (Str × Str)
  | 0, _ => []
  | _, [] => []
  | f + 1, s =>
    let s1 := s.dropWhile (fun c => c = ' ')
    match s1 with
    | [] => []
    | _ =>
      let k := s1.takeWhile (fun c => c ≠ '=')
      let rest := s1.drop (k.length + 2)
      let v := rest.takeWhile (fun c => c ≠ '"')
      (k, v) :: lexAttrsGo f (rest.drop (v.length + 1))

/-- Event scanner of the canonical-fragment lexer. -/
def lexGo : Nat → Str → List SaxEvent
  | 0, _ => []
  | _, [] => []
  | f + 1, '<' :: '/' :: rest =>
    let name := rest.takeWhile (fun c => c ≠ '>')
    SaxEvent.closeTag name :: lexGo f (rest.drop (name.length + 1))
  | f + 1, '<' :: rest =>
    let inner := rest.takeWhile (fun c => c ≠ '>')
    let name := inner.takeWhile (fun c => c ≠ ' ')
    let attrs := lexAttrsGo inner.length (inner.drop name.length)
    SaxEvent.openTag name attrs :: lexGo f (rest.drop (inner.length + 1))
  | f + 1, s =>
    let t := s.takeWhile (fun c => c ≠ '<')
    SaxEvent.text t :: lexGo f (s.drop t.length)

/-- Model of the external SAX parser's event stream on canonically
serialized fragments (the shape `parseStructure` emits for measures: plain
tags with double-quoted attributes and text, no declaration, comments or
self-closing tags).  `transposeMeasure` re-parses each measure string this
way before rewriting it. -/
def lexXML (s : Str) : List SaxEvent := lexGo s.length s

/-- The rebuilt part-opening tag of the reassembly loop. -/
def partOpenTag (id : Str) : Str :=
  "<part id=\"".toList ++ id ++ "\">".toList

/-- One measure transposed by 0 semitones, as `transposeMeasure(measure, 0)`
does: re-parse the raw text and run the streaming rewriter. -/
def rewriteMeasureZero (m : Str) : Str := rewriteDoc 0 (lexXML m)

/-- The spec's reassembly invariant: header, then each part as rebuilt
part-open tag + its measures transposed by 0 + `</part>`, then the closing
container tag appended by `transposeToAllKeys`. -/
def reassembleZero (evts : List SaxEvent) : Str :=
  let st := splitStructure evts
  st.header ++
    (st.parts.map (fun p =>
      partOpenTag p.1 ++ (p.2.map rewriteMeasureZero).flatten ++
        "</part>".toList)).flatten ++
    "</score-partwise>".toList

/-- A document with whitespace between the part-opening tag and its first
measure. -/
def docSplitText : List SaxEvent :=
  [SaxEvent.openTag "score-partwise".toList [("version".toList, "3.1".toList)],
   SaxEvent.openTag "part".toList [("id".toList, "P1".toList)],
   SaxEvent.text " ".toList,
   SaxEvent.openTag "measure".toList [("number".toList, "1".toList)],
   SaxEvent.closeTag "measure".toList,
   SaxEvent.closeTag "part".toList,
   SaxEvent.closeTag "score-partwise".toList]

/-- A canonical document with no text outside header and measures, a part
tag carrying only its id, and one measure containing a pitched note. -/
def docSplitGood : List SaxEvent :=
  [SaxEvent.openTag "score-partwise".toList [("version".toList, "3.1".toList)],
   SaxEvent.openTag "work".toList [],
   SaxEvent.openTag "work-title".toList [],
   SaxEvent.text "Tune".toList,
   SaxEvent.closeTag "work-title".toList,
   SaxEvent.closeTag "work".toList,
   SaxEvent.openTag "part".toList [("id".toList, "P1".toList)],
   SaxEvent.openTag "measure".toList [("number".toList, "1".toList)],
   SaxEvent.openTag "note".toList [],
   SaxEvent.openTag "pitch".toList [],
   SaxEvent.openTag "step".toList [], SaxEvent.text "C".toList,
   SaxEvent.closeTag "step".toList,
   SaxEvent.openTag "octave".toList [], SaxEvent.text "4".toList,
   SaxEvent.closeTag "octave".toList,
   SaxEvent.closeTag "pitch".toList,
   SaxEvent.openTag "duration".toList [], SaxEvent.text "4".toList,
   SaxEvent.closeTag "duration".toList,
   SaxEvent.closeTag "note".toList,
   SaxEvent.closeTag "measure".toList,
   SaxEvent.closeTag "part".toList,
   SaxEvent.closeTag "score-partwise".toList]


/-- Events that do not open a `part` element: in the header phase of
`parseStructure` every such event is captured byte for byte. -/
def nonPartOpen : SaxEvent → Prop
  | .openTag n _ => n ≠ "part".toList
  | .text _ => True
  | .closeTag _ => True

instance nonPartOpen.decPred : DecidablePred nonPartOpen := fun e =>
  match e with
  | .openTag n _ => inferInstanceAs (Decidable (n ≠ "part".toList))
  | .text _ => inferInstanceAs (Decidable True)
  | .closeTag _ => inferInstanceAs (Decidable True)

/-- Events admissible inside a measure capture: anything that neither
touches `part` nor nests another `measure`. -/
def measureContentEvent : SaxEvent → Prop
  | .openTag n _ => n ≠ "part".toList ∧ n ≠ "measure".toList
  | .text _ => True
  | .closeTag n => n ≠ "part".toList ∧ n ≠ "measure".toList

instance measureContentEvent.decPred : DecidablePred measureContentEvent :=
  fun e =>
    match e with
    | .openTag n _ =>
      inferInstanceAs (Decidable (n ≠ "part".toList ∧ n ≠ "measure".toList))
    | .text _ => inferInstanceAs (Decidable True)
    | .closeTag n =>
      inferInstanceAs (Decidable (n ≠ "part".toList ∧ n ≠ "measure".toList))

/-- A measure block: the measure tag's attributes and its inner events. -/
structure MeasureBlock where
  attrs : List (Str × Str)
  content : List SaxEvent
  deriving Repr, DecidableEq

/-- The event span of a measure block. -/
def measureEvents (m : MeasureBlock) : List SaxEvent :=
  SaxEvent.openTag ("measure".toList) m.attrs ::
    (m.content ++ [SaxEvent.closeTag ("measure".toList)])

/-- The serialization of a measure block — the string `parseStructure`
captures for it. -/
def measureStr (m : MeasureBlock) : Str := serAllEvents (measureEvents m)

/-- A part block: the part's id and its measures, back to back. -/
structure PartBlock where
  id : Str
  measures : List MeasureBlock
  deriving Repr, DecidableEq

/-- The event span of a part block: a part tag carrying only the id, the
measures with nothing between them, and the closing tag. -/
def partEvents (p : PartBlock) : List SaxEvent :=
  SaxEvent.openTag ("part".toList) [("id".toList, p.id)] ::
    ((p.measures.map measureEvents).flatten ++
      [SaxEvent.closeTag ("part".toList)])

/-- A structured score: header events, part blocks back to back, and the
closing container tag. -/
def canonicalDoc (header : List SaxEvent) (parts : List PartBlock) :
    List SaxEvent :=
  header ++ (parts.map partEvents).flatten ++
    [SaxEvent.closeTag ("score-partwise".toList)]

/-- The splitter's state between parts (or before the first one when
`b = true`): no current part, empty measure buffer. -/
def donePartSt (H : Str) (P : List (Str × List Str)) (pid : Str)
    (M : List Str) (b : Bool) : SplitState :=
  { header := H
    parts := P
    currentPartId := pid
    currentPartMeasures := M
    hasCurrentPart := false
    currentMeasure := []
    insideHeader := b
    insidePart := false
    insideMeasure := false }

/-- The splitter's state inside a part, capturing a measure when
`im = true`. -/
def partPhaseSt (H : Str) (P : List (Str × List Str)) (pid : Str)
    (M : List Str) (C : Str) (im : Bool) : SplitState :=
  { header := H
    parts := P
    currentPartId := pid
    currentPartMeasures := M
    hasCurrentPart := true
    currentMeasure := C
    insideHeader := false
    insidePart := true
    insideMeasure := im }

/-!
## Helper lemmas

Arithmetic bridges between the JavaScript operators and their Euclidean
counterparts, loop invariants for the fifths wrap, frame preservation for the
streaming rewriter, and event-by-event evaluations of the concrete
documents above.
-/

/-- Lower bound of the JavaScript remainder by 12. -/
lemma neg_lt_tmod_twelve (t : Int) : -12 < Int.tmod t 12 := by
  cases t with
  | ofNat m =>
    have h := Int.tmod_nonneg (a := Int.ofNat m) 12 (Int.ofNat_nonneg m)
    omega
  | negSucc m =>
    have h : (m + 1) % 12 < 12 := Nat.mod_lt _ (by norm_num)
    simp only [Int.tmod, Int.ofNat_eq_natCast]
    omega

/-- The JavaScript remainder is nonpositive on negative dividends. -/
lemma tmod_nonpos_of_neg (t : Int) (h : t < 0) : Int.tmod t 12 ≤ 0 := by
  cases t with
  | ofNat m =>
    simp only [Int.ofNat_eq_natCast] at h
    omega
  | negSucc m => simp only [Int.tmod, Int.ofNat_eq_natCast]; omega

/-- The `newNoteValue < 0` adjustment turns the JavaScript remainder into the
Euclidean one — the claim's `((total % 12) + 12) % 12`. -/
lemma tmod_adjust_eq_emod (t : Int) :
    (if Int.tmod t 12 < 0 then Int.tmod t 12 + 12 else Int.tmod t 12) = t % 12 := by
  have hd : Int.tmod t 12 = t - 12 * (Int.tdiv t 12) := Int.tmod_def t 12
  have hu : Int.tmod t 12 < 12 := Int.tmod_lt_of_pos t (by norm_num)
  have hl : -12 < Int.tmod t 12 := neg_lt_tmod_twelve t
  split <;> omega

/-- The adjustment branch fires exactly on negative non-multiples of 12. -/
lemma tmod_twelve_neg_iff (t : Int) : Int.tmod t 12 < 0 ↔ t < 0 ∧ t % 12 ≠ 0 := by
  have hd : Int.tmod t 12 = t - 12 * (Int.tdiv t 12) := Int.tmod_def t 12
  have hu : Int.tmod t 12 < 12 := Int.tmod_lt_of_pos t (by norm_num)
  have hl : -12 < Int.tmod t 12 := neg_lt_tmod_twelve t
  have hsn : 0 ≤ t → 0 ≤ Int.tmod t 12 := fun ht => Int.tmod_nonneg 12 ht
  have hsp : t < 0 → Int.tmod t 12 ≤ 0 := tmod_nonpos_of_neg t
  constructor
  · intro h
    constructor
    · by_contra hge
      push_neg at hge
      have := hsn hge
      omega
    · omega
  · rintro ⟨h1, h2⟩
    have := hsp h1
    omega

/-- On table entries, the alter option coincides with `#`-membership. -/
lemma entry_alter_opt (i : Nat) (h : i < 12) :
    (if entryAlterNum (numberToNote.getD i []) ≠ 0 then
       some (entryAlterNum (numberToNote.getD i []))
     else none) = spellAlterOfClass i := by
  interval_cases i <;> decide

/-- Closed form of `transposeNote`: total semitone count, Euclidean pitch
class, table spelling, and the doubly-adjusted octave. -/
lemma transposeNote_closed (step : Str) (alter octave semitones : Int) :
    transposeNote step alter octave semitones =
      (let total := naturalValue step + alter + octave * 12 + semitones
       { step := spellStepOfClass (total % 12).toNat
         alter := spellAlterOfClass (total % 12).toNat
         octave :=
           if total < 0 ∧ total % 12 ≠ 0 then Int.fdiv total 12 - 1
           else Int.fdiv total 12 }) := by
  simp only [transposeNote, naturalValue]
  simp only [show ∀ x : Int, (if alter ≠ 0 then x + alter else x) = x + alter
    from fun x => by split <;> omega]
  set total := (noteMap.lookup step).getD 0 + alter + octave * 12 + semitones with htot
  have hu : Int.tmod total 12 < 12 := Int.tmod_lt_of_pos total (by norm_num)
  have hl : -12 < Int.tmod total 12 := neg_lt_tmod_twelve total
  have hb : ((if Int.tmod total 12 < 0 then Int.tmod total 12 + 12
      else Int.tmod total 12)).toNat < 12 := by
    split <;> omega
  have hoct : (if Int.tmod total 12 < 0 then Int.fdiv total 12 - 1
      else Int.fdiv total 12) =
      (if total < 0 ∧ total % 12 ≠ 0 then Int.fdiv total 12 - 1
       else Int.fdiv total 12) := by
    rcases (tmod_twelve_neg_iff total) with ⟨h1, h2⟩
    by_cases hc : Int.tmod total 12 < 0
    · rw [if_pos hc, if_pos (h1 hc)]
    · rw [if_neg hc, if_neg (fun hx => hc (h2 hx))]
  have hidx : ((if Int.tmod total 12 < 0 then Int.tmod total 12 + 12
      else Int.tmod total 12)).toNat = (total % 12).toNat :=
    congrArg Int.toNat (tmod_adjust_eq_emod total)
  have hb2 : (total % 12).toNat < 12 := by
    rw [← hidx]
    exact hb
  rw [hoct, hidx, entry_alter_opt _ hb2]
  rfl

lemma wrapFifthsDownAux_le : ∀ (f : Nat) (n : Int), n ≤ 7 + 12 * (f : Int) →
    wrapFifthsDownAux f n ≤ 7 := by
  intro f
  induction f with
  | zero => intro n h; simpa [wrapFifthsDownAux] using (by omega : n ≤ 7)
  | succ f ih =>
    intro n h
    unfold wrapFifthsDownAux
    split
    · exact ih (n - 12) (by push_cast at h ⊢; omega)
    · omega

lemma wrapFifthsDownAux_dvd : ∀ (f : Nat) (n : Int),
    (12 : Int) ∣ (wrapFifthsDownAux f n - n) := by
  intro f
  induction f with
  | zero => intro n; simp [wrapFifthsDownAux]
  | succ f ih =>
    intro n
    unfold wrapFifthsDownAux
    split
    · obtain ⟨k, hk⟩ := ih (n - 12)
      exact ⟨k - 1, by omega⟩
    · simp

lemma wrapFifthsDown_le (n : Int) : wrapFifthsDown n ≤ 7 :=
  wrapFifthsDownAux_le n.toNat n (by omega)

lemma wrapFifthsDown_dvd (n : Int) : (12 : Int) ∣ (wrapFifthsDown n - n) :=
  wrapFifthsDownAux_dvd n.toNat n

lemma wrapFifthsUpAux_ge : ∀ (f : Nat) (n : Int), -7 - 12 * (f : Int) ≤ n →
    -7 ≤ wrapFifthsUpAux f n := by
  intro f
  induction f with
  | zero => intro n h; simpa [wrapFifthsUpAux] using (by omega : -7 ≤ n)
  | succ f ih =>
    intro n h
    unfold wrapFifthsUpAux
    split
    · exact ih (n + 12) (by push_cast at h ⊢; omega)
    · omega

lemma wrapFifthsUpAux_le : ∀ (f : Nat) (n : Int), n ≤ 7 →
    wrapFifthsUpAux f n ≤ 7 := by
  intro f
  induction f with
  | zero => intro n h; simpa [wrapFifthsUpAux] using h
  | succ f ih =>
    intro n h
    unfold wrapFifthsUpAux
    split
    · exact ih (n + 12) (by omega)
    · omega

lemma wrapFifthsUpAux_dvd : ∀ (f : Nat) (n : Int),
    (12 : Int) ∣ (wrapFifthsUpAux f n - n) := by
  intro f
  induction f with
  | zero => intro n; simp [wrapFifthsUpAux]
  | succ f ih =>
    intro n
    unfold wrapFifthsUpAux
    split
    · obtain ⟨k, hk⟩ := ih (n + 12)
      exact ⟨k + 1, by omega⟩
    · simp

lemma wrapFifthsUp_ge (n : Int) : -7 ≤ wrapFifthsUp n :=
  wrapFifthsUpAux_ge (-n).toNat n (by omega)

lemma wrapFifthsUp_le (n : Int) (h : n ≤ 7) : wrapFifthsUp n ≤ 7 :=
  wrapFifthsUpAux_le (-n).toNat n h

lemma wrapFifthsUp_dvd (n : Int) : (12 : Int) ∣ (wrapFifthsUp n - n) :=
  wrapFifthsUpAux_dvd (-n).toNat n

/-- The normalization `((semitones % 12) + 12) % 12` of the source equals the
Euclidean remainder. -/
lemma normalizedSemitones_eq (s : Int) :
    Int.tmod (Int.tmod s 12 + 12) 12 = s % 12 := by
  have hd : Int.tmod s 12 = s - 12 * (Int.tdiv s 12) := Int.tmod_def s 12
  have hu : Int.tmod s 12 < 12 := Int.tmod_lt_of_pos s (by norm_num)
  have hl : -12 < Int.tmod s 12 := neg_lt_tmod_twelve s
  have hnn : 0 ≤ Int.tmod s 12 + 12 := by omega
  have h2 : Int.tmod (Int.tmod s 12 + 12) 12 = (Int.tmod s 12 + 12) % 12 :=
    Int.tmod_eq_emod hnn (by norm_num)
  omega

lemma not_mem_containerNames (n : Str) (hn : n ∉ containerNames) :
    ¬(n = ['n', 'o', 't', 'e']) ∧ ¬(n = ['p', 'i', 't', 'c', 'h']) ∧
    ¬(n = ['a', 'c', 'c', 'i', 'd', 'e', 'n', 't', 'a', 'l']) ∧
    ¬(n = ['h', 'a', 'r', 'm', 'o', 'n', 'y']) ∧ ¬(n = ['k', 'e', 'y']) := by
  refine ⟨?_, ?_, ?_, ?_, ?_⟩ <;> intro h <;> subst h <;> exact hn (by decide)

/-- For a frame opening tag from a clean state, the rewriter only appends the
rebuilt tag. -/
lemma stepOpen_frame (st : RState) (n : Str) (a : List (Str × Str))
    (hclean : CleanFrameState st) (hn : n ∉ containerNames) :
    stepOpen st n a = { st with output := st.output ++ serializeTag n a } := by
  obtain ⟨hn1, hn2, hn3, hn4, hn5⟩ := not_mem_containerNames n hn
  obtain ⟨h1, h2, h3, h4, h5, h6⟩ := hclean
  cases st
  simp only at h1 h2 h3 h4 h5 h6
  subst h1 h2 h3 h4 h5 h6
  simp [stepOpen, applyOpenFlags, captureTarget, hn1, hn2, hn3, hn4, hn5]

/-- For frame text followed by a frame closing tag from a clean state, the
rewriter appends the text and the closing tag. -/
lemma stepClose_frame (s : Int) (st : RState) (t : Str) (n : Str)
    (hclean : CleanFrameState st) (hn : n ∉ containerNames) :
    stepClose s (stepText st t) n =
      { st with output := st.output ++ t ++ closeTagStr n } := by
  obtain ⟨hn1, hn2, hn3, hn4, hn5⟩ := not_mem_containerNames n hn
  obtain ⟨h1, h2, h3, h4, h5, h6⟩ := hclean
  cases st
  simp only at h1 h2 h3 h4 h5 h6
  subst h1 h2 h3 h4 h5 h6
  simp [stepText, stepClose, hn1, hn2, hn3, hn4, hn5, List.append_assoc]

lemma cleanFrameState_initial : CleanFrameState initialState :=
  ⟨rfl, rfl, rfl, rfl, rfl, rfl⟩

lemma cleanFrameState_set_output (st : RState) (x : Str)
    (h : CleanFrameState st) : CleanFrameState { st with output := x } := h

lemma runRewriter_cons (s : Int) (st : RState) (e : SaxEvent)
    (evts : List SaxEvent) :
    runRewriter s st (e :: evts) = runRewriter s (stepEvent s st e) evts := rfl

lemma runRewriter_append (s : Int) (st : RState) (a b : List SaxEvent) :
    runRewriter s st (a ++ b) = runRewriter s (runRewriter s st a) b := by
  simp [runRewriter, List.foldl_append]

/-- Frame events from a clean state only append their canonical
serialization. -/
lemma runRewriter_frame (s : Int) : ∀ (items : List FrameItem) (st : RState),
    CleanFrameState st → (∀ it ∈ items, goodFrameItem it) →
    runRewriter s st (frameEvents items) =
      { st with output := st.output ++ serFrame items } := by
  intro items
  induction items with
  | nil =>
    intro st hc hg
    simp [runRewriter, frameEvents, serFrame]
  | cons it rest ih =>
    intro st hc hg
    have hgr : ∀ x ∈ rest, goodFrameItem x := fun x hx => hg x (by simp [hx])
    cases it with
    | openTag n a =>
      have hgn : goodFrameItem (.openTag n a) := hg _ (by simp)
      have h1 : stepOpen st n a =
          { st with output := st.output ++ serializeTag n a } :=
        stepOpen_frame st n a hc hgn
      rw [show frameEvents (FrameItem.openTag n a :: rest) =
            SaxEvent.openTag n a :: frameEvents rest from rfl,
        runRewriter_cons,
        show stepEvent s st (SaxEvent.openTag n a) = stepOpen st n a from rfl,
        h1, ih _ (cleanFrameState_set_output st _ hc) hgr]
      simp [serFrame, List.append_assoc]
    | closeTag t n =>
      have hgn : goodFrameItem (.closeTag t n) := hg _ (by simp)
      have h1 : stepClose s (stepText st t) n =
          { st with output := st.output ++ t ++ closeTagStr n } :=
        stepClose_frame s st t n hc hgn
      rw [show frameEvents (FrameItem.closeTag t n :: rest) =
            SaxEvent.text t :: SaxEvent.closeTag n :: frameEvents rest from rfl,
        runRewriter_cons, runRewriter_cons,
        show stepEvent s (stepEvent s st (SaxEvent.text t))
            (SaxEvent.closeTag n) = stepClose s (stepText st t) n from rfl,
        h1, ih _ (cleanFrameState_set_output st _ hc) hgr]
      simp [serFrame, List.append_assoc]

lemma lastIndexOfSub_short (p : Str) : ∀ (s : Str), s.length < p.length →
    lastIndexOfSub s p = none := by
  intro s
  induction s with
  | nil =>
    intro h
    have : p ≠ [] := by
      intro hp
      subst hp
      simp at h
    simp [lastIndexOfSub, this]
  | cons c t ih =>
    intro h
    have ht : t.length < p.length := by simp at h; omega
    have hpre : ¬ p.isPrefixOf (c :: t) := by
      intro hp
      have := List.IsPrefix.length_le (List.isPrefixOf_iff_prefix.mp hp)
      simp at this h
      omega
    simp [lastIndexOfSub, ih ht, hpre]

lemma lastIndexOfSub_cons (c : Char) (t p : Str) :
    lastIndexOfSub (c :: t) p =
      match lastIndexOfSub t p with
      | some i => some (i + 1)
      | none => if p.isPrefixOf (c :: t) then some 0 else none := rfl

/-- The rightmost occurrence of a suffix is at its own position, whatever
comes before — this is why `lastIndexOf('</root>')` always finds the closing
tag that has just been appended. -/
lemma lastIndexOfSub_append_self (a p : Str) (hp : p ≠ []) :
    lastIndexOfSub (a ++ p) p = some a.length := by
  induction a with
  | nil =>
    simp only [List.nil_append]
    cases p with
    | nil => exact absurd rfl hp
    | cons c t =>
      have hshort : lastIndexOfSub t (c :: t) = none :=
        lastIndexOfSub_short (c :: t) t (by simp)
      simp [lastIndexOfSub, hshort, List.isPrefixOf_iff_prefix]
  | cons c a ih =>
    rw [List.cons_append, lastIndexOfSub_cons, ih]
    simp

lemma insertAt_append_self (a p ins : Str) :
    insertAt (a ++ p) a.length ins = a ++ ins ++ p := by
  simp [insertAt, List.take_left, List.drop_left]

set_option maxHeartbeats 1000000 in
lemma harmonyRootC_block (out0 : Str) :
    runRewriter 1 { initialState with output := out0 } harmonyRootCEvents =
      { initialState with output := out0 ++
          ("<harmony><root><root-step>C</root-step>" ++
           "<root-alter>1</root-alter></root></harmony>").toList } := by
  have hT : transposeNote ['C'] 0 4 1 =
      { step := ['C'], alter := some 1, octave := 4 } := by decide
  have hL : lastIndexOfSub (out0 ++ ['<', 'h', 'a', 'r', 'm', 'o', 'n', 'y', '>', '<', 'r', 'o', 'o', 't', '>', '<', 'r', 'o', 'o', 't', '-', 's', 't', 'e', 'p', '>', 'C', '<', '/', 'r', 'o', 'o', 't', '-', 's', 't', 'e', 'p', '>', '<', '/', 'r', 'o', 'o', 't', '>']) ['<', '/', 'r', 'o', 'o', 't', '>'] =
      some ((out0 ++ ['<', 'h', 'a', 'r', 'm', 'o', 'n', 'y', '>', '<', 'r', 'o', 'o', 't', '>', '<', 'r', 'o', 'o', 't', '-', 's', 't', 'e', 'p', '>', 'C', '<', '/', 'r', 'o', 'o', 't', '-', 's', 't', 'e', 'p', '>']).length) := by
    rw [show out0 ++ ['<', 'h', 'a', 'r', 'm', 'o', 'n', 'y', '>', '<', 'r', 'o', 'o', 't', '>', '<', 'r', 'o', 'o', 't', '-', 's', 't', 'e', 'p', '>', 'C', '<', '/', 'r', 'o', 'o', 't', '-', 's', 't', 'e', 'p', '>', '<', '/', 'r', 'o', 'o', 't', '>'] =
        (out0 ++ ['<', 'h', 'a', 'r', 'm', 'o', 'n', 'y', '>', '<', 'r', 'o', 'o', 't', '>', '<', 'r', 'o', 'o', 't', '-', 's', 't', 'e', 'p', '>', 'C', '<', '/', 'r', 'o', 'o', 't', '-', 's', 't', 'e', 'p', '>']) ++ ['<', '/', 'r', 'o', 'o', 't', '>'] from by
      rw [List.append_assoc]; rfl]
    exact lastIndexOfSub_append_self _ _ (by decide)
  have hts : (toString (1 : Int)).data = ['1'] := rfl
  have hI : insertAt (out0 ++ ['<', 'h', 'a', 'r', 'm', 'o', 'n', 'y', '>', '<', 'r', 'o', 'o', 't', '>', '<', 'r', 'o', 'o', 't', '-', 's', 't', 'e', 'p', '>', 'C', '<', '/', 'r', 'o', 'o', 't', '-', 's', 't', 'e', 'p', '>', '<', '/', 'r', 'o', 'o', 't', '>']) (out0.length + 39)
      ['<', 'r', 'o', 'o', 't', '-', 'a', 'l', 't', 'e', 'r', '>', '1', '<', '/', 'r', 'o', 'o', 't', '-', 'a', 'l', 't', 'e', 'r', '>'] = out0 ++ ['<', 'h', 'a', 'r', 'm', 'o', 'n', 'y', '>', '<', 'r', 'o', 'o', 't', '>', '<', 'r', 'o', 'o', 't', '-', 's', 't', 'e', 'p', '>', 'C', '<', '/', 'r', 'o', 'o', 't', '-', 's', 't', 'e', 'p', '>', '<', 'r', 'o', 'o', 't', '-', 'a', 'l', 't', 'e', 'r', '>', '1', '<', '/', 'r', 'o', 'o', 't', '-', 'a', 'l', 't', 'e', 'r', '>', '<', '/', 'r', 'o', 'o', 't', '>'] := by
    have h1 : out0.length + 39 = (out0 ++ ['<', 'h', 'a', 'r', 'm', 'o', 'n', 'y', '>', '<', 'r', 'o', 'o', 't', '>', '<', 'r', 'o', 'o', 't', '-', 's', 't', 'e', 'p', '>', 'C', '<', '/', 'r', 'o', 'o', 't', '-', 's', 't', 'e', 'p', '>']).length := by simp
    rw [h1, show out0 ++ ['<', 'h', 'a', 'r', 'm', 'o', 'n', 'y', '>', '<', 'r', 'o', 'o', 't', '>', '<', 'r', 'o', 'o', 't', '-', 's', 't', 'e', 'p', '>', 'C', '<', '/', 'r', 'o', 'o', 't', '-', 's', 't', 'e', 'p', '>', '<', '/', 'r', 'o', 'o', 't', '>'] =
        (out0 ++ ['<', 'h', 'a', 'r', 'm', 'o', 'n', 'y', '>', '<', 'r', 'o', 'o', 't', '>', '<', 'r', 'o', 'o', 't', '-', 's', 't', 'e', 'p', '>', 'C', '<', '/', 'r', 'o', 'o', 't', '-', 's', 't', 'e', 'p', '>']) ++ ['<', '/', 'r', 'o', 'o', 't', '>'] from by
      rw [List.append_assoc]; rfl, insertAt_append_self]
    simp [List.append_assoc]
  simp [harmonyRootCEvents, runRewriter, stepEvent, stepOpen, applyOpenFlags,
    captureTarget, stepText, stepClose, stepClosePitchPart, pitchEmit,
    accidentalReplacement, harmonyFieldClose, fifthsClose, rootCloseFix,
    bassCloseFix, jsTrim, isJsWhitespace, serializeTag, closeTagStr,
    initialState, hT, hL, hI, hts, intStr]


set_option maxHeartbeats 4000000 in
/-- Output of the rewriter on `docTwoHarmonies` at +1 semitone, computed one
event at a time. -/
lemma docTwoHarmonies_out :
    rewriteDoc 1 docTwoHarmonies = ['<', 'h', 'a', 'r', 'm', 'o', 'n', 'y', '>', '<', 'r', 'o', 'o', 't', '>', '<', 'r', 'o', 'o', 't', '-', 's', 't', 'e', 'p', '>', 'E', '<', '/', 'r', 'o', 'o', 't', '-', 's', 't', 'e', 'p', '>', '<', '/', 'r', 'o', 'o', 't', '>', '<', '/', 'h', 'a', 'r', 'm', 'o', 'n', 'y', '>', '<', 'h', 'a', 'r', 'm', 'o', 'n', 'y', '>', '<', 'r', 'o', 'o', 't', '>', '<', 'r', 'o', 'o', 't', '-', 's', 't', 'e', 'p', '>', 'D', '<', '/', 'r', 'o', 'o', 't', '-', 's', 't', 'e', 'p', '>', '<', 'r', 'o', 'o', 't', '-', 'a', 'l', 't', 'e', 'r', '>', '1', '<', '/', 'r', 'o', 'o', 't', '-', 'a', 'l', 't', 'e', 'r', '>', '<', '/', 'r', 'o', 'o', 't', '>', '<', '/', 'h', 'a', 'r', 'm', 'o', 'n', 'y', '>'] := by
  have h1 : stepEvent 1 initialState (SaxEvent.openTag ['h', 'a', 'r', 'm', 'o', 'n', 'y'] []) = { output := ['<', 'h', 'a', 'r', 'm', 'o', 'n', 'y', '>'], currentElement := none, textContent := [], insideHarmony := true, insideKey := false, insidePitch := false, insideAccidental := false, noteStep := none, noteAlter := none, noteOctave := none, noteTransposedAlter := none, pitchBuffer := [], harmonyRootStepText := none, harmonyBassStepText := none, transposedRoot := none, transposedBass := none, needsRootAlter := false, needsBassAlter := false, hasOriginalRootAlter := false, hasOriginalBassAlter := false, updateRootStep := false, removeLastRootAlter := false, removeLastBassAlter := false } := by decide
  have h2 : stepEvent 1 ({ output := ['<', 'h', 'a', 'r', 'm', 'o', 'n', 'y', '>'], currentElement := none, textContent := [], insideHarmony := true, insideKey := false, insidePitch := false, insideAccidental := false, noteStep := none, noteAlter := none, noteOctave := none, noteTransposedAlter := none, pitchBuffer := [], harmonyRootStepText := none, harmonyBassStepText := none, transposedRoot := none, transposedBass := none, needsRootAlter := false, needsBassAlter := false, hasOriginalRootAlter := false, hasOriginalBassAlter := false, updateRootStep := false, removeLastRootAlter := false, removeLastBassAlter := false }) (SaxEvent.openTag ['r', 'o', 'o', 't'] []) = { output := ['<', 'h', 'a', 'r', 'm', 'o', 'n', 'y', '>', '<', 'r', 'o', 'o', 't', '>'], currentElement := none, textContent := [], insideHarmony := true, insideKey := false, insidePitch := false, insideAccidental := false, noteStep := none, noteAlter := none, noteOctave := none, noteTransposedAlter := none, pitchBuffer := [], harmonyRootStepText := none, harmonyBassStepText := none, transposedRoot := none, transposedBass := none, needsRootAlter := false, needsBassAlter := false, hasOriginalRootAlter := false, hasOriginalBassAlter := false, updateRootStep := false, removeLastRootAlter := false, removeLastBassAlter := false } := by decide
  have h3 : stepEvent 1 ({ output := ['<', 'h', 'a', 'r', 'm', 'o', 'n', 'y', '>', '<', 'r', 'o', 'o', 't', '>'], currentElement := none, textContent := [], insideHarmony := true, insideKey := false, insidePitch := false, insideAccidental := false, noteStep := none, noteAlter := none, noteOctave := none, noteTransposedAlter := none, pitchBuffer := [], harmonyRootStepText := none, harmonyBassStepText := none, transposedRoot := none, transposedBass := none, needsRootAlter := false, needsBassAlter := false, hasOriginalRootAlter := false, hasOriginalBassAlter := false, updateRootStep := false, removeLastRootAlter := false, removeLastBassAlter := false }) (SaxEvent.openTag ['r', 'o', 'o', 't', '-', 's', 't', 'e', 'p'] []) = { output := ['<', 'h', 'a', 'r', 'm', 'o', 'n', 'y', '>', '<', 'r', 'o', 'o', 't', '>', '<', 'r', 'o', 'o', 't', '-', 's', 't', 'e', 'p', '>'], currentElement := some ['r', 'o', 'o', 't', '-', 's', 't', 'e', 'p'], textContent := [], insideHarmony := true, insideKey := false, insidePitch := false, insideAccidental := false, noteStep := none, noteAlter := none, noteOctave := none, noteTransposedAlter := none, pitchBuffer := [], harmonyRootStepText := none, harmonyBassStepText := none, transposedRoot := none, transposedBass := none, needsRootAlter := false, needsBassAlter := false, hasOriginalRootAlter := false, hasOriginalBassAlter := false, updateRootStep := false, removeLastRootAlter := false, removeLastBassAlter := false } := by decide
  have h4 : stepEvent 1 ({ output := ['<', 'h', 'a', 'r', 'm', 'o', 'n', 'y', '>', '<', 'r', 'o', 'o', 't', '>', '<', 'r', 'o', 'o', 't', '-', 's', 't', 'e', 'p', '>'], currentElement := some ['r', 'o', 'o', 't', '-', 's', 't', 'e', 'p'], textContent := [], insideHarmony := true, insideKey := false, insidePitch := false, insideAccidental := false, noteStep := none, noteAlter := none, noteOctave := none, noteTransposedAlter := none, pitchBuffer := [], harmonyRootStepText := none, harmonyBassStepText := none, transposedRoot := none, transposedBass := none, needsRootAlter := false, needsBassAlter := false, hasOriginalRootAlter := false, hasOriginalBassAlter := false, updateRootStep := false, removeLastRootAlter := false, removeLastBassAlter := false }) (SaxEvent.text ['C']) = { output := ['<', 'h', 'a', 'r', 'm', 'o', 'n', 'y', '>', '<', 'r', 'o', 'o', 't', '>', '<', 'r', 'o', 'o', 't', '-', 's', 't', 'e', 'p', '>'], currentElement := some ['r', 'o', 'o', 't', '-', 's', 't', 'e', 'p'], textContent := ['C'], insideHarmony := true, insideKey := false, insidePitch := false, insideAccidental := false, noteStep := none, noteAlter := none, noteOctave := none, noteTransposedAlter := none, pitchBuffer := [], harmonyRootStepText := none, harmonyBassStepText := none, transposedRoot := none, transposedBass := none, needsRootAlter := false, needsBassAlter := false, hasOriginalRootAlter := false, hasOriginalBassAlter := false, updateRootStep := false, removeLastRootAlter := false, removeLastBassAlter := false } := by decide
  have h5 : stepEvent 1 ({ output := ['<', 'h', 'a', 'r', 'm', 'o', 'n', 'y', '>', '<', 'r', 'o', 'o', 't', '>', '<', 'r', 'o', 'o', 't', '-', 's', 't', 'e', 'p', '>'], currentElement := some ['r', 'o', 'o', 't', '-', 's', 't', 'e', 'p'], textContent := ['C'], insideHarmony := true, insideKey := false, insidePitch := false, insideAccidental := false, noteStep := none, noteAlter := none, noteOctave := none, noteTransposedAlter := none, pitchBuffer := [], harmonyRootStepText := none, harmonyBassStepText := none, transposedRoot := none, transposedBass := none, needsRootAlter := false, needsBassAlter := false, hasOriginalRootAlter := false, hasOriginalBassAlter := false, updateRootStep := false, removeLastRootAlter := false, removeLastBassAlter := false }) (SaxEvent.closeTag ['r', 'o', 'o', 't', '-', 's', 't', 'e', 'p']) = { output := ['<', 'h', 'a', 'r', 'm', 'o', 'n', 'y', '>', '<', 'r', 'o', 'o', 't', '>', '<', 'r', 'o', 'o', 't', '-', 's', 't', 'e', 'p', '>', 'C', '<', '/', 'r', 'o', 'o', 't', '-', 's', 't', 'e', 'p', '>'], currentElement := none, textContent := [], insideHarmony := true, insideKey := false, insidePitch := false, insideAccidental := false, noteStep := none, noteAlter := none, noteOctave := none, noteTransposedAlter := none, pitchBuffer := [], harmonyRootStepText := some ['C'], harmonyBassStepText := none, transposedRoot := some { step := ['C'], alter := some 1, octave := 4 }, transposedBass := none, needsRootAlter := true, needsBassAlter := false, hasOriginalRootAlter := false, hasOriginalBassAlter := false, updateRootStep := false, removeLastRootAlter := false, removeLastBassAlter := false } := by decide
  have h6 : stepEvent 1 ({ output := ['<', 'h', 'a', 'r', 'm', 'o', 'n', 'y', '>', '<', 'r', 'o', 'o', 't', '>', '<', 'r', 'o', 'o', 't', '-', 's', 't', 'e', 'p', '>', 'C', '<', '/', 'r', 'o', 'o', 't', '-', 's', 't', 'e', 'p', '>'], currentElement := none, textContent := [], insideHarmony := true, insideKey := false, insidePitch := false, insideAccidental := false, noteStep := none, noteAlter := none, noteOctave := none, noteTransposedAlter := none, pitchBuffer := [], harmonyRootStepText := some ['C'], harmonyBassStepText := none, transposedRoot := some { step := ['C'], alter := some 1, octave := 4 }, transposedBass := none, needsRootAlter := true, needsBassAlter := false, hasOriginalRootAlter := false, hasOriginalBassAlter := false, updateRootStep := false, removeLastRootAlter := false, removeLastBassAlter := false }) (SaxEvent.closeTag ['r', 'o', 'o', 't']) = { output := ['<', 'h', 'a', 'r', 'm', 'o', 'n', 'y', '>', '<', 'r', 'o', 'o', 't', '>', '<', 'r', 'o', 'o', 't', '-', 's', 't', 'e', 'p', '>', 'C', '<', '/', 'r', 'o', 'o', 't', '-', 's', 't', 'e', 'p', '>', '<', 'r', 'o', 'o', 't', '-', 'a', 'l', 't', 'e', 'r', '>', '1', '<', '/', 'r', 'o', 'o', 't', '-', 'a', 'l', 't', 'e', 'r', '>', '<', '/', 'r', 'o', 'o', 't', '>'], currentElement := none, textContent := [], insideHarmony := true, insideKey := false, insidePitch := false, insideAccidental := false, noteStep := none, noteAlter := none, noteOctave := none, noteTransposedAlter := none, pitchBuffer := [], harmonyRootStepText := some ['C'], harmonyBassStepText := none, transposedRoot := some { step := ['C'], alter := some 1, octave := 4 }, transposedBass := none, needsRootAlter := true, needsBassAlter := false, hasOriginalRootAlter := false, hasOriginalBassAlter := false, updateRootStep := false, removeLastRootAlter := false, removeLastBassAlter := false } := by decide
  have h7 : stepEvent 1 ({ output := ['<', 'h', 'a', 'r', 'm', 'o', 'n', 'y', '>', '<', 'r', 'o', 'o', 't', '>', '<', 'r', 'o', 'o', 't', '-', 's', 't', 'e', 'p', '>', 'C', '<', '/', 'r', 'o', 'o', 't', '-', 's', 't', 'e', 'p', '>', '<', 'r', 'o', 'o', 't', '-', 'a', 'l', 't', 'e', 'r', '>', '1', '<', '/', 'r', 'o', 'o', 't', '-', 'a', 'l', 't', 'e', 'r', '>', '<', '/', 'r', 'o', 'o', 't', '>'], currentElement := none, textContent := [], insideHarmony := true, insideKey := false, insidePitch := false, insideAccidental := false, noteStep := none, noteAlter := none, noteOctave := none, noteTransposedAlter := none, pitchBuffer := [], harmonyRootStepText := some ['C'], harmonyBassStepText := none, transposedRoot := some { step := ['C'], alter := some 1, octave := 4 }, transposedBass := none, needsRootAlter := true, needsBassAlter := false, hasOriginalRootAlter := false, hasOriginalBassAlter := false, updateRootStep := false, removeLastRootAlter := false, removeLastBassAlter := false }) (SaxEvent.closeTag ['h', 'a', 'r', 'm', 'o', 'n', 'y']) = { output := ['<', 'h', 'a', 'r', 'm', 'o', 'n', 'y', '>', '<', 'r', 'o', 'o', 't', '>', '<', 'r', 'o', 'o', 't', '-', 's', 't', 'e', 'p', '>', 'C', '<', '/', 'r', 'o', 'o', 't', '-', 's', 't', 'e', 'p', '>', '<', 'r', 'o', 'o', 't', '-', 'a', 'l', 't', 'e', 'r', '>', '1', '<', '/', 'r', 'o', 'o', 't', '-', 'a', 'l', 't', 'e', 'r', '>', '<', '/', 'r', 'o', 'o', 't', '>', '<', '/', 'h', 'a', 'r', 'm', 'o', 'n', 'y', '>'], currentElement := none, textContent := [], insideHarmony := false, insideKey := false, insidePitch := false, insideAccidental := false, noteStep := none, noteAlter := none, noteOctave := none, noteTransposedAlter := none, pitchBuffer := [], harmonyRootStepText := none, harmonyBassStepText := none, transposedRoot := none, transposedBass := none, needsRootAlter := false, needsBassAlter := false, hasOriginalRootAlter := false, hasOriginalBassAlter := false, updateRootStep := false, removeLastRootAlter := false, removeLastBassAlter := false } := by decide
  have h8 : stepEvent 1 ({ output := ['<', 'h', 'a', 'r', 'm', 'o', 'n', 'y', '>', '<', 'r', 'o', 'o', 't', '>', '<', 'r', 'o', 'o', 't', '-', 's', 't', 'e', 'p', '>', 'C', '<', '/', 'r', 'o', 'o', 't', '-', 's', 't', 'e', 'p', '>', '<', 'r', 'o', 'o', 't', '-', 'a', 'l', 't', 'e', 'r', '>', '1', '<', '/', 'r', 'o', 'o', 't', '-', 'a', 'l', 't', 'e', 'r', '>', '<', '/', 'r', 'o', 'o', 't', '>', '<', '/', 'h', 'a', 'r', 'm', 'o', 'n', 'y', '>'], currentElement := none, textContent := [], insideHarmony := false, insideKey := false, insidePitch := false, insideAccidental := false, noteStep := none, noteAlter := none, noteOctave := none, noteTransposedAlter := none, pitchBuffer := [], harmonyRootStepText := none, harmonyBassStepText := none, transposedRoot := none, transposedBass := none, needsRootAlter := false, needsBassAlter := false, hasOriginalRootAlter := false, hasOriginalBassAlter := false, updateRootStep := false, removeLastRootAlter := false, removeLastBassAlter := false }) (SaxEvent.openTag ['h', 'a', 'r', 'm', 'o', 'n', 'y'] []) = { output := ['<', 'h', 'a', 'r', 'm', 'o', 'n', 'y', '>', '<', 'r', 'o', 'o', 't', '>', '<', 'r', 'o', 'o', 't', '-', 's', 't', 'e', 'p', '>', 'C', '<', '/', 'r', 'o', 'o', 't', '-', 's', 't', 'e', 'p', '>', '<', 'r', 'o', 'o', 't', '-', 'a', 'l', 't', 'e', 'r', '>', '1', '<', '/', 'r', 'o', 'o', 't', '-', 'a', 'l', 't', 'e', 'r', '>', '<', '/', 'r', 'o', 'o', 't', '>', '<', '/', 'h', 'a', 'r', 'm', 'o', 'n', 'y', '>', '<', 'h', 'a', 'r', 'm', 'o', 'n', 'y', '>'], currentElement := none, textContent := [], insideHarmony := true, insideKey := false, insidePitch := false, insideAccidental := false, noteStep := none, noteAlter := none, noteOctave := none, noteTransposedAlter := none, pitchBuffer := [], harmonyRootStepText := none, harmonyBassStepText := none, transposedRoot := none, transposedBass := none, needsRootAlter := false, needsBassAlter := false, hasOriginalRootAlter := false, hasOriginalBassAlter := false, updateRootStep := false, removeLastRootAlter := false, removeLastBassAlter := false } := by decide
  have h9 : stepEvent 1 ({ output := ['<', 'h', 'a', 'r', 'm', 'o', 'n', 'y', '>', '<', 'r', 'o', 'o', 't', '>', '<', 'r', 'o', 'o', 't', '-', 's', 't', 'e', 'p', '>', 'C', '<', '/', 'r', 'o', 'o', 't', '-', 's', 't', 'e', 'p', '>', '<', 'r', 'o', 'o', 't', '-', 'a', 'l', 't', 'e', 'r', '>', '1', '<', '/', 'r', 'o', 'o', 't', '-', 'a', 'l', 't', 'e', 'r', '>', '<', '/', 'r', 'o', 'o', 't', '>', '<', '/', 'h', 'a', 'r', 'm', 'o', 'n', 'y', '>', '<', 'h', 'a', 'r', 'm', 'o', 'n', 'y', '>'], currentElement := none, textContent := [], insideHarmony := true, insideKey := false, insidePitch := false, insideAccidental := false, noteStep := none, noteAlter := none, noteOctave := none, noteTransposedAlter := none, pitchBuffer := [], harmonyRootStepText := none, harmonyBassStepText := none, transposedRoot := none, transposedBass := none, needsRootAlter := false, needsBassAlter := false, hasOriginalRootAlter := false, hasOriginalBassAlter := false, updateRootStep := false, removeLastRootAlter := false, removeLastBassAlter := false }) (SaxEvent.openTag ['r', 'o', 'o', 't'] []) = { output := ['<', 'h', 'a', 'r', 'm', 'o', 'n', 'y', '>', '<', 'r', 'o', 'o', 't', '>', '<', 'r', 'o', 'o', 't', '-', 's', 't', 'e', 'p', '>', 'C', '<', '/', 'r', 'o', 'o', 't', '-', 's', 't', 'e', 'p', '>', '<', 'r', 'o', 'o', 't', '-', 'a', 'l', 't', 'e', 'r', '>', '1', '<', '/', 'r', 'o', 'o', 't', '-', 'a', 'l', 't', 'e', 'r', '>', '<', '/', 'r', 'o', 'o', 't', '>', '<', '/', 'h', 'a', 'r', 'm', 'o', 'n', 'y', '>', '<', 'h', 'a', 'r', 'm', 'o', 'n', 'y', '>', '<', 'r', 'o', 'o', 't', '>'], currentElement := none, textContent := [], insideHarmony := true, insideKey := false, insidePitch := false, insideAccidental := false, noteStep := none, noteAlter := none, noteOctave := none, noteTransposedAlter := none, pitchBuffer := [], harmonyRootStepText := none, harmonyBassStepText := none, transposedRoot := none, transposedBass := none, needsRootAlter := false, needsBassAlter := false, hasOriginalRootAlter := false, hasOriginalBassAlter := false, updateRootStep := false, removeLastRootAlter := false, removeLastBassAlter := false } := by decide
  have h10 : stepEvent 1 ({ output := ['<', 'h', 'a', 'r', 'm', 'o', 'n', 'y', '>', '<', 'r', 'o', 'o', 't', '>', '<', 'r', 'o', 'o', 't', '-', 's', 't', 'e', 'p', '>', 'C', '<', '/', 'r', 'o', 'o', 't', '-', 's', 't', 'e', 'p', '>', '<', 'r', 'o', 'o', 't', '-', 'a', 'l', 't', 'e', 'r', '>', '1', '<', '/', 'r', 'o', 'o', 't', '-', 'a', 'l', 't', 'e', 'r', '>', '<', '/', 'r', 'o', 'o', 't', '>', '<', '/', 'h', 'a', 'r', 'm', 'o', 'n', 'y', '>', '<', 'h', 'a', 'r', 'm', 'o', 'n', 'y', '>', '<', 'r', 'o', 'o', 't', '>'], currentElement := none, textContent := [], insideHarmony := true, insideKey := false, insidePitch := false, insideAccidental := false, noteStep := none, noteAlter := none, noteOctave := none, noteTransposedAlter := none, pitchBuffer := [], harmonyRootStepText := none, harmonyBassStepText := none, transposedRoot := none, transposedBass := none, needsRootAlter := false, needsBassAlter := false, hasOriginalRootAlter := false, hasOriginalBassAlter := false, updateRootStep := false, removeLastRootAlter := false, removeLastBassAlter := false }) (SaxEvent.openTag ['r', 'o', 'o', 't', '-', 's', 't', 'e', 'p'] []) = { output := ['<', 'h', 'a', 'r', 'm', 'o', 'n', 'y', '>', '<', 'r', 'o', 'o', 't', '>', '<', 'r', 'o', 'o', 't', '-', 's', 't', 'e', 'p', '>', 'C', '<', '/', 'r', 'o', 'o', 't', '-', 's', 't', 'e', 'p', '>', '<', 'r', 'o', 'o', 't', '-', 'a', 'l', 't', 'e', 'r', '>', '1', '<', '/', 'r', 'o', 'o', 't', '-', 'a', 'l', 't', 'e', 'r', '>', '<', '/', 'r', 'o', 'o', 't', '>', '<', '/', 'h', 'a', 'r', 'm', 'o', 'n', 'y', '>', '<', 'h', 'a', 'r', 'm', 'o', 'n', 'y', '>', '<', 'r', 'o', 'o', 't', '>', '<', 'r', 'o', 'o', 't', '-', 's', 't', 'e', 'p', '>'], currentElement := some ['r', 'o', 'o', 't', '-', 's', 't', 'e', 'p'], textContent := [], insideHarmony := true, insideKey := false, insidePitch := false, insideAccidental := false, noteStep := none, noteAlter := none, noteOctave := none, noteTransposedAlter := none, pitchBuffer := [], harmonyRootStepText := none, harmonyBassStepText := none, transposedRoot := none, transposedBass := none, needsRootAlter := false, needsBassAlter := false, hasOriginalRootAlter := false, hasOriginalBassAlter := false, updateRootStep := false, removeLastRootAlter := false, removeLastBassAlter := false } := by decide
  have h11 : stepEvent 1 ({ output := ['<', 'h', 'a', 'r', 'm', 'o', 'n', 'y', '>', '<', 'r', 'o', 'o', 't', '>', '<', 'r', 'o', 'o', 't', '-', 's', 't', 'e', 'p', '>', 'C', '<', '/', 'r', 'o', 'o', 't', '-', 's', 't', 'e', 'p', '>', '<', 'r', 'o', 'o', 't', '-', 'a', 'l', 't', 'e', 'r', '>', '1', '<', '/', 'r', 'o', 'o', 't', '-', 'a', 'l', 't', 'e', 'r', '>', '<', '/', 'r', 'o', 'o', 't', '>', '<', '/', 'h', 'a', 'r', 'm', 'o', 'n', 'y', '>', '<', 'h', 'a', 'r', 'm', 'o', 'n', 'y', '>', '<', 'r', 'o', 'o', 't', '>', '<', 'r', 'o', 'o', 't', '-', 's', 't', 'e', 'p', '>'], currentElement := some ['r', 'o', 'o', 't', '-', 's', 't', 'e', 'p'], textContent := [], insideHarmony := true, insideKey := false, insidePitch := false, insideAccidental := false, noteStep := none, noteAlter := none, noteOctave := none, noteTransposedAlter := none, pitchBuffer := [], harmonyRootStepText := none, harmonyBassStepText := none, transposedRoot := none, transposedBass := none, needsRootAlter := false, needsBassAlter := false, hasOriginalRootAlter := false, hasOriginalBassAlter := false, updateRootStep := false, removeLastRootAlter := false, removeLastBassAlter := false }) (SaxEvent.text ['D']) = { output := ['<', 'h', 'a', 'r', 'm', 'o', 'n', 'y', '>', '<', 'r', 'o', 'o', 't', '>', '<', 'r', 'o', 'o', 't', '-', 's', 't', 'e', 'p', '>', 'C', '<', '/', 'r', 'o', 'o', 't', '-', 's', 't', 'e', 'p', '>', '<', 'r', 'o', 'o', 't', '-', 'a', 'l', 't', 'e', 'r', '>', '1', '<', '/', 'r', 'o', 'o', 't', '-', 'a', 'l', 't', 'e', 'r', '>', '<', '/', 'r', 'o', 'o', 't', '>', '<', '/', 'h', 'a', 'r', 'm', 'o', 'n', 'y', '>', '<', 'h', 'a', 'r', 'm', 'o', 'n', 'y', '>', '<', 'r', 'o', 'o', 't', '>', '<', 'r', 'o', 'o', 't', '-', 's', 't', 'e', 'p', '>'], currentElement := some ['r', 'o', 'o', 't', '-', 's', 't', 'e', 'p'], textContent := ['D'], insideHarmony := true, insideKey := false, insidePitch := false, insideAccidental := false, noteStep := none, noteAlter := none, noteOctave := none, noteTransposedAlter := none, pitchBuffer := [], harmonyRootStepText := none, harmonyBassStepText := none, transposedRoot := none, transposedBass := none, needsRootAlter := false, needsBassAlter := false, hasOriginalRootAlter := false, hasOriginalBassAlter := false, updateRootStep := false, removeLastRootAlter := false, removeLastBassAlter := false } := by decide
  have h12 : stepEvent 1 ({ output := ['<', 'h', 'a', 'r', 'm', 'o', 'n', 'y', '>', '<', 'r', 'o', 'o', 't', '>', '<', 'r', 'o', 'o', 't', '-', 's', 't', 'e', 'p', '>', 'C', '<', '/', 'r', 'o', 'o', 't', '-', 's', 't', 'e', 'p', '>', '<', 'r', 'o', 'o', 't', '-', 'a', 'l', 't', 'e', 'r', '>', '1', '<', '/', 'r', 'o', 'o', 't', '-', 'a', 'l', 't', 'e', 'r', '>', '<', '/', 'r', 'o', 'o', 't', '>', '<', '/', 'h', 'a', 'r', 'm', 'o', 'n', 'y', '>', '<', 'h', 'a', 'r', 'm', 'o', 'n', 'y', '>', '<', 'r', 'o', 'o', 't', '>', '<', 'r', 'o', 'o', 't', '-', 's', 't', 'e', 'p', '>'], currentElement := some ['r', 'o', 'o', 't', '-', 's', 't', 'e', 'p'], textContent := ['D'], insideHarmony := true, insideKey := false, insidePitch := false, insideAccidental := false, noteStep := none, noteAlter := none, noteOctave := none, noteTransposedAlter := none, pitchBuffer := [], harmonyRootStepText := none, harmonyBassStepText := none, transposedRoot := none, transposedBass := none, needsRootAlter := false, needsBassAlter := false, hasOriginalRootAlter := false, hasOriginalBassAlter := false, updateRootStep := false, removeLastRootAlter := false, removeLastBassAlter := false }) (SaxEvent.closeTag ['r', 'o', 'o', 't', '-', 's', 't', 'e', 'p']) = { output := ['<', 'h', 'a', 'r', 'm', 'o', 'n', 'y', '>', '<', 'r', 'o', 'o', 't', '>', '<', 'r', 'o', 'o', 't', '-', 's', 't', 'e', 'p', '>', 'C', '<', '/', 'r', 'o', 'o', 't', '-', 's', 't', 'e', 'p', '>', '<', 'r', 'o', 'o', 't', '-', 'a', 'l', 't', 'e', 'r', '>', '1', '<', '/', 'r', 'o', 'o', 't', '-', 'a', 'l', 't', 'e', 'r', '>', '<', '/', 'r', 'o', 'o', 't', '>', '<', '/', 'h', 'a', 'r', 'm', 'o', 'n', 'y', '>', '<', 'h', 'a', 'r', 'm', 'o', 'n', 'y', '>', '<', 'r', 'o', 'o', 't', '>', '<', 'r', 'o', 'o', 't', '-', 's', 't', 'e', 'p', '>', 'D', '<', '/', 'r', 'o', 'o', 't', '-', 's', 't', 'e', 'p', '>'], currentElement := none, textContent := [], insideHarmony := true, insideKey := false, insidePitch := false, insideAccidental := false, noteStep := none, noteAlter := none, noteOctave := none, noteTransposedAlter := none, pitchBuffer := [], harmonyRootStepText := some ['D'], harmonyBassStepText := none, transposedRoot := some { step := ['D'], alter := some 1, octave := 4 }, transposedBass := none, needsRootAlter := true, needsBassAlter := false, hasOriginalRootAlter := false, hasOriginalBassAlter := false, updateRootStep := false, removeLastRootAlter := false, removeLastBassAlter := false } := by decide
  have h13 : stepEvent 1 ({ output := ['<', 'h', 'a', 'r', 'm', 'o', 'n', 'y', '>', '<', 'r', 'o', 'o', 't', '>', '<', 'r', 'o', 'o', 't', '-', 's', 't', 'e', 'p', '>', 'C', '<', '/', 'r', 'o', 'o', 't', '-', 's', 't', 'e', 'p', '>', '<', 'r', 'o', 'o', 't', '-', 'a', 'l', 't', 'e', 'r', '>', '1', '<', '/', 'r', 'o', 'o', 't', '-', 'a', 'l', 't', 'e', 'r', '>', '<', '/', 'r', 'o', 'o', 't', '>', '<', '/', 'h', 'a', 'r', 'm', 'o', 'n', 'y', '>', '<', 'h', 'a', 'r', 'm', 'o', 'n', 'y', '>', '<', 'r', 'o', 'o', 't', '>', '<', 'r', 'o', 'o', 't', '-', 's', 't', 'e', 'p', '>', 'D', '<', '/', 'r', 'o', 'o', 't', '-', 's', 't', 'e', 'p', '>'], currentElement := none, textContent := [], insideHarmony := true, insideKey := false, insidePitch := false, insideAccidental := false, noteStep := none, noteAlter := none, noteOctave := none, noteTransposedAlter := none, pitchBuffer := [], harmonyRootStepText := some ['D'], harmonyBassStepText := none, transposedRoot := some { step := ['D'], alter := some 1, octave := 4 }, transposedBass := none, needsRootAlter := true, needsBassAlter := false, hasOriginalRootAlter := false, hasOriginalBassAlter := false, updateRootStep := false, removeLastRootAlter := false, removeLastBassAlter := false }) (SaxEvent.openTag ['r', 'o', 'o', 't', '-', 'a', 'l', 't', 'e', 'r'] []) = { output := ['<', 'h', 'a', 'r', 'm', 'o', 'n', 'y', '>', '<', 'r', 'o', 'o', 't', '>', '<', 'r', 'o', 'o', 't', '-', 's', 't', 'e', 'p', '>', 'C', '<', '/', 'r', 'o', 'o', 't', '-', 's', 't', 'e', 'p', '>', '<', 'r', 'o', 'o', 't', '-', 'a', 'l', 't', 'e', 'r', '>', '1', '<', '/', 'r', 'o', 'o', 't', '-', 'a', 'l', 't', 'e', 'r', '>', '<', '/', 'r', 'o', 'o', 't', '>', '<', '/', 'h', 'a', 'r', 'm', 'o', 'n', 'y', '>', '<', 'h', 'a', 'r', 'm', 'o', 'n', 'y', '>', '<', 'r', 'o', 'o', 't', '>', '<', 'r', 'o', 'o', 't', '-', 's', 't', 'e', 'p', '>', 'D', '<', '/', 'r', 'o', 'o', 't', '-', 's', 't', 'e', 'p', '>', '<', 'r', 'o', 'o', 't', '-', 'a', 'l', 't', 'e', 'r', '>'], currentElement := some ['r', 'o', 'o', 't', '-', 'a', 'l', 't', 'e', 'r'], textContent := [], insideHarmony := true, insideKey := false, insidePitch := false, insideAccidental := false, noteStep := none, noteAlter := none, noteOctave := none, noteTransposedAlter := none, pitchBuffer := [], harmonyRootStepText := some ['D'], harmonyBassStepText := none, transposedRoot := some { step := ['D'], alter := some 1, octave := 4 }, transposedBass := none, needsRootAlter := true, needsBassAlter := false, hasOriginalRootAlter := false, hasOriginalBassAlter := false, updateRootStep := false, removeLastRootAlter := false, removeLastBassAlter := false } := by decide
  have h14 : stepEvent 1 ({ output := ['<', 'h', 'a', 'r', 'm', 'o', 'n', 'y', '>', '<', 'r', 'o', 'o', 't', '>', '<', 'r', 'o', 'o', 't', '-', 's', 't', 'e', 'p', '>', 'C', '<', '/', 'r', 'o', 'o', 't', '-', 's', 't', 'e', 'p', '>', '<', 'r', 'o', 'o', 't', '-', 'a', 'l', 't', 'e', 'r', '>', '1', '<', '/', 'r', 'o', 'o', 't', '-', 'a', 'l', 't', 'e', 'r', '>', '<', '/', 'r', 'o', 'o', 't', '>', '<', '/', 'h', 'a', 'r', 'm', 'o', 'n', 'y', '>', '<', 'h', 'a', 'r', 'm', 'o', 'n', 'y', '>', '<', 'r', 'o', 'o', 't', '>', '<', 'r', 'o', 'o', 't', '-', 's', 't', 'e', 'p', '>', 'D', '<', '/', 'r', 'o', 'o', 't', '-', 's', 't', 'e', 'p', '>', '<', 'r', 'o', 'o', 't', '-', 'a', 'l', 't', 'e', 'r', '>'], currentElement := some ['r', 'o', 'o', 't', '-', 'a', 'l', 't', 'e', 'r'], textContent := [], insideHarmony := true, insideKey := false, insidePitch := false, insideAccidental := false, noteStep := none, noteAlter := none, noteOctave := none, noteTransposedAlter := none, pitchBuffer := [], harmonyRootStepText := some ['D'], harmonyBassStepText := none, transposedRoot := some { step := ['D'], alter := some 1, octave := 4 }, transposedBass := none, needsRootAlter := true, needsBassAlter := false, hasOriginalRootAlter := false, hasOriginalBassAlter := false, updateRootStep := false, removeLastRootAlter := false, removeLastBassAlter := false }) (SaxEvent.text ['1']) = { output := ['<', 'h', 'a', 'r', 'm', 'o', 'n', 'y', '>', '<', 'r', 'o', 'o', 't', '>', '<', 'r', 'o', 'o', 't', '-', 's', 't', 'e', 'p', '>', 'C', '<', '/', 'r', 'o', 'o', 't', '-', 's', 't', 'e', 'p', '>', '<', 'r', 'o', 'o', 't', '-', 'a', 'l', 't', 'e', 'r', '>', '1', '<', '/', 'r', 'o', 'o', 't', '-', 'a', 'l', 't', 'e', 'r', '>', '<', '/', 'r', 'o', 'o', 't', '>', '<', '/', 'h', 'a', 'r', 'm', 'o', 'n', 'y', '>', '<', 'h', 'a', 'r', 'm', 'o', 'n', 'y', '>', '<', 'r', 'o', 'o', 't', '>', '<', 'r', 'o', 'o', 't', '-', 's', 't', 'e', 'p', '>', 'D', '<', '/', 'r', 'o', 'o', 't', '-', 's', 't', 'e', 'p', '>', '<', 'r', 'o', 'o', 't', '-', 'a', 'l', 't', 'e', 'r', '>'], currentElement := some ['r', 'o', 'o', 't', '-', 'a', 'l', 't', 'e', 'r'], textContent := ['1'], insideHarmony := true, insideKey := false, insidePitch := false, insideAccidental := false, noteStep := none, noteAlter := none, noteOctave := none, noteTransposedAlter := none, pitchBuffer := [], harmonyRootStepText := some ['D'], harmonyBassStepText := none, transposedRoot := some { step := ['D'], alter := some 1, octave := 4 }, transposedBass := none, needsRootAlter := true, needsBassAlter := false, hasOriginalRootAlter := false, hasOriginalBassAlter := false, updateRootStep := false, removeLastRootAlter := false, removeLastBassAlter := false } := by decide
  have h15 : stepEvent 1 ({ output := ['<', 'h', 'a', 'r', 'm', 'o', 'n', 'y', '>', '<', 'r', 'o', 'o', 't', '>', '<', 'r', 'o', 'o', 't', '-', 's', 't', 'e', 'p', '>', 'C', '<', '/', 'r', 'o', 'o', 't', '-', 's', 't', 'e', 'p', '>', '<', 'r', 'o', 'o', 't', '-', 'a', 'l', 't', 'e', 'r', '>', '1', '<', '/', 'r', 'o', 'o', 't', '-', 'a', 'l', 't', 'e', 'r', '>', '<', '/', 'r', 'o', 'o', 't', '>', '<', '/', 'h', 'a', 'r', 'm', 'o', 'n', 'y', '>', '<', 'h', 'a', 'r', 'm', 'o', 'n', 'y', '>', '<', 'r', 'o', 'o', 't', '>', '<', 'r', 'o', 'o', 't', '-', 's', 't', 'e', 'p', '>', 'D', '<', '/', 'r', 'o', 'o', 't', '-', 's', 't', 'e', 'p', '>', '<', 'r', 'o', 'o', 't', '-', 'a', 'l', 't', 'e', 'r', '>'], currentElement := some ['r', 'o', 'o', 't', '-', 'a', 'l', 't', 'e', 'r'], textContent := ['1'], insideHarmony := true, insideKey := false, insidePitch := false, insideAccidental := false, noteStep := none, noteAlter := none, noteOctave := none, noteTransposedAlter := none, pitchBuffer := [], harmonyRootStepText := some ['D'], harmonyBassStepText := none, transposedRoot := some { step := ['D'], alter := some 1, octave := 4 }, transposedBass := none, needsRootAlter := true, needsBassAlter := false, hasOriginalRootAlter := false, hasOriginalBassAlter := false, updateRootStep := false, removeLastRootAlter := false, removeLastBassAlter := false }) (SaxEvent.closeTag ['r', 'o', 'o', 't', '-', 'a', 'l', 't', 'e', 'r']) = { output := ['<', 'h', 'a', 'r', 'm', 'o', 'n', 'y', '>', '<', 'r', 'o', 'o', 't', '>', '<', 'r', 'o', 'o', 't', '-', 's', 't', 'e', 'p', '>', 'C', '<', '/', 'r', 'o', 'o', 't', '-', 's', 't', 'e', 'p', '>', '<', 'r', 'o', 'o', 't', '-', 'a', 'l', 't', 'e', 'r', '>', '1', '<', '/', 'r', 'o', 'o', 't', '-', 'a', 'l', 't', 'e', 'r', '>', '<', '/', 'r', 'o', 'o', 't', '>', '<', '/', 'h', 'a', 'r', 'm', 'o', 'n', 'y', '>', '<', 'h', 'a', 'r', 'm', 'o', 'n', 'y', '>', '<', 'r', 'o', 'o', 't', '>', '<', 'r', 'o', 'o', 't', '-', 's', 't', 'e', 'p', '>', 'D', '<', '/', 'r', 'o', 'o', 't', '-', 's', 't', 'e', 'p', '>', '<', 'r', 'o', 'o', 't', '-', 'a', 'l', 't', 'e', 'r', '>', '1', '<', '/', 'r', 'o', 'o', 't', '-', 'a', 'l', 't', 'e', 'r', '>'], currentElement := none, textContent := [], insideHarmony := true, insideKey := false, insidePitch := false, insideAccidental := false, noteStep := none, noteAlter := none, noteOctave := none, noteTransposedAlter := none, pitchBuffer := [], harmonyRootStepText := some ['D'], harmonyBassStepText := none, transposedRoot := some { step := ['E'], alter := none, octave := 4 }, transposedBass := none, needsRootAlter := false, needsBassAlter := false, hasOriginalRootAlter := true, hasOriginalBassAlter := false, updateRootStep := true, removeLastRootAlter := true, removeLastBassAlter := false } := by decide
  have h16 : stepEvent 1 ({ output := ['<', 'h', 'a', 'r', 'm', 'o', 'n', 'y', '>', '<', 'r', 'o', 'o', 't', '>', '<', 'r', 'o', 'o', 't', '-', 's', 't', 'e', 'p', '>', 'C', '<', '/', 'r', 'o', 'o', 't', '-', 's', 't', 'e', 'p', '>', '<', 'r', 'o', 'o', 't', '-', 'a', 'l', 't', 'e', 'r', '>', '1', '<', '/', 'r', 'o', 'o', 't', '-', 'a', 'l', 't', 'e', 'r', '>', '<', '/', 'r', 'o', 'o', 't', '>', '<', '/', 'h', 'a', 'r', 'm', 'o', 'n', 'y', '>', '<', 'h', 'a', 'r', 'm', 'o', 'n', 'y', '>', '<', 'r', 'o', 'o', 't', '>', '<', 'r', 'o', 'o', 't', '-', 's', 't', 'e', 'p', '>', 'D', '<', '/', 'r', 'o', 'o', 't', '-', 's', 't', 'e', 'p', '>', '<', 'r', 'o', 'o', 't', '-', 'a', 'l', 't', 'e', 'r', '>', '1', '<', '/', 'r', 'o', 'o', 't', '-', 'a', 'l', 't', 'e', 'r', '>'], currentElement := none, textContent := [], insideHarmony := true, insideKey := false, insidePitch := false, insideAccidental := false, noteStep := none, noteAlter := none, noteOctave := none, noteTransposedAlter := none, pitchBuffer := [], harmonyRootStepText := some ['D'], harmonyBassStepText := none, transposedRoot := some { step := ['E'], alter := none, octave := 4 }, transposedBass := none, needsRootAlter := false, needsBassAlter := false, hasOriginalRootAlter := true, hasOriginalBassAlter := false, updateRootStep := true, removeLastRootAlter := true, removeLastBassAlter := false }) (SaxEvent.closeTag ['r', 'o', 'o', 't']) = { output := ['<', 'h', 'a', 'r', 'm', 'o', 'n', 'y', '>', '<', 'r', 'o', 'o', 't', '>', '<', 'r', 'o', 'o', 't', '-', 's', 't', 'e', 'p', '>', 'E', '<', '/', 'r', 'o', 'o', 't', '-', 's', 't', 'e', 'p', '>', '<', '/', 'r', 'o', 'o', 't', '>', '<', '/', 'h', 'a', 'r', 'm', 'o', 'n', 'y', '>', '<', 'h', 'a', 'r', 'm', 'o', 'n', 'y', '>', '<', 'r', 'o', 'o', 't', '>', '<', 'r', 'o', 'o', 't', '-', 's', 't', 'e', 'p', '>', 'D', '<', '/', 'r', 'o', 'o', 't', '-', 's', 't', 'e', 'p', '>', '<', 'r', 'o', 'o', 't', '-', 'a', 'l', 't', 'e', 'r', '>', '1', '<', '/', 'r', 'o', 'o', 't', '-', 'a', 'l', 't', 'e', 'r', '>', '<', '/', 'r', 'o', 'o', 't', '>'], currentElement := none, textContent := [], insideHarmony := true, insideKey := false, insidePitch := false, insideAccidental := false, noteStep := none, noteAlter := none, noteOctave := none, noteTransposedAlter := none, pitchBuffer := [], harmonyRootStepText := some ['D'], harmonyBassStepText := none, transposedRoot := some { step := ['E'], alter := none, octave := 4 }, transposedBass := none, needsRootAlter := false, needsBassAlter := false, hasOriginalRootAlter := true, hasOriginalBassAlter := false, updateRootStep := true, removeLastRootAlter := true, removeLastBassAlter := false } := by decide
  have h17 : stepEvent 1 ({ output := ['<', 'h', 'a', 'r', 'm', 'o', 'n', 'y', '>', '<', 'r', 'o', 'o', 't', '>', '<', 'r', 'o', 'o', 't', '-', 's', 't', 'e', 'p', '>', 'E', '<', '/', 'r', 'o', 'o', 't', '-', 's', 't', 'e', 'p', '>', '<', '/', 'r', 'o', 'o', 't', '>', '<', '/', 'h', 'a', 'r', 'm', 'o', 'n', 'y', '>', '<', 'h', 'a', 'r', 'm', 'o', 'n', 'y', '>', '<', 'r', 'o', 'o', 't', '>', '<', 'r', 'o', 'o', 't', '-', 's', 't', 'e', 'p', '>', 'D', '<', '/', 'r', 'o', 'o', 't', '-', 's', 't', 'e', 'p', '>', '<', 'r', 'o', 'o', 't', '-', 'a', 'l', 't', 'e', 'r', '>', '1', '<', '/', 'r', 'o', 'o', 't', '-', 'a', 'l', 't', 'e', 'r', '>', '<', '/', 'r', 'o', 'o', 't', '>'], currentElement := none, textContent := [], insideHarmony := true, insideKey := false, insidePitch := false, insideAccidental := false, noteStep := none, noteAlter := none, noteOctave := none, noteTransposedAlter := none, pitchBuffer := [], harmonyRootStepText := some ['D'], harmonyBassStepText := none, transposedRoot := some { step := ['E'], alter := none, octave := 4 }, transposedBass := none, needsRootAlter := false, needsBassAlter := false, hasOriginalRootAlter := true, hasOriginalBassAlter := false, updateRootStep := true, removeLastRootAlter := true, removeLastBassAlter := false }) (SaxEvent.closeTag ['h', 'a', 'r', 'm', 'o', 'n', 'y']) = { output := ['<', 'h', 'a', 'r', 'm', 'o', 'n', 'y', '>', '<', 'r', 'o', 'o', 't', '>', '<', 'r', 'o', 'o', 't', '-', 's', 't', 'e', 'p', '>', 'E', '<', '/', 'r', 'o', 'o', 't', '-', 's', 't', 'e', 'p', '>', '<', '/', 'r', 'o', 'o', 't', '>', '<', '/', 'h', 'a', 'r', 'm', 'o', 'n', 'y', '>', '<', 'h', 'a', 'r', 'm', 'o', 'n', 'y', '>', '<', 'r', 'o', 'o', 't', '>', '<', 'r', 'o', 'o', 't', '-', 's', 't', 'e', 'p', '>', 'D', '<', '/', 'r', 'o', 'o', 't', '-', 's', 't', 'e', 'p', '>', '<', 'r', 'o', 'o', 't', '-', 'a', 'l', 't', 'e', 'r', '>', '1', '<', '/', 'r', 'o', 'o', 't', '-', 'a', 'l', 't', 'e', 'r', '>', '<', '/', 'r', 'o', 'o', 't', '>', '<', '/', 'h', 'a', 'r', 'm', 'o', 'n', 'y', '>'], currentElement := none, textContent := [], insideHarmony := false, insideKey := false, insidePitch := false, insideAccidental := false, noteStep := none, noteAlter := none, noteOctave := none, noteTransposedAlter := none, pitchBuffer := [], harmonyRootStepText := none, harmonyBassStepText := none, transposedRoot := none, transposedBass := none, needsRootAlter := false, needsBassAlter := false, hasOriginalRootAlter := false, hasOriginalBassAlter := false, updateRootStep := false, removeLastRootAlter := false, removeLastBassAlter := false } := by decide
  show (stepEvent 1 (stepEvent 1 (stepEvent 1 (stepEvent 1 (stepEvent 1 (stepEvent 1 (stepEvent 1 (stepEvent 1 (stepEvent 1 (stepEvent 1 (stepEvent 1 (stepEvent 1 (stepEvent 1 (stepEvent 1 (stepEvent 1 (stepEvent 1 (stepEvent 1 (initialState) (SaxEvent.openTag ['h', 'a', 'r', 'm', 'o', 'n', 'y'] [])) (SaxEvent.openTag ['r', 'o', 'o', 't'] [])) (SaxEvent.openTag ['r', 'o', 'o', 't', '-', 's', 't', 'e', 'p'] [])) (SaxEvent.text ['C'])) (SaxEvent.closeTag ['r', 'o', 'o', 't', '-', 's', 't', 'e', 'p'])) (SaxEvent.closeTag ['r', 'o', 'o', 't'])) (SaxEvent.closeTag ['h', 'a', 'r', 'm', 'o', 'n', 'y'])) (SaxEvent.openTag ['h', 'a', 'r', 'm', 'o', 'n', 'y'] [])) (SaxEvent.openTag ['r', 'o', 'o', 't'] [])) (SaxEvent.openTag ['r', 'o', 'o', 't', '-', 's', 't', 'e', 'p'] [])) (SaxEvent.text ['D'])) (SaxEvent.closeTag ['r', 'o', 'o', 't', '-', 's', 't', 'e', 'p'])) (SaxEvent.openTag ['r', 'o', 'o', 't', '-', 'a', 'l', 't', 'e', 'r'] [])) (SaxEvent.text ['1'])) (SaxEvent.closeTag ['r', 'o', 'o', 't', '-', 'a', 'l', 't', 'e', 'r'])) (SaxEvent.closeTag ['r', 'o', 'o', 't'])) (SaxEvent.closeTag ['h', 'a', 'r', 'm', 'o', 'n', 'y'])).output = _
  rw [h1]
  rw [h2]
  rw [h3]
  rw [h4]
  rw [h5]
  rw [h6]
  rw [h7]
  rw [h8]
  rw [h9]
  rw [h10]
  rw [h11]
  rw [h12]
  rw [h13]
  rw [h14]
  rw [h15]
  rw [h16]
  rw [h17]


set_option maxHeartbeats 4000000 in
/-- Output of the rewriter on `docBassAlter` at +1 semitone. -/
lemma docBassAlter_out :
    rewriteDoc 1 docBassAlter = ['<', 'h', 'a', 'r', 'm', 'o', 'n', 'y', '>', '<', 'b', 'a', 's', 's', '>', '<', 'b', 'a', 's', 's', '-', 's', 't', 'e', 'p', '>', 'D', '<', '/', 'b', 'a', 's', 's', '-', 's', 't', 'e', 'p', '>', '<', '/', 'b', 'a', 's', 's', '>', '<', '/', 'h', 'a', 'r', 'm', 'o', 'n', 'y', '>'] := by
  have h1 : stepEvent 1 initialState (SaxEvent.openTag ['h', 'a', 'r', 'm', 'o', 'n', 'y'] []) = { output := ['<', 'h', 'a', 'r', 'm', 'o', 'n', 'y', '>'], currentElement := none, textContent := [], insideHarmony := true, insideKey := false, insidePitch := false, insideAccidental := false, noteStep := none, noteAlter := none, noteOctave := none, noteTransposedAlter := none, pitchBuffer := [], harmonyRootStepText := none, harmonyBassStepText := none, transposedRoot := none, transposedBass := none, needsRootAlter := false, needsBassAlter := false, hasOriginalRootAlter := false, hasOriginalBassAlter := false, updateRootStep := false, removeLastRootAlter := false, removeLastBassAlter := false } := by decide
  have h2 : stepEvent 1 ({ output := ['<', 'h', 'a', 'r', 'm', 'o', 'n', 'y', '>'], currentElement := none, textContent := [], insideHarmony := true, insideKey := false, insidePitch := false, insideAccidental := false, noteStep := none, noteAlter := none, noteOctave := none, noteTransposedAlter := none, pitchBuffer := [], harmonyRootStepText := none, harmonyBassStepText := none, transposedRoot := none, transposedBass := none, needsRootAlter := false, needsBassAlter := false, hasOriginalRootAlter := false, hasOriginalBassAlter := false, updateRootStep := false, removeLastRootAlter := false, removeLastBassAlter := false }) (SaxEvent.openTag ['b', 'a', 's', 's'] []) = { output := ['<', 'h', 'a', 'r', 'm', 'o', 'n', 'y', '>', '<', 'b', 'a', 's', 's', '>'], currentElement := none, textContent := [], insideHarmony := true, insideKey := false, insidePitch := false, insideAccidental := false, noteStep := none, noteAlter := none, noteOctave := none, noteTransposedAlter := none, pitchBuffer := [], harmonyRootStepText := none, harmonyBassStepText := none, transposedRoot := none, transposedBass := none, needsRootAlter := false, needsBassAlter := false, hasOriginalRootAlter := false, hasOriginalBassAlter := false, updateRootStep := false, removeLastRootAlter := false, removeLastBassAlter := false } := by decide
  have h3 : stepEvent 1 ({ output := ['<', 'h', 'a', 'r', 'm', 'o', 'n', 'y', '>', '<', 'b', 'a', 's', 's', '>'], currentElement := none, textContent := [], insideHarmony := true, insideKey := false, insidePitch := false, insideAccidental := false, noteStep := none, noteAlter := none, noteOctave := none, noteTransposedAlter := none, pitchBuffer := [], harmonyRootStepText := none, harmonyBassStepText := none, transposedRoot := none, transposedBass := none, needsRootAlter := false, needsBassAlter := false, hasOriginalRootAlter := false, hasOriginalBassAlter := false, updateRootStep := false, removeLastRootAlter := false, removeLastBassAlter := false }) (SaxEvent.openTag ['b', 'a', 's', 's', '-', 's', 't', 'e', 'p'] []) = { output := ['<', 'h', 'a', 'r', 'm', 'o', 'n', 'y', '>', '<', 'b', 'a', 's', 's', '>', '<', 'b', 'a', 's', 's', '-', 's', 't', 'e', 'p', '>'], currentElement := some ['b', 'a', 's', 's', '-', 's', 't', 'e', 'p'], textContent := [], insideHarmony := true, insideKey := false, insidePitch := false, insideAccidental := false, noteStep := none, noteAlter := none, noteOctave := none, noteTransposedAlter := none, pitchBuffer := [], harmonyRootStepText := none, harmonyBassStepText := none, transposedRoot := none, transposedBass := none, needsRootAlter := false, needsBassAlter := false, hasOriginalRootAlter := false, hasOriginalBassAlter := false, updateRootStep := false, removeLastRootAlter := false, removeLastBassAlter := false } := by decide
  have h4 : stepEvent 1 ({ output := ['<', 'h', 'a', 'r', 'm', 'o', 'n', 'y', '>', '<', 'b', 'a', 's', 's', '>', '<', 'b', 'a', 's', 's', '-', 's', 't', 'e', 'p', '>'], currentElement := some ['b', 'a', 's', 's', '-', 's', 't', 'e', 'p'], textContent := [], insideHarmony := true, insideKey := false, insidePitch := false, insideAccidental := false, noteStep := none, noteAlter := none, noteOctave := none, noteTransposedAlter := none, pitchBuffer := [], harmonyRootStepText := none, harmonyBassStepText := none, transposedRoot := none, transposedBass := none, needsRootAlter := false, needsBassAlter := false, hasOriginalRootAlter := false, hasOriginalBassAlter := false, updateRootStep := false, removeLastRootAlter := false, removeLastBassAlter := false }) (SaxEvent.text ['D']) = { output := ['<', 'h', 'a', 'r', 'm', 'o', 'n', 'y', '>', '<', 'b', 'a', 's', 's', '>', '<', 'b', 'a', 's', 's', '-', 's', 't', 'e', 'p', '>'], currentElement := some ['b', 'a', 's', 's', '-', 's', 't', 'e', 'p'], textContent := ['D'], insideHarmony := true, insideKey := false, insidePitch := false, insideAccidental := false, noteStep := none, noteAlter := none, noteOctave := none, noteTransposedAlter := none, pitchBuffer := [], harmonyRootStepText := none, harmonyBassStepText := none, transposedRoot := none, transposedBass := none, needsRootAlter := false, needsBassAlter := false, hasOriginalRootAlter := false, hasOriginalBassAlter := false, updateRootStep := false, removeLastRootAlter := false, removeLastBassAlter := false } := by decide
  have h5 : stepEvent 1 ({ output := ['<', 'h', 'a', 'r', 'm', 'o', 'n', 'y', '>', '<', 'b', 'a', 's', 's', '>', '<', 'b', 'a', 's', 's', '-', 's', 't', 'e', 'p', '>'], currentElement := some ['b', 'a', 's', 's', '-', 's', 't', 'e', 'p'], textContent := ['D'], insideHarmony := true, insideKey := false, insidePitch := false, insideAccidental := false, noteStep := none, noteAlter := none, noteOctave := none, noteTransposedAlter := none, pitchBuffer := [], harmonyRootStepText := none, harmonyBassStepText := none, transposedRoot := none, transposedBass := none, needsRootAlter := false, needsBassAlter := false, hasOriginalRootAlter := false, hasOriginalBassAlter := false, updateRootStep := false, removeLastRootAlter := false, removeLastBassAlter := false }) (SaxEvent.closeTag ['b', 'a', 's', 's', '-', 's', 't', 'e', 'p']) = { output := ['<', 'h', 'a', 'r', 'm', 'o', 'n', 'y', '>', '<', 'b', 'a', 's', 's', '>', '<', 'b', 'a', 's', 's', '-', 's', 't', 'e', 'p', '>', 'D', '<', '/', 'b', 'a', 's', 's', '-', 's', 't', 'e', 'p', '>'], currentElement := none, textContent := [], insideHarmony := true, insideKey := false, insidePitch := false, insideAccidental := false, noteStep := none, noteAlter := none, noteOctave := none, noteTransposedAlter := none, pitchBuffer := [], harmonyRootStepText := none, harmonyBassStepText := some ['D'], transposedRoot := none, transposedBass := some { step := ['D'], alter := some 1, octave := 4 }, needsRootAlter := false, needsBassAlter := true, hasOriginalRootAlter := false, hasOriginalBassAlter := false, updateRootStep := false, removeLastRootAlter := false, removeLastBassAlter := false } := by decide
  have h6 : stepEvent 1 ({ output := ['<', 'h', 'a', 'r', 'm', 'o', 'n', 'y', '>', '<', 'b', 'a', 's', 's', '>', '<', 'b', 'a', 's', 's', '-', 's', 't', 'e', 'p', '>', 'D', '<', '/', 'b', 'a', 's', 's', '-', 's', 't', 'e', 'p', '>'], currentElement := none, textContent := [], insideHarmony := true, insideKey := false, insidePitch := false, insideAccidental := false, noteStep := none, noteAlter := none, noteOctave := none, noteTransposedAlter := none, pitchBuffer := [], harmonyRootStepText := none, harmonyBassStepText := some ['D'], transposedRoot := none, transposedBass := some { step := ['D'], alter := some 1, octave := 4 }, needsRootAlter := false, needsBassAlter := true, hasOriginalRootAlter := false, hasOriginalBassAlter := false, updateRootStep := false, removeLastRootAlter := false, removeLastBassAlter := false }) (SaxEvent.openTag ['b', 'a', 's', 's', '-', 'a', 'l', 't', 'e', 'r'] []) = { output := ['<', 'h', 'a', 'r', 'm', 'o', 'n', 'y', '>', '<', 'b', 'a', 's', 's', '>', '<', 'b', 'a', 's', 's', '-', 's', 't', 'e', 'p', '>', 'D', '<', '/', 'b', 'a', 's', 's', '-', 's', 't', 'e', 'p', '>', '<', 'b', 'a', 's', 's', '-', 'a', 'l', 't', 'e', 'r', '>'], currentElement := some ['b', 'a', 's', 's', '-', 'a', 'l', 't', 'e', 'r'], textContent := [], insideHarmony := true, insideKey := false, insidePitch := false, insideAccidental := false, noteStep := none, noteAlter := none, noteOctave := none, noteTransposedAlter := none, pitchBuffer := [], harmonyRootStepText := none, harmonyBassStepText := some ['D'], transposedRoot := none, transposedBass := some { step := ['D'], alter := some 1, octave := 4 }, needsRootAlter := false, needsBassAlter := true, hasOriginalRootAlter := false, hasOriginalBassAlter := false, updateRootStep := false, removeLastRootAlter := false, removeLastBassAlter := false } := by decide
  have h7 : stepEvent 1 ({ output := ['<', 'h', 'a', 'r', 'm', 'o', 'n', 'y', '>', '<', 'b', 'a', 's', 's', '>', '<', 'b', 'a', 's', 's', '-', 's', 't', 'e', 'p', '>', 'D', '<', '/', 'b', 'a', 's', 's', '-', 's', 't', 'e', 'p', '>', '<', 'b', 'a', 's', 's', '-', 'a', 'l', 't', 'e', 'r', '>'], currentElement := some ['b', 'a', 's', 's', '-', 'a', 'l', 't', 'e', 'r'], textContent := [], insideHarmony := true, insideKey := false, insidePitch := false, insideAccidental := false, noteStep := none, noteAlter := none, noteOctave := none, noteTransposedAlter := none, pitchBuffer := [], harmonyRootStepText := none, harmonyBassStepText := some ['D'], transposedRoot := none, transposedBass := some { step := ['D'], alter := some 1, octave := 4 }, needsRootAlter := false, needsBassAlter := true, hasOriginalRootAlter := false, hasOriginalBassAlter := false, updateRootStep := false, removeLastRootAlter := false, removeLastBassAlter := false }) (SaxEvent.text ['1']) = { output := ['<', 'h', 'a', 'r', 'm', 'o', 'n', 'y', '>', '<', 'b', 'a', 's', 's', '>', '<', 'b', 'a', 's', 's', '-', 's', 't', 'e', 'p', '>', 'D', '<', '/', 'b', 'a', 's', 's', '-', 's', 't', 'e', 'p', '>', '<', 'b', 'a', 's', 's', '-', 'a', 'l', 't', 'e', 'r', '>'], currentElement := some ['b', 'a', 's', 's', '-', 'a', 'l', 't', 'e', 'r'], textContent := ['1'], insideHarmony := true, insideKey := false, insidePitch := false, insideAccidental := false, noteStep := none, noteAlter := none, noteOctave := none, noteTransposedAlter := none, pitchBuffer := [], harmonyRootStepText := none, harmonyBassStepText := some ['D'], transposedRoot := none, transposedBass := some { step := ['D'], alter := some 1, octave := 4 }, needsRootAlter := false, needsBassAlter := true, hasOriginalRootAlter := false, hasOriginalBassAlter := false, updateRootStep := false, removeLastRootAlter := false, removeLastBassAlter := false } := by decide
  have h8 : stepEvent 1 ({ output := ['<', 'h', 'a', 'r', 'm', 'o', 'n', 'y', '>', '<', 'b', 'a', 's', 's', '>', '<', 'b', 'a', 's', 's', '-', 's', 't', 'e', 'p', '>', 'D', '<', '/', 'b', 'a', 's', 's', '-', 's', 't', 'e', 'p', '>', '<', 'b', 'a', 's', 's', '-', 'a', 'l', 't', 'e', 'r', '>'], currentElement := some ['b', 'a', 's', 's', '-', 'a', 'l', 't', 'e', 'r'], textContent := ['1'], insideHarmony := true, insideKey := false, insidePitch := false, insideAccidental := false, noteStep := none, noteAlter := none, noteOctave := none, noteTransposedAlter := none, pitchBuffer := [], harmonyRootStepText := none, harmonyBassStepText := some ['D'], transposedRoot := none, transposedBass := some { step := ['D'], alter := some 1, octave := 4 }, needsRootAlter := false, needsBassAlter := true, hasOriginalRootAlter := false, hasOriginalBassAlter := false, updateRootStep := false, removeLastRootAlter := false, removeLastBassAlter := false }) (SaxEvent.closeTag ['b', 'a', 's', 's', '-', 'a', 'l', 't', 'e', 'r']) = { output := ['<', 'h', 'a', 'r', 'm', 'o', 'n', 'y', '>', '<', 'b', 'a', 's', 's', '>', '<', 'b', 'a', 's', 's', '-', 's', 't', 'e', 'p', '>', 'D', '<', '/', 'b', 'a', 's', 's', '-', 's', 't', 'e', 'p', '>', '<', 'b', 'a', 's', 's', '-', 'a', 'l', 't', 'e', 'r', '>', '1', '<', '/', 'b', 'a', 's', 's', '-', 'a', 'l', 't', 'e', 'r', '>'], currentElement := none, textContent := [], insideHarmony := true, insideKey := false, insidePitch := false, insideAccidental := false, noteStep := none, noteAlter := none, noteOctave := none, noteTransposedAlter := none, pitchBuffer := [], harmonyRootStepText := none, harmonyBassStepText := some ['D'], transposedRoot := none, transposedBass := some { step := ['E'], alter := none, octave := 4 }, needsRootAlter := false, needsBassAlter := false, hasOriginalRootAlter := false, hasOriginalBassAlter := true, updateRootStep := false, removeLastRootAlter := false, removeLastBassAlter := true } := by decide
  have h9 : stepEvent 1 ({ output := ['<', 'h', 'a', 'r', 'm', 'o', 'n', 'y', '>', '<', 'b', 'a', 's', 's', '>', '<', 'b', 'a', 's', 's', '-', 's', 't', 'e', 'p', '>', 'D', '<', '/', 'b', 'a', 's', 's', '-', 's', 't', 'e', 'p', '>', '<', 'b', 'a', 's', 's', '-', 'a', 'l', 't', 'e', 'r', '>', '1', '<', '/', 'b', 'a', 's', 's', '-', 'a', 'l', 't', 'e', 'r', '>'], currentElement := none, textContent := [], insideHarmony := true, insideKey := false, insidePitch := false, insideAccidental := false, noteStep := none, noteAlter := none, noteOctave := none, noteTransposedAlter := none, pitchBuffer := [], harmonyRootStepText := none, harmonyBassStepText := some ['D'], transposedRoot := none, transposedBass := some { step := ['E'], alter := none, octave := 4 }, needsRootAlter := false, needsBassAlter := false, hasOriginalRootAlter := false, hasOriginalBassAlter := true, updateRootStep := false, removeLastRootAlter := false, removeLastBassAlter := true }) (SaxEvent.closeTag ['b', 'a', 's', 's']) = { output := ['<', 'h', 'a', 'r', 'm', 'o', 'n', 'y', '>', '<', 'b', 'a', 's', 's', '>', '<', 'b', 'a', 's', 's', '-', 's', 't', 'e', 'p', '>', 'D', '<', '/', 'b', 'a', 's', 's', '-', 's', 't', 'e', 'p', '>', '<', '/', 'b', 'a', 's', 's', '>'], currentElement := none, textContent := [], insideHarmony := true, insideKey := false, insidePitch := false, insideAccidental := false, noteStep := none, noteAlter := none, noteOctave := none, noteTransposedAlter := none, pitchBuffer := [], harmonyRootStepText := none, harmonyBassStepText := some ['D'], transposedRoot := none, transposedBass := some { step := ['E'], alter := none, octave := 4 }, needsRootAlter := false, needsBassAlter := false, hasOriginalRootAlter := false, hasOriginalBassAlter := true, updateRootStep := false, removeLastRootAlter := false, removeLastBassAlter := true } := by decide
  have h10 : stepEvent 1 ({ output := ['<', 'h', 'a', 'r', 'm', 'o', 'n', 'y', '>', '<', 'b', 'a', 's', 's', '>', '<', 'b', 'a', 's', 's', '-', 's', 't', 'e', 'p', '>', 'D', '<', '/', 'b', 'a', 's', 's', '-', 's', 't', 'e', 'p', '>', '<', '/', 'b', 'a', 's', 's', '>'], currentElement := none, textContent := [], insideHarmony := true, insideKey := false, insidePitch := false, insideAccidental := false, noteStep := none, noteAlter := none, noteOctave := none, noteTransposedAlter := none, pitchBuffer := [], harmonyRootStepText := none, harmonyBassStepText := some ['D'], transposedRoot := none, transposedBass := some { step := ['E'], alter := none, octave := 4 }, needsRootAlter := false, needsBassAlter := false, hasOriginalRootAlter := false, hasOriginalBassAlter := true, updateRootStep := false, removeLastRootAlter := false, removeLastBassAlter := true }) (SaxEvent.closeTag ['h', 'a', 'r', 'm', 'o', 'n', 'y']) = { output := ['<', 'h', 'a', 'r', 'm', 'o', 'n', 'y', '>', '<', 'b', 'a', 's', 's', '>', '<', 'b', 'a', 's', 's', '-', 's', 't', 'e', 'p', '>', 'D', '<', '/', 'b', 'a', 's', 's', '-', 's', 't', 'e', 'p', '>', '<', '/', 'b', 'a', 's', 's', '>', '<', '/', 'h', 'a', 'r', 'm', 'o', 'n', 'y', '>'], currentElement := none, textContent := [], insideHarmony := false, insideKey := false, insidePitch := false, insideAccidental := false, noteStep := none, noteAlter := none, noteOctave := none, noteTransposedAlter := none, pitchBuffer := [], harmonyRootStepText := none, harmonyBassStepText := none, transposedRoot := none, transposedBass := none, needsRootAlter := false, needsBassAlter := false, hasOriginalRootAlter := false, hasOriginalBassAlter := false, updateRootStep := false, removeLastRootAlter := false, removeLastBassAlter := false } := by decide
  show (stepEvent 1 (stepEvent 1 (stepEvent 1 (stepEvent 1 (stepEvent 1 (stepEvent 1 (stepEvent 1 (stepEvent 1 (stepEvent 1 (stepEvent 1 (initialState) (SaxEvent.openTag ['h', 'a', 'r', 'm', 'o', 'n', 'y'] [])) (SaxEvent.openTag ['b', 'a', 's', 's'] [])) (SaxEvent.openTag ['b', 'a', 's', 's', '-', 's', 't', 'e', 'p'] [])) (SaxEvent.text ['D'])) (SaxEvent.closeTag ['b', 'a', 's', 's', '-', 's', 't', 'e', 'p'])) (SaxEvent.openTag ['b', 'a', 's', 's', '-', 'a', 'l', 't', 'e', 'r'] [])) (SaxEvent.text ['1'])) (SaxEvent.closeTag ['b', 'a', 's', 's', '-', 'a', 'l', 't', 'e', 'r'])) (SaxEvent.closeTag ['b', 'a', 's', 's'])) (SaxEvent.closeTag ['h', 'a', 'r', 'm', 'o', 'n', 'y'])).output = _
  rw [h1]
  rw [h2]
  rw [h3]
  rw [h4]
  rw [h5]
  rw [h6]
  rw [h7]
  rw [h8]
  rw [h9]
  rw [h10]


set_option maxHeartbeats 4000000 in
/-- Output of the rewriter on `docCollapsingAlter` at 0 semitones. -/
lemma docCollapsingAlter_out :
    rewriteDoc 0 docCollapsingAlter = ['<', 'h', 'a', 'r', 'm', 'o', 'n', 'y', '>', '<', 'r', 'o', 'o', 't', '>', '<', 'r', 'o', 'o', 't', '-', 's', 't', 'e', 'p', '>', 'C', '<', '/', 'r', 'o', 'o', 't', '-', 's', 't', 'e', 'p', '>', '<', '/', 'r', 'o', 'o', 't', '>', '<', '/', 'h', 'a', 'r', 'm', 'o', 'n', 'y', '>', '<', 'h', 'a', 'r', 'm', 'o', 'n', 'y', '>', '<', 'r', 'o', 'o', 't', '>', '<', 'r', 'o', 'o', 't', '-', 's', 't', 'e', 'p', '>', 'B', '<', '/', 'r', 'o', 'o', 't', '-', 's', 't', 'e', 'p', '>', '<', 'r', 'o', 'o', 't', '-', 'a', 'l', 't', 'e', 'r', '>', '1', '<', '/', 'r', 'o', 'o', 't', '-', 'a', 'l', 't', 'e', 'r', '>', '<', '/', 'r', 'o', 'o', 't', '>', '<', '/', 'h', 'a', 'r', 'm', 'o', 'n', 'y', '>'] := by
  have h1 : stepEvent 0 initialState (SaxEvent.openTag ['h', 'a', 'r', 'm', 'o', 'n', 'y'] []) = { output := ['<', 'h', 'a', 'r', 'm', 'o', 'n', 'y', '>'], currentElement := none, textContent := [], insideHarmony := true, insideKey := false, insidePitch := false, insideAccidental := false, noteStep := none, noteAlter := none, noteOctave := none, noteTransposedAlter := none, pitchBuffer := [], harmonyRootStepText := none, harmonyBassStepText := none, transposedRoot := none, transposedBass := none, needsRootAlter := false, needsBassAlter := false, hasOriginalRootAlter := false, hasOriginalBassAlter := false, updateRootStep := false, removeLastRootAlter := false, removeLastBassAlter := false } := by decide
  have h2 : stepEvent 0 ({ output := ['<', 'h', 'a', 'r', 'm', 'o', 'n', 'y', '>'], currentElement := none, textContent := [], insideHarmony := true, insideKey := false, insidePitch := false, insideAccidental := false, noteStep := none, noteAlter := none, noteOctave := none, noteTransposedAlter := none, pitchBuffer := [], harmonyRootStepText := none, harmonyBassStepText := none, transposedRoot := none, transposedBass := none, needsRootAlter := false, needsBassAlter := false, hasOriginalRootAlter := false, hasOriginalBassAlter := false, updateRootStep := false, removeLastRootAlter := false, removeLastBassAlter := false }) (SaxEvent.openTag ['r', 'o', 'o', 't'] []) = { output := ['<', 'h', 'a', 'r', 'm', 'o', 'n', 'y', '>', '<', 'r', 'o', 'o', 't', '>'], currentElement := none, textContent := [], insideHarmony := true, insideKey := false, insidePitch := false, insideAccidental := false, noteStep := none, noteAlter := none, noteOctave := none, noteTransposedAlter := none, pitchBuffer := [], harmonyRootStepText := none, harmonyBassStepText := none, transposedRoot := none, transposedBass := none, needsRootAlter := false, needsBassAlter := false, hasOriginalRootAlter := false, hasOriginalBassAlter := false, updateRootStep := false, removeLastRootAlter := false, removeLastBassAlter := false } := by decide
  have h3 : stepEvent 0 ({ output := ['<', 'h', 'a', 'r', 'm', 'o', 'n', 'y', '>', '<', 'r', 'o', 'o', 't', '>'], currentElement := none, textContent := [], insideHarmony := true, insideKey := false, insidePitch := false, insideAccidental := false, noteStep := none, noteAlter := none, noteOctave := none, noteTransposedAlter := none, pitchBuffer := [], harmonyRootStepText := none, harmonyBassStepText := none, transposedRoot := none, transposedBass := none, needsRootAlter := false, needsBassAlter := false, hasOriginalRootAlter := false, hasOriginalBassAlter := false, updateRootStep := false, removeLastRootAlter := false, removeLastBassAlter := false }) (SaxEvent.openTag ['r', 'o', 'o', 't', '-', 's', 't', 'e', 'p'] []) = { output := ['<', 'h', 'a', 'r', 'm', 'o', 'n', 'y', '>', '<', 'r', 'o', 'o', 't', '>', '<', 'r', 'o', 'o', 't', '-', 's', 't', 'e', 'p', '>'], currentElement := some ['r', 'o', 'o', 't', '-', 's', 't', 'e', 'p'], textContent := [], insideHarmony := true, insideKey := false, insidePitch := false, insideAccidental := false, noteStep := none, noteAlter := none, noteOctave := none, noteTransposedAlter := none, pitchBuffer := [], harmonyRootStepText := none, harmonyBassStepText := none, transposedRoot := none, transposedBass := none, needsRootAlter := false, needsBassAlter := false, hasOriginalRootAlter := false, hasOriginalBassAlter := false, updateRootStep := false, removeLastRootAlter := false, removeLastBassAlter := false } := by decide
  have h4 : stepEvent 0 ({ output := ['<', 'h', 'a', 'r', 'm', 'o', 'n', 'y', '>', '<', 'r', 'o', 'o', 't', '>', '<', 'r', 'o', 'o', 't', '-', 's', 't', 'e', 'p', '>'], currentElement := some ['r', 'o', 'o', 't', '-', 's', 't', 'e', 'p'], textContent := [], insideHarmony := true, insideKey := false, insidePitch := false, insideAccidental := false, noteStep := none, noteAlter := none, noteOctave := none, noteTransposedAlter := none, pitchBuffer := [], harmonyRootStepText := none, harmonyBassStepText := none, transposedRoot := none, transposedBass := none, needsRootAlter := false, needsBassAlter := false, hasOriginalRootAlter := false, hasOriginalBassAlter := false, updateRootStep := false, removeLastRootAlter := false, removeLastBassAlter := false }) (SaxEvent.text ['C']) = { output := ['<', 'h', 'a', 'r', 'm', 'o', 'n', 'y', '>', '<', 'r', 'o', 'o', 't', '>', '<', 'r', 'o', 'o', 't', '-', 's', 't', 'e', 'p', '>'], currentElement := some ['r', 'o', 'o', 't', '-', 's', 't', 'e', 'p'], textContent := ['C'], insideHarmony := true, insideKey := false, insidePitch := false, insideAccidental := false, noteStep := none, noteAlter := none, noteOctave := none, noteTransposedAlter := none, pitchBuffer := [], harmonyRootStepText := none, harmonyBassStepText := none, transposedRoot := none, transposedBass := none, needsRootAlter := false, needsBassAlter := false, hasOriginalRootAlter := false, hasOriginalBassAlter := false, updateRootStep := false, removeLastRootAlter := false, removeLastBassAlter := false } := by decide
  have h5 : stepEvent 0 ({ output := ['<', 'h', 'a', 'r', 'm', 'o', 'n', 'y', '>', '<', 'r', 'o', 'o', 't', '>', '<', 'r', 'o', 'o', 't', '-', 's', 't', 'e', 'p', '>'], currentElement := some ['r', 'o', 'o', 't', '-', 's', 't', 'e', 'p'], textContent := ['C'], insideHarmony := true, insideKey := false, insidePitch := false, insideAccidental := false, noteStep := none, noteAlter := none, noteOctave := none, noteTransposedAlter := none, pitchBuffer := [], harmonyRootStepText := none, harmonyBassStepText := none, transposedRoot := none, transposedBass := none, needsRootAlter := false, needsBassAlter := false, hasOriginalRootAlter := false, hasOriginalBassAlter := false, updateRootStep := false, removeLastRootAlter := false, removeLastBassAlter := false }) (SaxEvent.closeTag ['r', 'o', 'o', 't', '-', 's', 't', 'e', 'p']) = { output := ['<', 'h', 'a', 'r', 'm', 'o', 'n', 'y', '>', '<', 'r', 'o', 'o', 't', '>', '<', 'r', 'o', 'o', 't', '-', 's', 't', 'e', 'p', '>', 'C', '<', '/', 'r', 'o', 'o', 't', '-', 's', 't', 'e', 'p', '>'], currentElement := none, textContent := [], insideHarmony := true, insideKey := false, insidePitch := false, insideAccidental := false, noteStep := none, noteAlter := none, noteOctave := none, noteTransposedAlter := none, pitchBuffer := [], harmonyRootStepText := some ['C'], harmonyBassStepText := none, transposedRoot := some { step := ['C'], alter := none, octave := 4 }, transposedBass := none, needsRootAlter := false, needsBassAlter := false, hasOriginalRootAlter := false, hasOriginalBassAlter := false, updateRootStep := false, removeLastRootAlter := false, removeLastBassAlter := false } := by decide
  have h6 : stepEvent 0 ({ output := ['<', 'h', 'a', 'r', 'm', 'o', 'n', 'y', '>', '<', 'r', 'o', 'o', 't', '>', '<', 'r', 'o', 'o', 't', '-', 's', 't', 'e', 'p', '>', 'C', '<', '/', 'r', 'o', 'o', 't', '-', 's', 't', 'e', 'p', '>'], currentElement := none, textContent := [], insideHarmony := true, insideKey := false, insidePitch := false, insideAccidental := false, noteStep := none, noteAlter := none, noteOctave := none, noteTransposedAlter := none, pitchBuffer := [], harmonyRootStepText := some ['C'], harmonyBassStepText := none, transposedRoot := some { step := ['C'], alter := none, octave := 4 }, transposedBass := none, needsRootAlter := false, needsBassAlter := false, hasOriginalRootAlter := false, hasOriginalBassAlter := false, updateRootStep := false, removeLastRootAlter := false, removeLastBassAlter := false }) (SaxEvent.openTag ['r', 'o', 'o', 't', '-', 'a', 'l', 't', 'e', 'r'] []) = { output := ['<', 'h', 'a', 'r', 'm', 'o', 'n', 'y', '>', '<', 'r', 'o', 'o', 't', '>', '<', 'r', 'o', 'o', 't', '-', 's', 't', 'e', 'p', '>', 'C', '<', '/', 'r', 'o', 'o', 't', '-', 's', 't', 'e', 'p', '>', '<', 'r', 'o', 'o', 't', '-', 'a', 'l', 't', 'e', 'r', '>'], currentElement := some ['r', 'o', 'o', 't', '-', 'a', 'l', 't', 'e', 'r'], textContent := [], insideHarmony := true, insideKey := false, insidePitch := false, insideAccidental := false, noteStep := none, noteAlter := none, noteOctave := none, noteTransposedAlter := none, pitchBuffer := [], harmonyRootStepText := some ['C'], harmonyBassStepText := none, transposedRoot := some { step := ['C'], alter := none, octave := 4 }, transposedBass := none, needsRootAlter := false, needsBassAlter := false, hasOriginalRootAlter := false, hasOriginalBassAlter := false, updateRootStep := false, removeLastRootAlter := false, removeLastBassAlter := false } := by decide
  have h7 : stepEvent 0 ({ output := ['<', 'h', 'a', 'r', 'm', 'o', 'n', 'y', '>', '<', 'r', 'o', 'o', 't', '>', '<', 'r', 'o', 'o', 't', '-', 's', 't', 'e', 'p', '>', 'C', '<', '/', 'r', 'o', 'o', 't', '-', 's', 't', 'e', 'p', '>', '<', 'r', 'o', 'o', 't', '-', 'a', 'l', 't', 'e', 'r', '>'], currentElement := some ['r', 'o', 'o', 't', '-', 'a', 'l', 't', 'e', 'r'], textContent := [], insideHarmony := true, insideKey := false, insidePitch := false, insideAccidental := false, noteStep := none, noteAlter := none, noteOctave := none, noteTransposedAlter := none, pitchBuffer := [], harmonyRootStepText := some ['C'], harmonyBassStepText := none, transposedRoot := some { step := ['C'], alter := none, octave := 4 }, transposedBass := none, needsRootAlter := false, needsBassAlter := false, hasOriginalRootAlter := false, hasOriginalBassAlter := false, updateRootStep := false, removeLastRootAlter := false, removeLastBassAlter := false }) (SaxEvent.text ['1']) = { output := ['<', 'h', 'a', 'r', 'm', 'o', 'n', 'y', '>', '<', 'r', 'o', 'o', 't', '>', '<', 'r', 'o', 'o', 't', '-', 's', 't', 'e', 'p', '>', 'C', '<', '/', 'r', 'o', 'o', 't', '-', 's', 't', 'e', 'p', '>', '<', 'r', 'o', 'o', 't', '-', 'a', 'l', 't', 'e', 'r', '>'], currentElement := some ['r', 'o', 'o', 't', '-', 'a', 'l', 't', 'e', 'r'], textContent := ['1'], insideHarmony := true, insideKey := false, insidePitch := false, insideAccidental := false, noteStep := none, noteAlter := none, noteOctave := none, noteTransposedAlter := none, pitchBuffer := [], harmonyRootStepText := some ['C'], harmonyBassStepText := none, transposedRoot := some { step := ['C'], alter := none, octave := 4 }, transposedBass := none, needsRootAlter := false, needsBassAlter := false, hasOriginalRootAlter := false, hasOriginalBassAlter := false, updateRootStep := false, removeLastRootAlter := false, removeLastBassAlter := false } := by decide
  have h8 : stepEvent 0 ({ output := ['<', 'h', 'a', 'r', 'm', 'o', 'n', 'y', '>', '<', 'r', 'o', 'o', 't', '>', '<', 'r', 'o', 'o', 't', '-', 's', 't', 'e', 'p', '>', 'C', '<', '/', 'r', 'o', 'o', 't', '-', 's', 't', 'e', 'p', '>', '<', 'r', 'o', 'o', 't', '-', 'a', 'l', 't', 'e', 'r', '>'], currentElement := some ['r', 'o', 'o', 't', '-', 'a', 'l', 't', 'e', 'r'], textContent := ['1'], insideHarmony := true, insideKey := false, insidePitch := false, insideAccidental := false, noteStep := none, noteAlter := none, noteOctave := none, noteTransposedAlter := none, pitchBuffer := [], harmonyRootStepText := some ['C'], harmonyBassStepText := none, transposedRoot := some { step := ['C'], alter := none, octave := 4 }, transposedBass := none, needsRootAlter := false, needsBassAlter := false, hasOriginalRootAlter := false, hasOriginalBassAlter := false, updateRootStep := false, removeLastRootAlter := false, removeLastBassAlter := false }) (SaxEvent.closeTag ['r', 'o', 'o', 't', '-', 'a', 'l', 't', 'e', 'r']) = { output := ['<', 'h', 'a', 'r', 'm', 'o', 'n', 'y', '>', '<', 'r', 'o', 'o', 't', '>', '<', 'r', 'o', 'o', 't', '-', 's', 't', 'e', 'p', '>', 'C', '<', '/', 'r', 'o', 'o', 't', '-', 's', 't', 'e', 'p', '>', '<', 'r', 'o', 'o', 't', '-', 'a', 'l', 't', 'e', 'r', '>', '1', '<', '/', 'r', 'o', 'o', 't', '-', 'a', 'l', 't', 'e', 'r', '>'], currentElement := none, textContent := [], insideHarmony := true, insideKey := false, insidePitch := false, insideAccidental := false, noteStep := none, noteAlter := none, noteOctave := none, noteTransposedAlter := none, pitchBuffer := [], harmonyRootStepText := some ['C'], harmonyBassStepText := none, transposedRoot := some { step := ['C'], alter := some 1, octave := 4 }, transposedBass := none, needsRootAlter := false, needsBassAlter := false, hasOriginalRootAlter := true, hasOriginalBassAlter := false, updateRootStep := true, removeLastRootAlter := false, removeLastBassAlter := false } := by decide
  have h9 : stepEvent 0 ({ output := ['<', 'h', 'a', 'r', 'm', 'o', 'n', 'y', '>', '<', 'r', 'o', 'o', 't', '>', '<', 'r', 'o', 'o', 't', '-', 's', 't', 'e', 'p', '>', 'C', '<', '/', 'r', 'o', 'o', 't', '-', 's', 't', 'e', 'p', '>', '<', 'r', 'o', 'o', 't', '-', 'a', 'l', 't', 'e', 'r', '>', '1', '<', '/', 'r', 'o', 'o', 't', '-', 'a', 'l', 't', 'e', 'r', '>'], currentElement := none, textContent := [], insideHarmony := true, insideKey := false, insidePitch := false, insideAccidental := false, noteStep := none, noteAlter := none, noteOctave := none, noteTransposedAlter := none, pitchBuffer := [], harmonyRootStepText := some ['C'], harmonyBassStepText := none, transposedRoot := some { step := ['C'], alter := some 1, octave := 4 }, transposedBass := none, needsRootAlter := false, needsBassAlter := false, hasOriginalRootAlter := true, hasOriginalBassAlter := false, updateRootStep := true, removeLastRootAlter := false, removeLastBassAlter := false }) (SaxEvent.closeTag ['r', 'o', 'o', 't']) = { output := ['<', 'h', 'a', 'r', 'm', 'o', 'n', 'y', '>', '<', 'r', 'o', 'o', 't', '>', '<', 'r', 'o', 'o', 't', '-', 's', 't', 'e', 'p', '>', 'C', '<', '/', 'r', 'o', 'o', 't', '-', 's', 't', 'e', 'p', '>', '<', 'r', 'o', 'o', 't', '-', 'a', 'l', 't', 'e', 'r', '>', '1', '<', '/', 'r', 'o', 'o', 't', '-', 'a', 'l', 't', 'e', 'r', '>', '<', '/', 'r', 'o', 'o', 't', '>'], currentElement := none, textContent := [], insideHarmony := true, insideKey := false, insidePitch := false, insideAccidental := false, noteStep := none, noteAlter := none, noteOctave := none, noteTransposedAlter := none, pitchBuffer := [], harmonyRootStepText := some ['C'], harmonyBassStepText := none, transposedRoot := some { step := ['C'], alter := some 1, octave := 4 }, transposedBass := none, needsRootAlter := false, needsBassAlter := false, hasOriginalRootAlter := true, hasOriginalBassAlter := false, updateRootStep := true, removeLastRootAlter := false, removeLastBassAlter := false } := by decide
  have h10 : stepEvent 0 ({ output := ['<', 'h', 'a', 'r', 'm', 'o', 'n', 'y', '>', '<', 'r', 'o', 'o', 't', '>', '<', 'r', 'o', 'o', 't', '-', 's', 't', 'e', 'p', '>', 'C', '<', '/', 'r', 'o', 'o', 't', '-', 's', 't', 'e', 'p', '>', '<', 'r', 'o', 'o', 't', '-', 'a', 'l', 't', 'e', 'r', '>', '1', '<', '/', 'r', 'o', 'o', 't', '-', 'a', 'l', 't', 'e', 'r', '>', '<', '/', 'r', 'o', 'o', 't', '>'], currentElement := none, textContent := [], insideHarmony := true, insideKey := false, insidePitch := false, insideAccidental := false, noteStep := none, noteAlter := none, noteOctave := none, noteTransposedAlter := none, pitchBuffer := [], harmonyRootStepText := some ['C'], harmonyBassStepText := none, transposedRoot := some { step := ['C'], alter := some 1, octave := 4 }, transposedBass := none, needsRootAlter := false, needsBassAlter := false, hasOriginalRootAlter := true, hasOriginalBassAlter := false, updateRootStep := true, removeLastRootAlter := false, removeLastBassAlter := false }) (SaxEvent.closeTag ['h', 'a', 'r', 'm', 'o', 'n', 'y']) = { output := ['<', 'h', 'a', 'r', 'm', 'o', 'n', 'y', '>', '<', 'r', 'o', 'o', 't', '>', '<', 'r', 'o', 'o', 't', '-', 's', 't', 'e', 'p', '>', 'C', '<', '/', 'r', 'o', 'o', 't', '-', 's', 't', 'e', 'p', '>', '<', 'r', 'o', 'o', 't', '-', 'a', 'l', 't', 'e', 'r', '>', '1', '<', '/', 'r', 'o', 'o', 't', '-', 'a', 'l', 't', 'e', 'r', '>', '<', '/', 'r', 'o', 'o', 't', '>', '<', '/', 'h', 'a', 'r', 'm', 'o', 'n', 'y', '>'], currentElement := none, textContent := [], insideHarmony := false, insideKey := false, insidePitch := false, insideAccidental := false, noteStep := none, noteAlter := none, noteOctave := none, noteTransposedAlter := none, pitchBuffer := [], harmonyRootStepText := none, harmonyBassStepText := none, transposedRoot := none, transposedBass := none, needsRootAlter := false, needsBassAlter := false, hasOriginalRootAlter := false, hasOriginalBassAlter := false, updateRootStep := false, removeLastRootAlter := false, removeLastBassAlter := false } := by decide
  have h11 : stepEvent 0 ({ output := ['<', 'h', 'a', 'r', 'm', 'o', 'n', 'y', '>', '<', 'r', 'o', 'o', 't', '>', '<', 'r', 'o', 'o', 't', '-', 's', 't', 'e', 'p', '>', 'C', '<', '/', 'r', 'o', 'o', 't', '-', 's', 't', 'e', 'p', '>', '<', 'r', 'o', 'o', 't', '-', 'a', 'l', 't', 'e', 'r', '>', '1', '<', '/', 'r', 'o', 'o', 't', '-', 'a', 'l', 't', 'e', 'r', '>', '<', '/', 'r', 'o', 'o', 't', '>', '<', '/', 'h', 'a', 'r', 'm', 'o', 'n', 'y', '>'], currentElement := none, textContent := [], insideHarmony := false, insideKey := false, insidePitch := false, insideAccidental := false, noteStep := none, noteAlter := none, noteOctave := none, noteTransposedAlter := none, pitchBuffer := [], harmonyRootStepText := none, harmonyBassStepText := none, transposedRoot := none, transposedBass := none, needsRootAlter := false, needsBassAlter := false, hasOriginalRootAlter := false, hasOriginalBassAlter := false, updateRootStep := false, removeLastRootAlter := false, removeLastBassAlter := false }) (SaxEvent.openTag ['h', 'a', 'r', 'm', 'o', 'n', 'y'] []) = { output := ['<', 'h', 'a', 'r', 'm', 'o', 'n', 'y', '>', '<', 'r', 'o', 'o', 't', '>', '<', 'r', 'o', 'o', 't', '-', 's', 't', 'e', 'p', '>', 'C', '<', '/', 'r', 'o', 'o', 't', '-', 's', 't', 'e', 'p', '>', '<', 'r', 'o', 'o', 't', '-', 'a', 'l', 't', 'e', 'r', '>', '1', '<', '/', 'r', 'o', 'o', 't', '-', 'a', 'l', 't', 'e', 'r', '>', '<', '/', 'r', 'o', 'o', 't', '>', '<', '/', 'h', 'a', 'r', 'm', 'o', 'n', 'y', '>', '<', 'h', 'a', 'r', 'm', 'o', 'n', 'y', '>'], currentElement := none, textContent := [], insideHarmony := true, insideKey := false, insidePitch := false, insideAccidental := false, noteStep := none, noteAlter := none, noteOctave := none, noteTransposedAlter := none, pitchBuffer := [], harmonyRootStepText := none, harmonyBassStepText := none, transposedRoot := none, transposedBass := none, needsRootAlter := false, needsBassAlter := false, hasOriginalRootAlter := false, hasOriginalBassAlter := false, updateRootStep := false, removeLastRootAlter := false, removeLastBassAlter := false } := by decide
  have h12 : stepEvent 0 ({ output := ['<', 'h', 'a', 'r', 'm', 'o', 'n', 'y', '>', '<', 'r', 'o', 'o', 't', '>', '<', 'r', 'o', 'o', 't', '-', 's', 't', 'e', 'p', '>', 'C', '<', '/', 'r', 'o', 'o', 't', '-', 's', 't', 'e', 'p', '>', '<', 'r', 'o', 'o', 't', '-', 'a', 'l', 't', 'e', 'r', '>', '1', '<', '/', 'r', 'o', 'o', 't', '-', 'a', 'l', 't', 'e', 'r', '>', '<', '/', 'r', 'o', 'o', 't', '>', '<', '/', 'h', 'a', 'r', 'm', 'o', 'n', 'y', '>', '<', 'h', 'a', 'r', 'm', 'o', 'n', 'y', '>'], currentElement := none, textContent := [], insideHarmony := true, insideKey := false, insidePitch := false, insideAccidental := false, noteStep := none, noteAlter := none, noteOctave := none, noteTransposedAlter := none, pitchBuffer := [], harmonyRootStepText := none, harmonyBassStepText := none, transposedRoot := none, transposedBass := none, needsRootAlter := false, needsBassAlter := false, hasOriginalRootAlter := false, hasOriginalBassAlter := false, updateRootStep := false, removeLastRootAlter := false, removeLastBassAlter := false }) (SaxEvent.openTag ['r', 'o', 'o', 't'] []) = { output := ['<', 'h', 'a', 'r', 'm', 'o', 'n', 'y', '>', '<', 'r', 'o', 'o', 't', '>', '<', 'r', 'o', 'o', 't', '-', 's', 't', 'e', 'p', '>', 'C', '<', '/', 'r', 'o', 'o', 't', '-', 's', 't', 'e', 'p', '>', '<', 'r', 'o', 'o', 't', '-', 'a', 'l', 't', 'e', 'r', '>', '1', '<', '/', 'r', 'o', 'o', 't', '-', 'a', 'l', 't', 'e', 'r', '>', '<', '/', 'r', 'o', 'o', 't', '>', '<', '/', 'h', 'a', 'r', 'm', 'o', 'n', 'y', '>', '<', 'h', 'a', 'r', 'm', 'o', 'n', 'y', '>', '<', 'r', 'o', 'o', 't', '>'], currentElement := none, textContent := [], insideHarmony := true, insideKey := false, insidePitch := false, insideAccidental := false, noteStep := none, noteAlter := none, noteOctave := none, noteTransposedAlter := none, pitchBuffer := [], harmonyRootStepText := none, harmonyBassStepText := none, transposedRoot := none, transposedBass := none, needsRootAlter := false, needsBassAlter := false, hasOriginalRootAlter := false, hasOriginalBassAlter := false, updateRootStep := false, removeLastRootAlter := false, removeLastBassAlter := false } := by decide
  have h13 : stepEvent 0 ({ output := ['<', 'h', 'a', 'r', 'm', 'o', 'n', 'y', '>', '<', 'r', 'o', 'o', 't', '>', '<', 'r', 'o', 'o', 't', '-', 's', 't', 'e', 'p', '>', 'C', '<', '/', 'r', 'o', 'o', 't', '-', 's', 't', 'e', 'p', '>', '<', 'r', 'o', 'o', 't', '-', 'a', 'l', 't', 'e', 'r', '>', '1', '<', '/', 'r', 'o', 'o', 't', '-', 'a', 'l', 't', 'e', 'r', '>', '<', '/', 'r', 'o', 'o', 't', '>', '<', '/', 'h', 'a', 'r', 'm', 'o', 'n', 'y', '>', '<', 'h', 'a', 'r', 'm', 'o', 'n', 'y', '>', '<', 'r', 'o', 'o', 't', '>'], currentElement := none, textContent := [], insideHarmony := true, insideKey := false, insidePitch := false, insideAccidental := false, noteStep := none, noteAlter := none, noteOctave := none, noteTransposedAlter := none, pitchBuffer := [], harmonyRootStepText := none, harmonyBassStepText := none, transposedRoot := none, transposedBass := none, needsRootAlter := false, needsBassAlter := false, hasOriginalRootAlter := false, hasOriginalBassAlter := false, updateRootStep := false, removeLastRootAlter := false, removeLastBassAlter := false }) (SaxEvent.openTag ['r', 'o', 'o', 't', '-', 's', 't', 'e', 'p'] []) = { output := ['<', 'h', 'a', 'r', 'm', 'o', 'n', 'y', '>', '<', 'r', 'o', 'o', 't', '>', '<', 'r', 'o', 'o', 't', '-', 's', 't', 'e', 'p', '>', 'C', '<', '/', 'r', 'o', 'o', 't', '-', 's', 't', 'e', 'p', '>', '<', 'r', 'o', 'o', 't', '-', 'a', 'l', 't', 'e', 'r', '>', '1', '<', '/', 'r', 'o', 'o', 't', '-', 'a', 'l', 't', 'e', 'r', '>', '<', '/', 'r', 'o', 'o', 't', '>', '<', '/', 'h', 'a', 'r', 'm', 'o', 'n', 'y', '>', '<', 'h', 'a', 'r', 'm', 'o', 'n', 'y', '>', '<', 'r', 'o', 'o', 't', '>', '<', 'r', 'o', 'o', 't', '-', 's', 't', 'e', 'p', '>'], currentElement := some ['r', 'o', 'o', 't', '-', 's', 't', 'e', 'p'], textContent := [], insideHarmony := true, insideKey := false, insidePitch := false, insideAccidental := false, noteStep := none, noteAlter := none, noteOctave := none, noteTransposedAlter := none, pitchBuffer := [], harmonyRootStepText := none, harmonyBassStepText := none, transposedRoot := none, transposedBass := none, needsRootAlter := false, needsBassAlter := false, hasOriginalRootAlter := false, hasOriginalBassAlter := false, updateRootStep := false, removeLastRootAlter := false, removeLastBassAlter := false } := by decide
  have h14 : stepEvent 0 ({ output := ['<', 'h', 'a', 'r', 'm', 'o', 'n', 'y', '>', '<', 'r', 'o', 'o', 't', '>', '<', 'r', 'o', 'o', 't', '-', 's', 't', 'e', 'p', '>', 'C', '<', '/', 'r', 'o', 'o', 't', '-', 's', 't', 'e', 'p', '>', '<', 'r', 'o', 'o', 't', '-', 'a', 'l', 't', 'e', 'r', '>', '1', '<', '/', 'r', 'o', 'o', 't', '-', 'a', 'l', 't', 'e', 'r', '>', '<', '/', 'r', 'o', 'o', 't', '>', '<', '/', 'h', 'a', 'r', 'm', 'o', 'n', 'y', '>', '<', 'h', 'a', 'r', 'm', 'o', 'n', 'y', '>', '<', 'r', 'o', 'o', 't', '>', '<', 'r', 'o', 'o', 't', '-', 's', 't', 'e', 'p', '>'], currentElement := some ['r', 'o', 'o', 't', '-', 's', 't', 'e', 'p'], textContent := [], insideHarmony := true, insideKey := false, insidePitch := false, insideAccidental := false, noteStep := none, noteAlter := none, noteOctave := none, noteTransposedAlter := none, pitchBuffer := [], harmonyRootStepText := none, harmonyBassStepText := none, transposedRoot := none, transposedBass := none, needsRootAlter := false, needsBassAlter := false, hasOriginalRootAlter := false, hasOriginalBassAlter := false, updateRootStep := false, removeLastRootAlter := false, removeLastBassAlter := false }) (SaxEvent.text ['B']) = { output := ['<', 'h', 'a', 'r', 'm', 'o', 'n', 'y', '>', '<', 'r', 'o', 'o', 't', '>', '<', 'r', 'o', 'o', 't', '-', 's', 't', 'e', 'p', '>', 'C', '<', '/', 'r', 'o', 'o', 't', '-', 's', 't', 'e', 'p', '>', '<', 'r', 'o', 'o', 't', '-', 'a', 'l', 't', 'e', 'r', '>', '1', '<', '/', 'r', 'o', 'o', 't', '-', 'a', 'l', 't', 'e', 'r', '>', '<', '/', 'r', 'o', 'o', 't', '>', '<', '/', 'h', 'a', 'r', 'm', 'o', 'n', 'y', '>', '<', 'h', 'a', 'r', 'm', 'o', 'n', 'y', '>', '<', 'r', 'o', 'o', 't', '>', '<', 'r', 'o', 'o', 't', '-', 's', 't', 'e', 'p', '>'], currentElement := some ['r', 'o', 'o', 't', '-', 's', 't', 'e', 'p'], textContent := ['B'], insideHarmony := true, insideKey := false, insidePitch := false, insideAccidental := false, noteStep := none, noteAlter := none, noteOctave := none, noteTransposedAlter := none, pitchBuffer := [], harmonyRootStepText := none, harmonyBassStepText := none, transposedRoot := none, transposedBass := none, needsRootAlter := false, needsBassAlter := false, hasOriginalRootAlter := false, hasOriginalBassAlter := false, updateRootStep := false, removeLastRootAlter := false, removeLastBassAlter := false } := by decide
  have h15 : stepEvent 0 ({ output := ['<', 'h', 'a', 'r', 'm', 'o', 'n', 'y', '>', '<', 'r', 'o', 'o', 't', '>', '<', 'r', 'o', 'o', 't', '-', 's', 't', 'e', 'p', '>', 'C', '<', '/', 'r', 'o', 'o', 't', '-', 's', 't', 'e', 'p', '>', '<', 'r', 'o', 'o', 't', '-', 'a', 'l', 't', 'e', 'r', '>', '1', '<', '/', 'r', 'o', 'o', 't', '-', 'a', 'l', 't', 'e', 'r', '>', '<', '/', 'r', 'o', 'o', 't', '>', '<', '/', 'h', 'a', 'r', 'm', 'o', 'n', 'y', '>', '<', 'h', 'a', 'r', 'm', 'o', 'n', 'y', '>', '<', 'r', 'o', 'o', 't', '>', '<', 'r', 'o', 'o', 't', '-', 's', 't', 'e', 'p', '>'], currentElement := some ['r', 'o', 'o', 't', '-', 's', 't', 'e', 'p'], textContent := ['B'], insideHarmony := true, insideKey := false, insidePitch := false, insideAccidental := false, noteStep := none, noteAlter := none, noteOctave := none, noteTransposedAlter := none, pitchBuffer := [], harmonyRootStepText := none, harmonyBassStepText := none, transposedRoot := none, transposedBass := none, needsRootAlter := false, needsBassAlter := false, hasOriginalRootAlter := false, hasOriginalBassAlter := false, updateRootStep := false, removeLastRootAlter := false, removeLastBassAlter := false }) (SaxEvent.closeTag ['r', 'o', 'o', 't', '-', 's', 't', 'e', 'p']) = { output := ['<', 'h', 'a', 'r', 'm', 'o', 'n', 'y', '>', '<', 'r', 'o', 'o', 't', '>', '<', 'r', 'o', 'o', 't', '-', 's', 't', 'e', 'p', '>', 'C', '<', '/', 'r', 'o', 'o', 't', '-', 's', 't', 'e', 'p', '>', '<', 'r', 'o', 'o', 't', '-', 'a', 'l', 't', 'e', 'r', '>', '1', '<', '/', 'r', 'o', 'o', 't', '-', 'a', 'l', 't', 'e', 'r', '>', '<', '/', 'r', 'o', 'o', 't', '>', '<', '/', 'h', 'a', 'r', 'm', 'o', 'n', 'y', '>', '<', 'h', 'a', 'r', 'm', 'o', 'n', 'y', '>', '<', 'r', 'o', 'o', 't', '>', '<', 'r', 'o', 'o', 't', '-', 's', 't', 'e', 'p', '>', 'B', '<', '/', 'r', 'o', 'o', 't', '-', 's', 't', 'e', 'p', '>'], currentElement := none, textContent := [], insideHarmony := true, insideKey := false, insidePitch := false, insideAccidental := false, noteStep := none, noteAlter := none, noteOctave := none, noteTransposedAlter := none, pitchBuffer := [], harmonyRootStepText := some ['B'], harmonyBassStepText := none, transposedRoot := some { step := ['B'], alter := none, octave := 4 }, transposedBass := none, needsRootAlter := false, needsBassAlter := false, hasOriginalRootAlter := false, hasOriginalBassAlter := false, updateRootStep := false, removeLastRootAlter := false, removeLastBassAlter := false } := by decide
  have h16 : stepEvent 0 ({ output := ['<', 'h', 'a', 'r', 'm', 'o', 'n', 'y', '>', '<', 'r', 'o', 'o', 't', '>', '<', 'r', 'o', 'o', 't', '-', 's', 't', 'e', 'p', '>', 'C', '<', '/', 'r', 'o', 'o', 't', '-', 's', 't', 'e', 'p', '>', '<', 'r', 'o', 'o', 't', '-', 'a', 'l', 't', 'e', 'r', '>', '1', '<', '/', 'r', 'o', 'o', 't', '-', 'a', 'l', 't', 'e', 'r', '>', '<', '/', 'r', 'o', 'o', 't', '>', '<', '/', 'h', 'a', 'r', 'm', 'o', 'n', 'y', '>', '<', 'h', 'a', 'r', 'm', 'o', 'n', 'y', '>', '<', 'r', 'o', 'o', 't', '>', '<', 'r', 'o', 'o', 't', '-', 's', 't', 'e', 'p', '>', 'B', '<', '/', 'r', 'o', 'o', 't', '-', 's', 't', 'e', 'p', '>'], currentElement := none, textContent := [], insideHarmony := true, insideKey := false, insidePitch := false, insideAccidental := false, noteStep := none, noteAlter := none, noteOctave := none, noteTransposedAlter := none, pitchBuffer := [], harmonyRootStepText := some ['B'], harmonyBassStepText := none, transposedRoot := some { step := ['B'], alter := none, octave := 4 }, transposedBass := none, needsRootAlter := false, needsBassAlter := false, hasOriginalRootAlter := false, hasOriginalBassAlter := false, updateRootStep := false, removeLastRootAlter := false, removeLastBassAlter := false }) (SaxEvent.openTag ['r', 'o', 'o', 't', '-', 'a', 'l', 't', 'e', 'r'] []) = { output := ['<', 'h', 'a', 'r', 'm', 'o', 'n', 'y', '>', '<', 'r', 'o', 'o', 't', '>', '<', 'r', 'o', 'o', 't', '-', 's', 't', 'e', 'p', '>', 'C', '<', '/', 'r', 'o', 'o', 't', '-', 's', 't', 'e', 'p', '>', '<', 'r', 'o', 'o', 't', '-', 'a', 'l', 't', 'e', 'r', '>', '1', '<', '/', 'r', 'o', 'o', 't', '-', 'a', 'l', 't', 'e', 'r', '>', '<', '/', 'r', 'o', 'o', 't', '>', '<', '/', 'h', 'a', 'r', 'm', 'o', 'n', 'y', '>', '<', 'h', 'a', 'r', 'm', 'o', 'n', 'y', '>', '<', 'r', 'o', 'o', 't', '>', '<', 'r', 'o', 'o', 't', '-', 's', 't', 'e', 'p', '>', 'B', '<', '/', 'r', 'o', 'o', 't', '-', 's', 't', 'e', 'p', '>', '<', 'r', 'o', 'o', 't', '-', 'a', 'l', 't', 'e', 'r', '>'], currentElement := some ['r', 'o', 'o', 't', '-', 'a', 'l', 't', 'e', 'r'], textContent := [], insideHarmony := true, insideKey := false, insidePitch := false, insideAccidental := false, noteStep := none, noteAlter := none, noteOctave := none, noteTransposedAlter := none, pitchBuffer := [], harmonyRootStepText := some ['B'], harmonyBassStepText := none, transposedRoot := some { step := ['B'], alter := none, octave := 4 }, transposedBass := none, needsRootAlter := false, needsBassAlter := false, hasOriginalRootAlter := false, hasOriginalBassAlter := false, updateRootStep := false, removeLastRootAlter := false, removeLastBassAlter := false } := by decide
  have h17 : stepEvent 0 ({ output := ['<', 'h', 'a', 'r', 'm', 'o', 'n', 'y', '>', '<', 'r', 'o', 'o', 't', '>', '<', 'r', 'o', 'o', 't', '-', 's', 't', 'e', 'p', '>', 'C', '<', '/', 'r', 'o', 'o', 't', '-', 's', 't', 'e', 'p', '>', '<', 'r', 'o', 'o', 't', '-', 'a', 'l', 't', 'e', 'r', '>', '1', '<', '/', 'r', 'o', 'o', 't', '-', 'a', 'l', 't', 'e', 'r', '>', '<', '/', 'r', 'o', 'o', 't', '>', '<', '/', 'h', 'a', 'r', 'm', 'o', 'n', 'y', '>', '<', 'h', 'a', 'r', 'm', 'o', 'n', 'y', '>', '<', 'r', 'o', 'o', 't', '>', '<', 'r', 'o', 'o', 't', '-', 's', 't', 'e', 'p', '>', 'B', '<', '/', 'r', 'o', 'o', 't', '-', 's', 't', 'e', 'p', '>', '<', 'r', 'o', 'o', 't', '-', 'a', 'l', 't', 'e', 'r', '>'], currentElement := some ['r', 'o', 'o', 't', '-', 'a', 'l', 't', 'e', 'r'], textContent := [], insideHarmony := true, insideKey := false, insidePitch := false, insideAccidental := false, noteStep := none, noteAlter := none, noteOctave := none, noteTransposedAlter := none, pitchBuffer := [], harmonyRootStepText := some ['B'], harmonyBassStepText := none, transposedRoot := some { step := ['B'], alter := none, octave := 4 }, transposedBass := none, needsRootAlter := false, needsBassAlter := false, hasOriginalRootAlter := false, hasOriginalBassAlter := false, updateRootStep := false, removeLastRootAlter := false, removeLastBassAlter := false }) (SaxEvent.text ['1']) = { output := ['<', 'h', 'a', 'r', 'm', 'o', 'n', 'y', '>', '<', 'r', 'o', 'o', 't', '>', '<', 'r', 'o', 'o', 't', '-', 's', 't', 'e', 'p', '>', 'C', '<', '/', 'r', 'o', 'o', 't', '-', 's', 't', 'e', 'p', '>', '<', 'r', 'o', 'o', 't', '-', 'a', 'l', 't', 'e', 'r', '>', '1', '<', '/', 'r', 'o', 'o', 't', '-', 'a', 'l', 't', 'e', 'r', '>', '<', '/', 'r', 'o', 'o', 't', '>', '<', '/', 'h', 'a', 'r', 'm', 'o', 'n', 'y', '>', '<', 'h', 'a', 'r', 'm', 'o', 'n', 'y', '>', '<', 'r', 'o', 'o', 't', '>', '<', 'r', 'o', 'o', 't', '-', 's', 't', 'e', 'p', '>', 'B', '<', '/', 'r', 'o', 'o', 't', '-', 's', 't', 'e', 'p', '>', '<', 'r', 'o', 'o', 't', '-', 'a', 'l', 't', 'e', 'r', '>'], currentElement := some ['r', 'o', 'o', 't', '-', 'a', 'l', 't', 'e', 'r'], textContent := ['1'], insideHarmony := true, insideKey := false, insidePitch := false, insideAccidental := false, noteStep := none, noteAlter := none, noteOctave := none, noteTransposedAlter := none, pitchBuffer := [], harmonyRootStepText := some ['B'], harmonyBassStepText := none, transposedRoot := some { step := ['B'], alter := none, octave := 4 }, transposedBass := none, needsRootAlter := false, needsBassAlter := false, hasOriginalRootAlter := false, hasOriginalBassAlter := false, updateRootStep := false, removeLastRootAlter := false, removeLastBassAlter := false } := by decide
  have h18 : stepEvent 0 ({ output := ['<', 'h', 'a', 'r', 'm', 'o', 'n', 'y', '>', '<', 'r', 'o', 'o', 't', '>', '<', 'r', 'o', 'o', 't', '-', 's', 't', 'e', 'p', '>', 'C', '<', '/', 'r', 'o', 'o', 't', '-', 's', 't', 'e', 'p', '>', '<', 'r', 'o', 'o', 't', '-', 'a', 'l', 't', 'e', 'r', '>', '1', '<', '/', 'r', 'o', 'o', 't', '-', 'a', 'l', 't', 'e', 'r', '>', '<', '/', 'r', 'o', 'o', 't', '>', '<', '/', 'h', 'a', 'r', 'm', 'o', 'n', 'y', '>', '<', 'h', 'a', 'r', 'm', 'o', 'n', 'y', '>', '<', 'r', 'o', 'o', 't', '>', '<', 'r', 'o', 'o', 't', '-', 's', 't', 'e', 'p', '>', 'B', '<', '/', 'r', 'o', 'o', 't', '-', 's', 't', 'e', 'p', '>', '<', 'r', 'o', 'o', 't', '-', 'a', 'l', 't', 'e', 'r', '>'], currentElement := some ['r', 'o', 'o', 't', '-', 'a', 'l', 't', 'e', 'r'], textContent := ['1'], insideHarmony := true, insideKey := false, insidePitch := false, insideAccidental := false, noteStep := none, noteAlter := none, noteOctave := none, noteTransposedAlter := none, pitchBuffer := [], harmonyRootStepText := some ['B'], harmonyBassStepText := none, transposedRoot := some { step := ['B'], alter := none, octave := 4 }, transposedBass := none, needsRootAlter := false, needsBassAlter := false, hasOriginalRootAlter := false, hasOriginalBassAlter := false, updateRootStep := false, removeLastRootAlter := false, removeLastBassAlter := false }) (SaxEvent.closeTag ['r', 'o', 'o', 't', '-', 'a', 'l', 't', 'e', 'r']) = { output := ['<', 'h', 'a', 'r', 'm', 'o', 'n', 'y', '>', '<', 'r', 'o', 'o', 't', '>', '<', 'r', 'o', 'o', 't', '-', 's', 't', 'e', 'p', '>', 'C', '<', '/', 'r', 'o', 'o', 't', '-', 's', 't', 'e', 'p', '>', '<', 'r', 'o', 'o', 't', '-', 'a', 'l', 't', 'e', 'r', '>', '1', '<', '/', 'r', 'o', 'o', 't', '-', 'a', 'l', 't', 'e', 'r', '>', '<', '/', 'r', 'o', 'o', 't', '>', '<', '/', 'h', 'a', 'r', 'm', 'o', 'n', 'y', '>', '<', 'h', 'a', 'r', 'm', 'o', 'n', 'y', '>', '<', 'r', 'o', 'o', 't', '>', '<', 'r', 'o', 'o', 't', '-', 's', 't', 'e', 'p', '>', 'B', '<', '/', 'r', 'o', 'o', 't', '-', 's', 't', 'e', 'p', '>', '<', 'r', 'o', 'o', 't', '-', 'a', 'l', 't', 'e', 'r', '>', '1', '<', '/', 'r', 'o', 'o', 't', '-', 'a', 'l', 't', 'e', 'r', '>'], currentElement := none, textContent := [], insideHarmony := true, insideKey := false, insidePitch := false, insideAccidental := false, noteStep := none, noteAlter := none, noteOctave := none, noteTransposedAlter := none, pitchBuffer := [], harmonyRootStepText := some ['B'], harmonyBassStepText := none, transposedRoot := some { step := ['C'], alter := none, octave := 5 }, transposedBass := none, needsRootAlter := false, needsBassAlter := false, hasOriginalRootAlter := true, hasOriginalBassAlter := false, updateRootStep := true, removeLastRootAlter := true, removeLastBassAlter := false } := by decide
  have h19 : stepEvent 0 ({ output := ['<', 'h', 'a', 'r', 'm', 'o', 'n', 'y', '>', '<', 'r', 'o', 'o', 't', '>', '<', 'r', 'o', 'o', 't', '-', 's', 't', 'e', 'p', '>', 'C', '<', '/', 'r', 'o', 'o', 't', '-', 's', 't', 'e', 'p', '>', '<', 'r', 'o', 'o', 't', '-', 'a', 'l', 't', 'e', 'r', '>', '1', '<', '/', 'r', 'o', 'o', 't', '-', 'a', 'l', 't', 'e', 'r', '>', '<', '/', 'r', 'o', 'o', 't', '>', '<', '/', 'h', 'a', 'r', 'm', 'o', 'n', 'y', '>', '<', 'h', 'a', 'r', 'm', 'o', 'n', 'y', '>', '<', 'r', 'o', 'o', 't', '>', '<', 'r', 'o', 'o', 't', '-', 's', 't', 'e', 'p', '>', 'B', '<', '/', 'r', 'o', 'o', 't', '-', 's', 't', 'e', 'p', '>', '<', 'r', 'o', 'o', 't', '-', 'a', 'l', 't', 'e', 'r', '>', '1', '<', '/', 'r', 'o', 'o', 't', '-', 'a', 'l', 't', 'e', 'r', '>'], currentElement := none, textContent := [], insideHarmony := true, insideKey := false, insidePitch := false, insideAccidental := false, noteStep := none, noteAlter := none, noteOctave := none, noteTransposedAlter := none, pitchBuffer := [], harmonyRootStepText := some ['B'], harmonyBassStepText := none, transposedRoot := some { step := ['C'], alter := none, octave := 5 }, transposedBass := none, needsRootAlter := false, needsBassAlter := false, hasOriginalRootAlter := true, hasOriginalBassAlter := false, updateRootStep := true, removeLastRootAlter := true, removeLastBassAlter := false }) (SaxEvent.closeTag ['r', 'o', 'o', 't']) = { output := ['<', 'h', 'a', 'r', 'm', 'o', 'n', 'y', '>', '<', 'r', 'o', 'o', 't', '>', '<', 'r', 'o', 'o', 't', '-', 's', 't', 'e', 'p', '>', 'C', '<', '/', 'r', 'o', 'o', 't', '-', 's', 't', 'e', 'p', '>', '<', '/', 'r', 'o', 'o', 't', '>', '<', '/', 'h', 'a', 'r', 'm', 'o', 'n', 'y', '>', '<', 'h', 'a', 'r', 'm', 'o', 'n', 'y', '>', '<', 'r', 'o', 'o', 't', '>', '<', 'r', 'o', 'o', 't', '-', 's', 't', 'e', 'p', '>', 'B', '<', '/', 'r', 'o', 'o', 't', '-', 's', 't', 'e', 'p', '>', '<', 'r', 'o', 'o', 't', '-', 'a', 'l', 't', 'e', 'r', '>', '1', '<', '/', 'r', 'o', 'o', 't', '-', 'a', 'l', 't', 'e', 'r', '>', '<', '/', 'r', 'o', 'o', 't', '>'], currentElement := none, textContent := [], insideHarmony := true, insideKey := false, insidePitch := false, insideAccidental := false, noteStep := none, noteAlter := none, noteOctave := none, noteTransposedAlter := none, pitchBuffer := [], harmonyRootStepText := some ['B'], harmonyBassStepText := none, transposedRoot := some { step := ['C'], alter := none, octave := 5 }, transposedBass := none, needsRootAlter := false, needsBassAlter := false, hasOriginalRootAlter := true, hasOriginalBassAlter := false, updateRootStep := true, removeLastRootAlter := true, removeLastBassAlter := false } := by decide
  have h20 : stepEvent 0 ({ output := ['<', 'h', 'a', 'r', 'm', 'o', 'n', 'y', '>', '<', 'r', 'o', 'o', 't', '>', '<', 'r', 'o', 'o', 't', '-', 's', 't', 'e', 'p', '>', 'C', '<', '/', 'r', 'o', 'o', 't', '-', 's', 't', 'e', 'p', '>', '<', '/', 'r', 'o', 'o', 't', '>', '<', '/', 'h', 'a', 'r', 'm', 'o', 'n', 'y', '>', '<', 'h', 'a', 'r', 'm', 'o', 'n', 'y', '>', '<', 'r', 'o', 'o', 't', '>', '<', 'r', 'o', 'o', 't', '-', 's', 't', 'e', 'p', '>', 'B', '<', '/', 'r', 'o', 'o', 't', '-', 's', 't', 'e', 'p', '>', '<', 'r', 'o', 'o', 't', '-', 'a', 'l', 't', 'e', 'r', '>', '1', '<', '/', 'r', 'o', 'o', 't', '-', 'a', 'l', 't', 'e', 'r', '>', '<', '/', 'r', 'o', 'o', 't', '>'], currentElement := none, textContent := [], insideHarmony := true, insideKey := false, insidePitch := false, insideAccidental := false, noteStep := none, noteAlter := none, noteOctave := none, noteTransposedAlter := none, pitchBuffer := [], harmonyRootStepText := some ['B'], harmonyBassStepText := none, transposedRoot := some { step := ['C'], alter := none, octave := 5 }, transposedBass := none, needsRootAlter := false, needsBassAlter := false, hasOriginalRootAlter := true, hasOriginalBassAlter := false, updateRootStep := true, removeLastRootAlter := true, removeLastBassAlter := false }) (SaxEvent.closeTag ['h', 'a', 'r', 'm', 'o', 'n', 'y']) = { output := ['<', 'h', 'a', 'r', 'm', 'o', 'n', 'y', '>', '<', 'r', 'o', 'o', 't', '>', '<', 'r', 'o', 'o', 't', '-', 's', 't', 'e', 'p', '>', 'C', '<', '/', 'r', 'o', 'o', 't', '-', 's', 't', 'e', 'p', '>', '<', '/', 'r', 'o', 'o', 't', '>', '<', '/', 'h', 'a', 'r', 'm', 'o', 'n', 'y', '>', '<', 'h', 'a', 'r', 'm', 'o', 'n', 'y', '>', '<', 'r', 'o', 'o', 't', '>', '<', 'r', 'o', 'o', 't', '-', 's', 't', 'e', 'p', '>', 'B', '<', '/', 'r', 'o', 'o', 't', '-', 's', 't', 'e', 'p', '>', '<', 'r', 'o', 'o', 't', '-', 'a', 'l', 't', 'e', 'r', '>', '1', '<', '/', 'r', 'o', 'o', 't', '-', 'a', 'l', 't', 'e', 'r', '>', '<', '/', 'r', 'o', 'o', 't', '>', '<', '/', 'h', 'a', 'r', 'm', 'o', 'n', 'y', '>'], currentElement := none, textContent := [], insideHarmony := false, insideKey := false, insidePitch := false, insideAccidental := false, noteStep := none, noteAlter := none, noteOctave := none, noteTransposedAlter := none, pitchBuffer := [], harmonyRootStepText := none, harmonyBassStepText := none, transposedRoot := none, transposedBass := none, needsRootAlter := false, needsBassAlter := false, hasOriginalRootAlter := false, hasOriginalBassAlter := false, updateRootStep := false, removeLastRootAlter := false, removeLastBassAlter := false } := by decide
  show (stepEvent 0 (stepEvent 0 (stepEvent 0 (stepEvent 0 (stepEvent 0 (stepEvent 0 (stepEvent 0 (stepEvent 0 (stepEvent 0 (stepEvent 0 (stepEvent 0 (stepEvent 0 (stepEvent 0 (stepEvent 0 (stepEvent 0 (stepEvent 0 (stepEvent 0 (stepEvent 0 (stepEvent 0 (stepEvent 0 (initialState) (SaxEvent.openTag ['h', 'a', 'r', 'm', 'o', 'n', 'y'] [])) (SaxEvent.openTag ['r', 'o', 'o', 't'] [])) (SaxEvent.openTag ['r', 'o', 'o', 't', '-', 's', 't', 'e', 'p'] [])) (SaxEvent.text ['C'])) (SaxEvent.closeTag ['r', 'o', 'o', 't', '-', 's', 't', 'e', 'p'])) (SaxEvent.openTag ['r', 'o', 'o', 't', '-', 'a', 'l', 't', 'e', 'r'] [])) (SaxEvent.text ['1'])) (SaxEvent.closeTag ['r', 'o', 'o', 't', '-', 'a', 'l', 't', 'e', 'r'])) (SaxEvent.closeTag ['r', 'o', 'o', 't'])) (SaxEvent.closeTag ['h', 'a', 'r', 'm', 'o', 'n', 'y'])) (SaxEvent.openTag ['h', 'a', 'r', 'm', 'o', 'n', 'y'] [])) (SaxEvent.openTag ['r', 'o', 'o', 't'] [])) (SaxEvent.openTag ['r', 'o', 'o', 't', '-', 's', 't', 'e', 'p'] [])) (SaxEvent.text ['B'])) (SaxEvent.closeTag ['r', 'o', 'o', 't', '-', 's', 't', 'e', 'p'])) (SaxEvent.openTag ['r', 'o', 'o', 't', '-', 'a', 'l', 't', 'e', 'r'] [])) (SaxEvent.text ['1'])) (SaxEvent.closeTag ['r', 'o', 'o', 't', '-', 'a', 'l', 't', 'e', 'r'])) (SaxEvent.closeTag ['r', 'o', 'o', 't'])) (SaxEvent.closeTag ['h', 'a', 'r', 'm', 'o', 'n', 'y'])).output = _
  rw [h1]
  rw [h2]
  rw [h3]
  rw [h4]
  rw [h5]
  rw [h6]
  rw [h7]
  rw [h8]
  rw [h9]
  rw [h10]
  rw [h11]
  rw [h12]
  rw [h13]
  rw [h14]
  rw [h15]
  rw [h16]
  rw [h17]
  rw [h18]
  rw [h19]
  rw [h20]


set_option maxHeartbeats 4000000 in
/-- Output of the rewriter on `docFrameText` at 0 semitones. -/
lemma docFrameText_out :
    rewriteDoc 0 docFrameText = ['<', 'm', 'e', 'a', 's', 'u', 'r', 'e', ' ', 'n', 'u', 'm', 'b', 'e', 'r', '=', '\"', '1', '\"', '>', '<', 'f', 'o', 'r', 'w', 'a', 'r', 'd', '>', '<', '/', 'f', 'o', 'r', 'w', 'a', 'r', 'd', '>', '\n', '<', '/', 'm', 'e', 'a', 's', 'u', 'r', 'e', '>'] := by
  have h1 : stepEvent 0 initialState (SaxEvent.openTag ['m', 'e', 'a', 's', 'u', 'r', 'e'] [(['n', 'u', 'm', 'b', 'e', 'r'], ['1'])]) = { output := ['<', 'm', 'e', 'a', 's', 'u', 'r', 'e', ' ', 'n', 'u', 'm', 'b', 'e', 'r', '=', '\"', '1', '\"', '>'], currentElement := none, textContent := [], insideHarmony := false, insideKey := false, insidePitch := false, insideAccidental := false, noteStep := none, noteAlter := none, noteOctave := none, noteTransposedAlter := none, pitchBuffer := [], harmonyRootStepText := none, harmonyBassStepText := none, transposedRoot := none, transposedBass := none, needsRootAlter := false, needsBassAlter := false, hasOriginalRootAlter := false, hasOriginalBassAlter := false, updateRootStep := false, removeLastRootAlter := false, removeLastBassAlter := false } := by decide
  have h2 : stepEvent 0 ({ output := ['<', 'm', 'e', 'a', 's', 'u', 'r', 'e', ' ', 'n', 'u', 'm', 'b', 'e', 'r', '=', '\"', '1', '\"', '>'], currentElement := none, textContent := [], insideHarmony := false, insideKey := false, insidePitch := false, insideAccidental := false, noteStep := none, noteAlter := none, noteOctave := none, noteTransposedAlter := none, pitchBuffer := [], harmonyRootStepText := none, harmonyBassStepText := none, transposedRoot := none, transposedBass := none, needsRootAlter := false, needsBassAlter := false, hasOriginalRootAlter := false, hasOriginalBassAlter := false, updateRootStep := false, removeLastRootAlter := false, removeLastBassAlter := false }) (SaxEvent.text [' ']) = { output := ['<', 'm', 'e', 'a', 's', 'u', 'r', 'e', ' ', 'n', 'u', 'm', 'b', 'e', 'r', '=', '\"', '1', '\"', '>'], currentElement := none, textContent := [' '], insideHarmony := false, insideKey := false, insidePitch := false, insideAccidental := false, noteStep := none, noteAlter := none, noteOctave := none, noteTransposedAlter := none, pitchBuffer := [], harmonyRootStepText := none, harmonyBassStepText := none, transposedRoot := none, transposedBass := none, needsRootAlter := false, needsBassAlter := false, hasOriginalRootAlter := false, hasOriginalBassAlter := false, updateRootStep := false, removeLastRootAlter := false, removeLastBassAlter := false } := by decide
  have h3 : stepEvent 0 ({ output := ['<', 'm', 'e', 'a', 's', 'u', 'r', 'e', ' ', 'n', 'u', 'm', 'b', 'e', 'r', '=', '\"', '1', '\"', '>'], currentElement := none, textContent := [' '], insideHarmony := false, insideKey := false, insidePitch := false, insideAccidental := false, noteStep := none, noteAlter := none, noteOctave := none, noteTransposedAlter := none, pitchBuffer := [], harmonyRootStepText := none, harmonyBassStepText := none, transposedRoot := none, transposedBass := none, needsRootAlter := false, needsBassAlter := false, hasOriginalRootAlter := false, hasOriginalBassAlter := false, updateRootStep := false, removeLastRootAlter := false, removeLastBassAlter := false }) (SaxEvent.openTag ['f', 'o', 'r', 'w', 'a', 'r', 'd'] []) = { output := ['<', 'm', 'e', 'a', 's', 'u', 'r', 'e', ' ', 'n', 'u', 'm', 'b', 'e', 'r', '=', '\"', '1', '\"', '>', '<', 'f', 'o', 'r', 'w', 'a', 'r', 'd', '>'], currentElement := none, textContent := [], insideHarmony := false, insideKey := false, insidePitch := false, insideAccidental := false, noteStep := none, noteAlter := none, noteOctave := none, noteTransposedAlter := none, pitchBuffer := [], harmonyRootStepText := none, harmonyBassStepText := none, transposedRoot := none, transposedBass := none, needsRootAlter := false, needsBassAlter := false, hasOriginalRootAlter := false, hasOriginalBassAlter := false, updateRootStep := false, removeLastRootAlter := false, removeLastBassAlter := false } := by decide
  have h4 : stepEvent 0 ({ output := ['<', 'm', 'e', 'a', 's', 'u', 'r', 'e', ' ', 'n', 'u', 'm', 'b', 'e', 'r', '=', '\"', '1', '\"', '>', '<', 'f', 'o', 'r', 'w', 'a', 'r', 'd', '>'], currentElement := none, textContent := [], insideHarmony := false, insideKey := false, insidePitch := false, insideAccidental := false, noteStep := none, noteAlter := none, noteOctave := none, noteTransposedAlter := none, pitchBuffer := [], harmonyRootStepText := none, harmonyBassStepText := none, transposedRoot := none, transposedBass := none, needsRootAlter := false, needsBassAlter := false, hasOriginalRootAlter := false, hasOriginalBassAlter := false, updateRootStep := false, removeLastRootAlter := false, removeLastBassAlter := false }) (SaxEvent.closeTag ['f', 'o', 'r', 'w', 'a', 'r', 'd']) = { output := ['<', 'm', 'e', 'a', 's', 'u', 'r', 'e', ' ', 'n', 'u', 'm', 'b', 'e', 'r', '=', '\"', '1', '\"', '>', '<', 'f', 'o', 'r', 'w', 'a', 'r', 'd', '>', '<', '/', 'f', 'o', 'r', 'w', 'a', 'r', 'd', '>'], currentElement := none, textContent := [], insideHarmony := false, insideKey := false, insidePitch := false, insideAccidental := false, noteStep := none, noteAlter := none, noteOctave := none, noteTransposedAlter := none, pitchBuffer := [], harmonyRootStepText := none, harmonyBassStepText := none, transposedRoot := none, transposedBass := none, needsRootAlter := false, needsBassAlter := false, hasOriginalRootAlter := false, hasOriginalBassAlter := false, updateRootStep := false, removeLastRootAlter := false, removeLastBassAlter := false } := by decide
  have h5 : stepEvent 0 ({ output := ['<', 'm', 'e', 'a', 's', 'u', 'r', 'e', ' ', 'n', 'u', 'm', 'b', 'e', 'r', '=', '\"', '1', '\"', '>', '<', 'f', 'o', 'r', 'w', 'a', 'r', 'd', '>', '<', '/', 'f', 'o', 'r', 'w', 'a', 'r', 'd', '>'], currentElement := none, textContent := [], insideHarmony := false, insideKey := false, insidePitch := false, insideAccidental := false, noteStep := none, noteAlter := none, noteOctave := none, noteTransposedAlter := none, pitchBuffer := [], harmonyRootStepText := none, harmonyBassStepText := none, transposedRoot := none, transposedBass := none, needsRootAlter := false, needsBassAlter := false, hasOriginalRootAlter := false, hasOriginalBassAlter := false, updateRootStep := false, removeLastRootAlter := false, removeLastBassAlter := false }) (SaxEvent.text ['\n']) = { output := ['<', 'm', 'e', 'a', 's', 'u', 'r', 'e', ' ', 'n', 'u', 'm', 'b', 'e', 'r', '=', '\"', '1', '\"', '>', '<', 'f', 'o', 'r', 'w', 'a', 'r', 'd', '>', '<', '/', 'f', 'o', 'r', 'w', 'a', 'r', 'd', '>'], currentElement := none, textContent := ['\n'], insideHarmony := false, insideKey := false, insidePitch := false, insideAccidental := false, noteStep := none, noteAlter := none, noteOctave := none, noteTransposedAlter := none, pitchBuffer := [], harmonyRootStepText := none, harmonyBassStepText := none, transposedRoot := none, transposedBass := none, needsRootAlter := false, needsBassAlter := false, hasOriginalRootAlter := false, hasOriginalBassAlter := false, updateRootStep := false, removeLastRootAlter := false, removeLastBassAlter := false } := by decide
  have h6 : stepEvent 0 ({ output := ['<', 'm', 'e', 'a', 's', 'u', 'r', 'e', ' ', 'n', 'u', 'm', 'b', 'e', 'r', '=', '\"', '1', '\"', '>', '<', 'f', 'o', 'r', 'w', 'a', 'r', 'd', '>', '<', '/', 'f', 'o', 'r', 'w', 'a', 'r', 'd', '>'], currentElement := none, textContent := ['\n'], insideHarmony := false, insideKey := false, insidePitch := false, insideAccidental := false, noteStep := none, noteAlter := none, noteOctave := none, noteTransposedAlter := none, pitchBuffer := [], harmonyRootStepText := none, harmonyBassStepText := none, transposedRoot := none, transposedBass := none, needsRootAlter := false, needsBassAlter := false, hasOriginalRootAlter := false, hasOriginalBassAlter := false, updateRootStep := false, removeLastRootAlter := false, removeLastBassAlter := false }) (SaxEvent.closeTag ['m', 'e', 'a', 's', 'u', 'r', 'e']) = { output := ['<', 'm', 'e', 'a', 's', 'u', 'r', 'e', ' ', 'n', 'u', 'm', 'b', 'e', 'r', '=', '\"', '1', '\"', '>', '<', 'f', 'o', 'r', 'w', 'a', 'r', 'd', '>', '<', '/', 'f', 'o', 'r', 'w', 'a', 'r', 'd', '>', '\n', '<', '/', 'm', 'e', 'a', 's', 'u', 'r', 'e', '>'], currentElement := none, textContent := [], insideHarmony := false, insideKey := false, insidePitch := false, insideAccidental := false, noteStep := none, noteAlter := none, noteOctave := none, noteTransposedAlter := none, pitchBuffer := [], harmonyRootStepText := none, harmonyBassStepText := none, transposedRoot := none, transposedBass := none, needsRootAlter := false, needsBassAlter := false, hasOriginalRootAlter := false, hasOriginalBassAlter := false, updateRootStep := false, removeLastRootAlter := false, removeLastBassAlter := false } := by decide
  show (stepEvent 0 (stepEvent 0 (stepEvent 0 (stepEvent 0 (stepEvent 0 (stepEvent 0 (initialState) (SaxEvent.openTag ['m', 'e', 'a', 's', 'u', 'r', 'e'] [(['n', 'u', 'm', 'b', 'e', 'r'], ['1'])])) (SaxEvent.text [' '])) (SaxEvent.openTag ['f', 'o', 'r', 'w', 'a', 'r', 'd'] [])) (SaxEvent.closeTag ['f', 'o', 'r', 'w', 'a', 'r', 'd'])) (SaxEvent.text ['\n'])) (SaxEvent.closeTag ['m', 'e', 'a', 's', 'u', 'r', 'e'])).output = _
  rw [h1]
  rw [h2]
  rw [h3]
  rw [h4]
  rw [h5]
  rw [h6]


set_option maxHeartbeats 4000000 in
/-- The splitter's result on `docSplitGood`. -/
lemma splitStructure_docSplitGood :
    splitStructure docSplitGood = { header := ['<', 's', 'c', 'o', 'r', 'e', '-', 'p', 'a', 'r', 't', 'w', 'i', 's', 'e', ' ', 'v', 'e', 'r', 's', 'i', 'o', 'n', '=', '\"', '3', '.', '1', '\"', '>', '<', 'w', 'o', 'r', 'k', '>', '<', 'w', 'o', 'r', 'k', '-', 't', 'i', 't', 'l', 'e', '>', 'T', 'u', 'n', 'e', '<', '/', 'w', 'o', 'r', 'k', '-', 't', 'i', 't', 'l', 'e', '>', '<', '/', 'w', 'o', 'r', 'k', '>'], parts := [(['P', '1'], [['<', 'm', 'e', 'a', 's', 'u', 'r', 'e', ' ', 'n', 'u', 'm', 'b', 'e', 'r', '=', '\"', '1', '\"', '>', '<', 'n', 'o', 't', 'e', '>', '<', 'p', 'i', 't', 'c', 'h', '>', '<', 's', 't', 'e', 'p', '>', 'C', '<', '/', 's', 't', 'e', 'p', '>', '<', 'o', 'c', 't', 'a', 'v', 'e', '>', '4', '<', '/', 'o', 'c', 't', 'a', 'v', 'e', '>', '<', '/', 'p', 'i', 't', 'c', 'h', '>', '<', 'd', 'u', 'r', 'a', 't', 'i', 'o', 'n', '>', '4', '<', '/', 'd', 'u', 'r', 'a', 't', 'i', 'o', 'n', '>', '<', '/', 'n', 'o', 't', 'e', '>', '<', '/', 'm', 'e', 'a', 's', 'u', 'r', 'e', '>']])], currentPartId := ['P', '1'], currentPartMeasures := [['<', 'm', 'e', 'a', 's', 'u', 'r', 'e', ' ', 'n', 'u', 'm', 'b', 'e', 'r', '=', '\"', '1', '\"', '>', '<', 'n', 'o', 't', 'e', '>', '<', 'p', 'i', 't', 'c', 'h', '>', '<', 's', 't', 'e', 'p', '>', 'C', '<', '/', 's', 't', 'e', 'p', '>', '<', 'o', 'c', 't', 'a', 'v', 'e', '>', '4', '<', '/', 'o', 'c', 't', 'a', 'v', 'e', '>', '<', '/', 'p', 'i', 't', 'c', 'h', '>', '<', 'd', 'u', 'r', 'a', 't', 'i', 'o', 'n', '>', '4', '<', '/', 'd', 'u', 'r', 'a', 't', 'i', 'o', 'n', '>', '<', '/', 'n', 'o', 't', 'e', '>', '<', '/', 'm', 'e', 'a', 's', 'u', 'r', 'e', '>']], hasCurrentPart := false, currentMeasure := [], insideHeader := false, insidePart := false, insideMeasure := false } := by
  have g1 : stepSplit (({} : SplitState)) (SaxEvent.openTag ['s', 'c', 'o', 'r', 'e', '-', 'p', 'a', 'r', 't', 'w', 'i', 's', 'e'] [(['v', 'e', 'r', 's', 'i', 'o', 'n'], ['3', '.', '1'])]) = { header := ['<', 's', 'c', 'o', 'r', 'e', '-', 'p', 'a', 'r', 't', 'w', 'i', 's', 'e', ' ', 'v', 'e', 'r', 's', 'i', 'o', 'n', '=', '\"', '3', '.', '1', '\"', '>'], parts := [], currentPartId := [], currentPartMeasures := [], hasCurrentPart := false, currentMeasure := [], insideHeader := true, insidePart := false, insideMeasure := false } := by decide
  have g2 : stepSplit ({ header := ['<', 's', 'c', 'o', 'r', 'e', '-', 'p', 'a', 'r', 't', 'w', 'i', 's', 'e', ' ', 'v', 'e', 'r', 's', 'i', 'o', 'n', '=', '\"', '3', '.', '1', '\"', '>'], parts := [], currentPartId := [], currentPartMeasures := [], hasCurrentPart := false, currentMeasure := [], insideHeader := true, insidePart := false, insideMeasure := false }) (SaxEvent.openTag ['w', 'o', 'r', 'k'] []) = { header := ['<', 's', 'c', 'o', 'r', 'e', '-', 'p', 'a', 'r', 't', 'w', 'i', 's', 'e', ' ', 'v', 'e', 'r', 's', 'i', 'o', 'n', '=', '\"', '3', '.', '1', '\"', '>', '<', 'w', 'o', 'r', 'k', '>'], parts := [], currentPartId := [], currentPartMeasures := [], hasCurrentPart := false, currentMeasure := [], insideHeader := true, insidePart := false, insideMeasure := false } := by decide
  have g3 : stepSplit ({ header := ['<', 's', 'c', 'o', 'r', 'e', '-', 'p', 'a', 'r', 't', 'w', 'i', 's', 'e', ' ', 'v', 'e', 'r', 's', 'i', 'o', 'n', '=', '\"', '3', '.', '1', '\"', '>', '<', 'w', 'o', 'r', 'k', '>'], parts := [], currentPartId := [], currentPartMeasures := [], hasCurrentPart := false, currentMeasure := [], insideHeader := true, insidePart := false, insideMeasure := false }) (SaxEvent.openTag ['w', 'o', 'r', 'k', '-', 't', 'i', 't', 'l', 'e'] []) = { header := ['<', 's', 'c', 'o', 'r', 'e', '-', 'p', 'a', 'r', 't', 'w', 'i', 's', 'e', ' ', 'v', 'e', 'r', 's', 'i', 'o', 'n', '=', '\"', '3', '.', '1', '\"', '>', '<', 'w', 'o', 'r', 'k', '>', '<', 'w', 'o', 'r', 'k', '-', 't', 'i', 't', 'l', 'e', '>'], parts := [], currentPartId := [], currentPartMeasures := [], hasCurrentPart := false, currentMeasure := [], insideHeader := true, insidePart := false, insideMeasure := false } := by decide
  have g4 : stepSplit ({ header := ['<', 's', 'c', 'o', 'r', 'e', '-', 'p', 'a', 'r', 't', 'w', 'i', 's', 'e', ' ', 'v', 'e', 'r', 's', 'i', 'o', 'n', '=', '\"', '3', '.', '1', '\"', '>', '<', 'w', 'o', 'r', 'k', '>', '<', 'w', 'o', 'r', 'k', '-', 't', 'i', 't', 'l', 'e', '>'], parts := [], currentPartId := [], currentPartMeasures := [], hasCurrentPart := false, currentMeasure := [], insideHeader := true, insidePart := false, insideMeasure := false }) (SaxEvent.text ['T', 'u', 'n', 'e']) = { header := ['<', 's', 'c', 'o', 'r', 'e', '-', 'p', 'a', 'r', 't', 'w', 'i', 's', 'e', ' ', 'v', 'e', 'r', 's', 'i', 'o', 'n', '=', '\"', '3', '.', '1', '\"', '>', '<', 'w', 'o', 'r', 'k', '>', '<', 'w', 'o', 'r', 'k', '-', 't', 'i', 't', 'l', 'e', '>', 'T', 'u', 'n', 'e'], parts := [], currentPartId := [], currentPartMeasures := [], hasCurrentPart := false, currentMeasure := [], insideHeader := true, insidePart := false, insideMeasure := false } := by decide
  have g5 : stepSplit ({ header := ['<', 's', 'c', 'o', 'r', 'e', '-', 'p', 'a', 'r', 't', 'w', 'i', 's', 'e', ' ', 'v', 'e', 'r', 's', 'i', 'o', 'n', '=', '\"', '3', '.', '1', '\"', '>', '<', 'w', 'o', 'r', 'k', '>', '<', 'w', 'o', 'r', 'k', '-', 't', 'i', 't', 'l', 'e', '>', 'T', 'u', 'n', 'e'], parts := [], currentPartId := [], currentPartMeasures := [], hasCurrentPart := false, currentMeasure := [], insideHeader := true, insidePart := false, insideMeasure := false }) (SaxEvent.closeTag ['w', 'o', 'r', 'k', '-', 't', 'i', 't', 'l', 'e']) = { header := ['<', 's', 'c', 'o', 'r', 'e', '-', 'p', 'a', 'r', 't', 'w', 'i', 's', 'e', ' ', 'v', 'e', 'r', 's', 'i', 'o', 'n', '=', '\"', '3', '.', '1', '\"', '>', '<', 'w', 'o', 'r', 'k', '>', '<', 'w', 'o', 'r', 'k', '-', 't', 'i', 't', 'l', 'e', '>', 'T', 'u', 'n', 'e', '<', '/', 'w', 'o', 'r', 'k', '-', 't', 'i', 't', 'l', 'e', '>'], parts := [], currentPartId := [], currentPartMeasures := [], hasCurrentPart := false, currentMeasure := [], insideHeader := true, insidePart := false, insideMeasure := false } := by decide
  have g6 : stepSplit ({ header := ['<', 's', 'c', 'o', 'r', 'e', '-', 'p', 'a', 'r', 't', 'w', 'i', 's', 'e', ' ', 'v', 'e', 'r', 's', 'i', 'o', 'n', '=', '\"', '3', '.', '1', '\"', '>', '<', 'w', 'o', 'r', 'k', '>', '<', 'w', 'o', 'r', 'k', '-', 't', 'i', 't', 'l', 'e', '>', 'T', 'u', 'n', 'e', '<', '/', 'w', 'o', 'r', 'k', '-', 't', 'i', 't', 'l', 'e', '>'], parts := [], currentPartId := [], currentPartMeasures := [], hasCurrentPart := false, currentMeasure := [], insideHeader := true, insidePart := false, insideMeasure := false }) (SaxEvent.closeTag ['w', 'o', 'r', 'k']) = { header := ['<', 's', 'c', 'o', 'r', 'e', '-', 'p', 'a', 'r', 't', 'w', 'i', 's', 'e', ' ', 'v', 'e', 'r', 's', 'i', 'o', 'n', '=', '\"', '3', '.', '1', '\"', '>', '<', 'w', 'o', 'r', 'k', '>', '<', 'w', 'o', 'r', 'k', '-', 't', 'i', 't', 'l', 'e', '>', 'T', 'u', 'n', 'e', '<', '/', 'w', 'o', 'r', 'k', '-', 't', 'i', 't', 'l', 'e', '>', '<', '/', 'w', 'o', 'r', 'k', '>'], parts := [], currentPartId := [], currentPartMeasures := [], hasCurrentPart := false, currentMeasure := [], insideHeader := true, insidePart := false, insideMeasure := false } := by decide
  have g7 : stepSplit ({ header := ['<', 's', 'c', 'o', 'r', 'e', '-', 'p', 'a', 'r', 't', 'w', 'i', 's', 'e', ' ', 'v', 'e', 'r', 's', 'i', 'o', 'n', '=', '\"', '3', '.', '1', '\"', '>', '<', 'w', 'o', 'r', 'k', '>', '<', 'w', 'o', 'r', 'k', '-', 't', 'i', 't', 'l', 'e', '>', 'T', 'u', 'n', 'e', '<', '/', 'w', 'o', 'r', 'k', '-', 't', 'i', 't', 'l', 'e', '>', '<', '/', 'w', 'o', 'r', 'k', '>'], parts := [], currentPartId := [], currentPartMeasures := [], hasCurrentPart := false, currentMeasure := [], insideHeader := true, insidePart := false, insideMeasure := false }) (SaxEvent.openTag ['p', 'a', 'r', 't'] [(['i', 'd'], ['P', '1'])]) = { header := ['<', 's', 'c', 'o', 'r', 'e', '-', 'p', 'a', 'r', 't', 'w', 'i', 's', 'e', ' ', 'v', 'e', 'r', 's', 'i', 'o', 'n', '=', '\"', '3', '.', '1', '\"', '>', '<', 'w', 'o', 'r', 'k', '>', '<', 'w', 'o', 'r', 'k', '-', 't', 'i', 't', 'l', 'e', '>', 'T', 'u', 'n', 'e', '<', '/', 'w', 'o', 'r', 'k', '-', 't', 'i', 't', 'l', 'e', '>', '<', '/', 'w', 'o', 'r', 'k', '>'], parts := [], currentPartId := ['P', '1'], currentPartMeasures := [], hasCurrentPart := true, currentMeasure := [], insideHeader := false, insidePart := true, insideMeasure := false } := by decide
  have g8 : stepSplit ({ header := ['<', 's', 'c', 'o', 'r', 'e', '-', 'p', 'a', 'r', 't', 'w', 'i', 's', 'e', ' ', 'v', 'e', 'r', 's', 'i', 'o', 'n', '=', '\"', '3', '.', '1', '\"', '>', '<', 'w', 'o', 'r', 'k', '>', '<', 'w', 'o', 'r', 'k', '-', 't', 'i', 't', 'l', 'e', '>', 'T', 'u', 'n', 'e', '<', '/', 'w', 'o', 'r', 'k', '-', 't', 'i', 't', 'l', 'e', '>', '<', '/', 'w', 'o', 'r', 'k', '>'], parts := [], currentPartId := ['P', '1'], currentPartMeasures := [], hasCurrentPart := true, currentMeasure := [], insideHeader := false, insidePart := true, insideMeasure := false }) (SaxEvent.openTag ['m', 'e', 'a', 's', 'u', 'r', 'e'] [(['n', 'u', 'm', 'b', 'e', 'r'], ['1'])]) = { header := ['<', 's', 'c', 'o', 'r', 'e', '-', 'p', 'a', 'r', 't', 'w', 'i', 's', 'e', ' ', 'v', 'e', 'r', 's', 'i', 'o', 'n', '=', '\"', '3', '.', '1', '\"', '>', '<', 'w', 'o', 'r', 'k', '>', '<', 'w', 'o', 'r', 'k', '-', 't', 'i', 't', 'l', 'e', '>', 'T', 'u', 'n', 'e', '<', '/', 'w', 'o', 'r', 'k', '-', 't', 'i', 't', 'l', 'e', '>', '<', '/', 'w', 'o', 'r', 'k', '>'], parts := [], currentPartId := ['P', '1'], currentPartMeasures := [], hasCurrentPart := true, currentMeasure := ['<', 'm', 'e', 'a', 's', 'u', 'r', 'e', ' ', 'n', 'u', 'm', 'b', 'e', 'r', '=', '\"', '1', '\"', '>'], insideHeader := false, insidePart := true, insideMeasure := true } := by decide
  have g9 : stepSplit ({ header := ['<', 's', 'c', 'o', 'r', 'e', '-', 'p', 'a', 'r', 't', 'w', 'i', 's', 'e', ' ', 'v', 'e', 'r', 's', 'i', 'o', 'n', '=', '\"', '3', '.', '1', '\"', '>', '<', 'w', 'o', 'r', 'k', '>', '<', 'w', 'o', 'r', 'k', '-', 't', 'i', 't', 'l', 'e', '>', 'T', 'u', 'n', 'e', '<', '/', 'w', 'o', 'r', 'k', '-', 't', 'i', 't', 'l', 'e', '>', '<', '/', 'w', 'o', 'r', 'k', '>'], parts := [], currentPartId := ['P', '1'], currentPartMeasures := [], hasCurrentPart := true, currentMeasure := ['<', 'm', 'e', 'a', 's', 'u', 'r', 'e', ' ', 'n', 'u', 'm', 'b', 'e', 'r', '=', '\"', '1', '\"', '>'], insideHeader := false, insidePart := true, insideMeasure := true }) (SaxEvent.openTag ['n', 'o', 't', 'e'] []) = { header := ['<', 's', 'c', 'o', 'r', 'e', '-', 'p', 'a', 'r', 't', 'w', 'i', 's', 'e', ' ', 'v', 'e', 'r', 's', 'i', 'o', 'n', '=', '\"', '3', '.', '1', '\"', '>', '<', 'w', 'o', 'r', 'k', '>', '<', 'w', 'o', 'r', 'k', '-', 't', 'i', 't', 'l', 'e', '>', 'T', 'u', 'n', 'e', '<', '/', 'w', 'o', 'r', 'k', '-', 't', 'i', 't', 'l', 'e', '>', '<', '/', 'w', 'o', 'r', 'k', '>'], parts := [], currentPartId := ['P', '1'], currentPartMeasures := [], hasCurrentPart := true, currentMeasure := ['<', 'm', 'e', 'a', 's', 'u', 'r', 'e', ' ', 'n', 'u', 'm', 'b', 'e', 'r', '=', '\"', '1', '\"', '>', '<', 'n', 'o', 't', 'e', '>'], insideHeader := false, insidePart := true, insideMeasure := true } := by decide
  have g10 : stepSplit ({ header := ['<', 's', 'c', 'o', 'r', 'e', '-', 'p', 'a', 'r', 't', 'w', 'i', 's', 'e', ' ', 'v', 'e', 'r', 's', 'i', 'o', 'n', '=', '\"', '3', '.', '1', '\"', '>', '<', 'w', 'o', 'r', 'k', '>', '<', 'w', 'o', 'r', 'k', '-', 't', 'i', 't', 'l', 'e', '>', 'T', 'u', 'n', 'e', '<', '/', 'w', 'o', 'r', 'k', '-', 't', 'i', 't', 'l', 'e', '>', '<', '/', 'w', 'o', 'r', 'k', '>'], parts := [], currentPartId := ['P', '1'], currentPartMeasures := [], hasCurrentPart := true, currentMeasure := ['<', 'm', 'e', 'a', 's', 'u', 'r', 'e', ' ', 'n', 'u', 'm', 'b', 'e', 'r', '=', '\"', '1', '\"', '>', '<', 'n', 'o', 't', 'e', '>'], insideHeader := false, insidePart := true, insideMeasure := true }) (SaxEvent.openTag ['p', 'i', 't', 'c', 'h'] []) = { header := ['<', 's', 'c', 'o', 'r', 'e', '-', 'p', 'a', 'r', 't', 'w', 'i', 's', 'e', ' ', 'v', 'e', 'r', 's', 'i', 'o', 'n', '=', '\"', '3', '.', '1', '\"', '>', '<', 'w', 'o', 'r', 'k', '>', '<', 'w', 'o', 'r', 'k', '-', 't', 'i', 't', 'l', 'e', '>', 'T', 'u', 'n', 'e', '<', '/', 'w', 'o', 'r', 'k', '-', 't', 'i', 't', 'l', 'e', '>', '<', '/', 'w', 'o', 'r', 'k', '>'], parts := [], currentPartId := ['P', '1'], currentPartMeasures := [], hasCurrentPart := true, currentMeasure := ['<', 'm', 'e', 'a', 's', 'u', 'r', 'e', ' ', 'n', 'u', 'm', 'b', 'e', 'r', '=', '\"', '1', '\"', '>', '<', 'n', 'o', 't', 'e', '>', '<', 'p', 'i', 't', 'c', 'h', '>'], insideHeader := false, insidePart := true, insideMeasure := true } := by decide
  have g11 : stepSplit ({ header := ['<', 's', 'c', 'o', 'r', 'e', '-', 'p', 'a', 'r', 't', 'w', 'i', 's', 'e', ' ', 'v', 'e', 'r', 's', 'i', 'o', 'n', '=', '\"', '3', '.', '1', '\"', '>', '<', 'w', 'o', 'r', 'k', '>', '<', 'w', 'o', 'r', 'k', '-', 't', 'i', 't', 'l', 'e', '>', 'T', 'u', 'n', 'e', '<', '/', 'w', 'o', 'r', 'k', '-', 't', 'i', 't', 'l', 'e', '>', '<', '/', 'w', 'o', 'r', 'k', '>'], parts := [], currentPartId := ['P', '1'], currentPartMeasures := [], hasCurrentPart := true, currentMeasure := ['<', 'm', 'e', 'a', 's', 'u', 'r', 'e', ' ', 'n', 'u', 'm', 'b', 'e', 'r', '=', '\"', '1', '\"', '>', '<', 'n', 'o', 't', 'e', '>', '<', 'p', 'i', 't', 'c', 'h', '>'], insideHeader := false, insidePart := true, insideMeasure := true }) (SaxEvent.openTag ['s', 't', 'e', 'p'] []) = { header := ['<', 's', 'c', 'o', 'r', 'e', '-', 'p', 'a', 'r', 't', 'w', 'i', 's', 'e', ' ', 'v', 'e', 'r', 's', 'i', 'o', 'n', '=', '\"', '3', '.', '1', '\"', '>', '<', 'w', 'o', 'r', 'k', '>', '<', 'w', 'o', 'r', 'k', '-', 't', 'i', 't', 'l', 'e', '>', 'T', 'u', 'n', 'e', '<', '/', 'w', 'o', 'r', 'k', '-', 't', 'i', 't', 'l', 'e', '>', '<', '/', 'w', 'o', 'r', 'k', '>'], parts := [], currentPartId := ['P', '1'], currentPartMeasures := [], hasCurrentPart := true, currentMeasure := ['<', 'm', 'e', 'a', 's', 'u', 'r', 'e', ' ', 'n', 'u', 'm', 'b', 'e', 'r', '=', '\"', '1', '\"', '>', '<', 'n', 'o', 't', 'e', '>', '<', 'p', 'i', 't', 'c', 'h', '>', '<', 's', 't', 'e', 'p', '>'], insideHeader := false, insidePart := true, insideMeasure := true } := by decide
  have g12 : stepSplit ({ header := ['<', 's', 'c', 'o', 'r', 'e', '-', 'p', 'a', 'r', 't', 'w', 'i', 's', 'e', ' ', 'v', 'e', 'r', 's', 'i', 'o', 'n', '=', '\"', '3', '.', '1', '\"', '>', '<', 'w', 'o', 'r', 'k', '>', '<', 'w', 'o', 'r', 'k', '-', 't', 'i', 't', 'l', 'e', '>', 'T', 'u', 'n', 'e', '<', '/', 'w', 'o', 'r', 'k', '-', 't', 'i', 't', 'l', 'e', '>', '<', '/', 'w', 'o', 'r', 'k', '>'], parts := [], currentPartId := ['P', '1'], currentPartMeasures := [], hasCurrentPart := true, currentMeasure := ['<', 'm', 'e', 'a', 's', 'u', 'r', 'e', ' ', 'n', 'u', 'm', 'b', 'e', 'r', '=', '\"', '1', '\"', '>', '<', 'n', 'o', 't', 'e', '>', '<', 'p', 'i', 't', 'c', 'h', '>', '<', 's', 't', 'e', 'p', '>'], insideHeader := false, insidePart := true, insideMeasure := true }) (SaxEvent.text ['C']) = { header := ['<', 's', 'c', 'o', 'r', 'e', '-', 'p', 'a', 'r', 't', 'w', 'i', 's', 'e', ' ', 'v', 'e', 'r', 's', 'i', 'o', 'n', '=', '\"', '3', '.', '1', '\"', '>', '<', 'w', 'o', 'r', 'k', '>', '<', 'w', 'o', 'r', 'k', '-', 't', 'i', 't', 'l', 'e', '>', 'T', 'u', 'n', 'e', '<', '/', 'w', 'o', 'r', 'k', '-', 't', 'i', 't', 'l', 'e', '>', '<', '/', 'w', 'o', 'r', 'k', '>'], parts := [], currentPartId := ['P', '1'], currentPartMeasures := [], hasCurrentPart := true, currentMeasure := ['<', 'm', 'e', 'a', 's', 'u', 'r', 'e', ' ', 'n', 'u', 'm', 'b', 'e', 'r', '=', '\"', '1', '\"', '>', '<', 'n', 'o', 't', 'e', '>', '<', 'p', 'i', 't', 'c', 'h', '>', '<', 's', 't', 'e', 'p', '>', 'C'], insideHeader := false, insidePart := true, insideMeasure := true } := by decide
  have g13 : stepSplit ({ header := ['<', 's', 'c', 'o', 'r', 'e', '-', 'p', 'a', 'r', 't', 'w', 'i', 's', 'e', ' ', 'v', 'e', 'r', 's', 'i', 'o', 'n', '=', '\"', '3', '.', '1', '\"', '>', '<', 'w', 'o', 'r', 'k', '>', '<', 'w', 'o', 'r', 'k', '-', 't', 'i', 't', 'l', 'e', '>', 'T', 'u', 'n', 'e', '<', '/', 'w', 'o', 'r', 'k', '-', 't', 'i', 't', 'l', 'e', '>', '<', '/', 'w', 'o', 'r', 'k', '>'], parts := [], currentPartId := ['P', '1'], currentPartMeasures := [], hasCurrentPart := true, currentMeasure := ['<', 'm', 'e', 'a', 's', 'u', 'r', 'e', ' ', 'n', 'u', 'm', 'b', 'e', 'r', '=', '\"', '1', '\"', '>', '<', 'n', 'o', 't', 'e', '>', '<', 'p', 'i', 't', 'c', 'h', '>', '<', 's', 't', 'e', 'p', '>', 'C'], insideHeader := false, insidePart := true, insideMeasure := true }) (SaxEvent.closeTag ['s', 't', 'e', 'p']) = { header := ['<', 's', 'c', 'o', 'r', 'e', '-', 'p', 'a', 'r', 't', 'w', 'i', 's', 'e', ' ', 'v', 'e', 'r', 's', 'i', 'o', 'n', '=', '\"', '3', '.', '1', '\"', '>', '<', 'w', 'o', 'r', 'k', '>', '<', 'w', 'o', 'r', 'k', '-', 't', 'i', 't', 'l', 'e', '>', 'T', 'u', 'n', 'e', '<', '/', 'w', 'o', 'r', 'k', '-', 't', 'i', 't', 'l', 'e', '>', '<', '/', 'w', 'o', 'r', 'k', '>'], parts := [], currentPartId := ['P', '1'], currentPartMeasures := [], hasCurrentPart := true, currentMeasure := ['<', 'm', 'e', 'a', 's', 'u', 'r', 'e', ' ', 'n', 'u', 'm', 'b', 'e', 'r', '=', '\"', '1', '\"', '>', '<', 'n', 'o', 't', 'e', '>', '<', 'p', 'i', 't', 'c', 'h', '>', '<', 's', 't', 'e', 'p', '>', 'C', '<', '/', 's', 't', 'e', 'p', '>'], insideHeader := false, insidePart := true, insideMeasure := true } := by decide
  have g14 : stepSplit ({ header := ['<', 's', 'c', 'o', 'r', 'e', '-', 'p', 'a', 'r', 't', 'w', 'i', 's', 'e', ' ', 'v', 'e', 'r', 's', 'i', 'o', 'n', '=', '\"', '3', '.', '1', '\"', '>', '<', 'w', 'o', 'r', 'k', '>', '<', 'w', 'o', 'r', 'k', '-', 't', 'i', 't', 'l', 'e', '>', 'T', 'u', 'n', 'e', '<', '/', 'w', 'o', 'r', 'k', '-', 't', 'i', 't', 'l', 'e', '>', '<', '/', 'w', 'o', 'r', 'k', '>'], parts := [], currentPartId := ['P', '1'], currentPartMeasures := [], hasCurrentPart := true, currentMeasure := ['<', 'm', 'e', 'a', 's', 'u', 'r', 'e', ' ', 'n', 'u', 'm', 'b', 'e', 'r', '=', '\"', '1', '\"', '>', '<', 'n', 'o', 't', 'e', '>', '<', 'p', 'i', 't', 'c', 'h', '>', '<', 's', 't', 'e', 'p', '>', 'C', '<', '/', 's', 't', 'e', 'p', '>'], insideHeader := false, insidePart := true, insideMeasure := true }) (SaxEvent.openTag ['o', 'c', 't', 'a', 'v', 'e'] []) = { header := ['<', 's', 'c', 'o', 'r', 'e', '-', 'p', 'a', 'r', 't', 'w', 'i', 's', 'e', ' ', 'v', 'e', 'r', 's', 'i', 'o', 'n', '=', '\"', '3', '.', '1', '\"', '>', '<', 'w', 'o', 'r', 'k', '>', '<', 'w', 'o', 'r', 'k', '-', 't', 'i', 't', 'l', 'e', '>', 'T', 'u', 'n', 'e', '<', '/', 'w', 'o', 'r', 'k', '-', 't', 'i', 't', 'l', 'e', '>', '<', '/', 'w', 'o', 'r', 'k', '>'], parts := [], currentPartId := ['P', '1'], currentPartMeasures := [], hasCurrentPart := true, currentMeasure := ['<', 'm', 'e', 'a', 's', 'u', 'r', 'e', ' ', 'n', 'u', 'm', 'b', 'e', 'r', '=', '\"', '1', '\"', '>', '<', 'n', 'o', 't', 'e', '>', '<', 'p', 'i', 't', 'c', 'h', '>', '<', 's', 't', 'e', 'p', '>', 'C', '<', '/', 's', 't', 'e', 'p', '>', '<', 'o', 'c', 't', 'a', 'v', 'e', '>'], insideHeader := false, insidePart := true, insideMeasure := true } := by decide
  have g15 : stepSplit ({ header := ['<', 's', 'c', 'o', 'r', 'e', '-', 'p', 'a', 'r', 't', 'w', 'i', 's', 'e', ' ', 'v', 'e', 'r', 's', 'i', 'o', 'n', '=', '\"', '3', '.', '1', '\"', '>', '<', 'w', 'o', 'r', 'k', '>', '<', 'w', 'o', 'r', 'k', '-', 't', 'i', 't', 'l', 'e', '>', 'T', 'u', 'n', 'e', '<', '/', 'w', 'o', 'r', 'k', '-', 't', 'i', 't', 'l', 'e', '>', '<', '/', 'w', 'o', 'r', 'k', '>'], parts := [], currentPartId := ['P', '1'], currentPartMeasures := [], hasCurrentPart := true, currentMeasure := ['<', 'm', 'e', 'a', 's', 'u', 'r', 'e', ' ', 'n', 'u', 'm', 'b', 'e', 'r', '=', '\"', '1', '\"', '>', '<', 'n', 'o', 't', 'e', '>', '<', 'p', 'i', 't', 'c', 'h', '>', '<', 's', 't', 'e', 'p', '>', 'C', '<', '/', 's', 't', 'e', 'p', '>', '<', 'o', 'c', 't', 'a', 'v', 'e', '>'], insideHeader := false, insidePart := true, insideMeasure := true }) (SaxEvent.text ['4']) = { header := ['<', 's', 'c', 'o', 'r', 'e', '-', 'p', 'a', 'r', 't', 'w', 'i', 's', 'e', ' ', 'v', 'e', 'r', 's', 'i', 'o', 'n', '=', '\"', '3', '.', '1', '\"', '>', '<', 'w', 'o', 'r', 'k', '>', '<', 'w', 'o', 'r', 'k', '-', 't', 'i', 't', 'l', 'e', '>', 'T', 'u', 'n', 'e', '<', '/', 'w', 'o', 'r', 'k', '-', 't', 'i', 't', 'l', 'e', '>', '<', '/', 'w', 'o', 'r', 'k', '>'], parts := [], currentPartId := ['P', '1'], currentPartMeasures := [], hasCurrentPart := true, currentMeasure := ['<', 'm', 'e', 'a', 's', 'u', 'r', 'e', ' ', 'n', 'u', 'm', 'b', 'e', 'r', '=', '\"', '1', '\"', '>', '<', 'n', 'o', 't', 'e', '>', '<', 'p', 'i', 't', 'c', 'h', '>', '<', 's', 't', 'e', 'p', '>', 'C', '<', '/', 's', 't', 'e', 'p', '>', '<', 'o', 'c', 't', 'a', 'v', 'e', '>', '4'], insideHeader := false, insidePart := true, insideMeasure := true } := by decide
  have g16 : stepSplit ({ header := ['<', 's', 'c', 'o', 'r', 'e', '-', 'p', 'a', 'r', 't', 'w', 'i', 's', 'e', ' ', 'v', 'e', 'r', 's', 'i', 'o', 'n', '=', '\"', '3', '.', '1', '\"', '>', '<', 'w', 'o', 'r', 'k', '>', '<', 'w', 'o', 'r', 'k', '-', 't', 'i', 't', 'l', 'e', '>', 'T', 'u', 'n', 'e', '<', '/', 'w', 'o', 'r', 'k', '-', 't', 'i', 't', 'l', 'e', '>', '<', '/', 'w', 'o', 'r', 'k', '>'], parts := [], currentPartId := ['P', '1'], currentPartMeasures := [], hasCurrentPart := true, currentMeasure := ['<', 'm', 'e', 'a', 's', 'u', 'r', 'e', ' ', 'n', 'u', 'm', 'b', 'e', 'r', '=', '\"', '1', '\"', '>', '<', 'n', 'o', 't', 'e', '>', '<', 'p', 'i', 't', 'c', 'h', '>', '<', 's', 't', 'e', 'p', '>', 'C', '<', '/', 's', 't', 'e', 'p', '>', '<', 'o', 'c', 't', 'a', 'v', 'e', '>', '4'], insideHeader := false, insidePart := true, insideMeasure := true }) (SaxEvent.closeTag ['o', 'c', 't', 'a', 'v', 'e']) = { header := ['<', 's', 'c', 'o', 'r', 'e', '-', 'p', 'a', 'r', 't', 'w', 'i', 's', 'e', ' ', 'v', 'e', 'r', 's', 'i', 'o', 'n', '=', '\"', '3', '.', '1', '\"', '>', '<', 'w', 'o', 'r', 'k', '>', '<', 'w', 'o', 'r', 'k', '-', 't', 'i', 't', 'l', 'e', '>', 'T', 'u', 'n', 'e', '<', '/', 'w', 'o', 'r', 'k', '-', 't', 'i', 't', 'l', 'e', '>', '<', '/', 'w', 'o', 'r', 'k', '>'], parts := [], currentPartId := ['P', '1'], currentPartMeasures := [], hasCurrentPart := true, currentMeasure := ['<', 'm', 'e', 'a', 's', 'u', 'r', 'e', ' ', 'n', 'u', 'm', 'b', 'e', 'r', '=', '\"', '1', '\"', '>', '<', 'n', 'o', 't', 'e', '>', '<', 'p', 'i', 't', 'c', 'h', '>', '<', 's', 't', 'e', 'p', '>', 'C', '<', '/', 's', 't', 'e', 'p', '>', '<', 'o', 'c', 't', 'a', 'v', 'e', '>', '4', '<', '/', 'o', 'c', 't', 'a', 'v', 'e', '>'], insideHeader := false, insidePart := true, insideMeasure := true } := by decide
  have g17 : stepSplit ({ header := ['<', 's', 'c', 'o', 'r', 'e', '-', 'p', 'a', 'r', 't', 'w', 'i', 's', 'e', ' ', 'v', 'e', 'r', 's', 'i', 'o', 'n', '=', '\"', '3', '.', '1', '\"', '>', '<', 'w', 'o', 'r', 'k', '>', '<', 'w', 'o', 'r', 'k', '-', 't', 'i', 't', 'l', 'e', '>', 'T', 'u', 'n', 'e', '<', '/', 'w', 'o', 'r', 'k', '-', 't', 'i', 't', 'l', 'e', '>', '<', '/', 'w', 'o', 'r', 'k', '>'], parts := [], currentPartId := ['P', '1'], currentPartMeasures := [], hasCurrentPart := true, currentMeasure := ['<', 'm', 'e', 'a', 's', 'u', 'r', 'e', ' ', 'n', 'u', 'm', 'b', 'e', 'r', '=', '\"', '1', '\"', '>', '<', 'n', 'o', 't', 'e', '>', '<', 'p', 'i', 't', 'c', 'h', '>', '<', 's', 't', 'e', 'p', '>', 'C', '<', '/', 's', 't', 'e', 'p', '>', '<', 'o', 'c', 't', 'a', 'v', 'e', '>', '4', '<', '/', 'o', 'c', 't', 'a', 'v', 'e', '>'], insideHeader := false, insidePart := true, insideMeasure := true }) (SaxEvent.closeTag ['p', 'i', 't', 'c', 'h']) = { header := ['<', 's', 'c', 'o', 'r', 'e', '-', 'p', 'a', 'r', 't', 'w', 'i', 's', 'e', ' ', 'v', 'e', 'r', 's', 'i', 'o', 'n', '=', '\"', '3', '.', '1', '\"', '>', '<', 'w', 'o', 'r', 'k', '>', '<', 'w', 'o', 'r', 'k', '-', 't', 'i', 't', 'l', 'e', '>', 'T', 'u', 'n', 'e', '<', '/', 'w', 'o', 'r', 'k', '-', 't', 'i', 't', 'l', 'e', '>', '<', '/', 'w', 'o', 'r', 'k', '>'], parts := [], currentPartId := ['P', '1'], currentPartMeasures := [], hasCurrentPart := true, currentMeasure := ['<', 'm', 'e', 'a', 's', 'u', 'r', 'e', ' ', 'n', 'u', 'm', 'b', 'e', 'r', '=', '\"', '1', '\"', '>', '<', 'n', 'o', 't', 'e', '>', '<', 'p', 'i', 't', 'c', 'h', '>', '<', 's', 't', 'e', 'p', '>', 'C', '<', '/', 's', 't', 'e', 'p', '>', '<', 'o', 'c', 't', 'a', 'v', 'e', '>', '4', '<', '/', 'o', 'c', 't', 'a', 'v', 'e', '>', '<', '/', 'p', 'i', 't', 'c', 'h', '>'], insideHeader := false, insidePart := true, insideMeasure := true } := by decide
  have g18 : stepSplit ({ header := ['<', 's', 'c', 'o', 'r', 'e', '-', 'p', 'a', 'r', 't', 'w', 'i', 's', 'e', ' ', 'v', 'e', 'r', 's', 'i', 'o', 'n', '=', '\"', '3', '.', '1', '\"', '>', '<', 'w', 'o', 'r', 'k', '>', '<', 'w', 'o', 'r', 'k', '-', 't', 'i', 't', 'l', 'e', '>', 'T', 'u', 'n', 'e', '<', '/', 'w', 'o', 'r', 'k', '-', 't', 'i', 't', 'l', 'e', '>', '<', '/', 'w', 'o', 'r', 'k', '>'], parts := [], currentPartId := ['P', '1'], currentPartMeasures := [], hasCurrentPart := true, currentMeasure := ['<', 'm', 'e', 'a', 's', 'u', 'r', 'e', ' ', 'n', 'u', 'm', 'b', 'e', 'r', '=', '\"', '1', '\"', '>', '<', 'n', 'o', 't', 'e', '>', '<', 'p', 'i', 't', 'c', 'h', '>', '<', 's', 't', 'e', 'p', '>', 'C', '<', '/', 's', 't', 'e', 'p', '>', '<', 'o', 'c', 't', 'a', 'v', 'e', '>', '4', '<', '/', 'o', 'c', 't', 'a', 'v', 'e', '>', '<', '/', 'p', 'i', 't', 'c', 'h', '>'], insideHeader := false, insidePart := true, insideMeasure := true }) (SaxEvent.openTag ['d', 'u', 'r', 'a', 't', 'i', 'o', 'n'] []) = { header := ['<', 's', 'c', 'o', 'r', 'e', '-', 'p', 'a', 'r', 't', 'w', 'i', 's', 'e', ' ', 'v', 'e', 'r', 's', 'i', 'o', 'n', '=', '\"', '3', '.', '1', '\"', '>', '<', 'w', 'o', 'r', 'k', '>', '<', 'w', 'o', 'r', 'k', '-', 't', 'i', 't', 'l', 'e', '>', 'T', 'u', 'n', 'e', '<', '/', 'w', 'o', 'r', 'k', '-', 't', 'i', 't', 'l', 'e', '>', '<', '/', 'w', 'o', 'r', 'k', '>'], parts := [], currentPartId := ['P', '1'], currentPartMeasures := [], hasCurrentPart := true, currentMeasure := ['<', 'm', 'e', 'a', 's', 'u', 'r', 'e', ' ', 'n', 'u', 'm', 'b', 'e', 'r', '=', '\"', '1', '\"', '>', '<', 'n', 'o', 't', 'e', '>', '<', 'p', 'i', 't', 'c', 'h', '>', '<', 's', 't', 'e', 'p', '>', 'C', '<', '/', 's', 't', 'e', 'p', '>', '<', 'o', 'c', 't', 'a', 'v', 'e', '>', '4', '<', '/', 'o', 'c', 't', 'a', 'v', 'e', '>', '<', '/', 'p', 'i', 't', 'c', 'h', '>', '<', 'd', 'u', 'r', 'a', 't', 'i', 'o', 'n', '>'], insideHeader := false, insidePart := true, insideMeasure := true } := by decide
  have g19 : stepSplit ({ header := ['<', 's', 'c', 'o', 'r', 'e', '-', 'p', 'a', 'r', 't', 'w', 'i', 's', 'e', ' ', 'v', 'e', 'r', 's', 'i', 'o', 'n', '=', '\"', '3', '.', '1', '\"', '>', '<', 'w', 'o', 'r', 'k', '>', '<', 'w', 'o', 'r', 'k', '-', 't', 'i', 't', 'l', 'e', '>', 'T', 'u', 'n', 'e', '<', '/', 'w', 'o', 'r', 'k', '-', 't', 'i', 't', 'l', 'e', '>', '<', '/', 'w', 'o', 'r', 'k', '>'], parts := [], currentPartId := ['P', '1'], currentPartMeasures := [], hasCurrentPart := true, currentMeasure := ['<', 'm', 'e', 'a', 's', 'u', 'r', 'e', ' ', 'n', 'u', 'm', 'b', 'e', 'r', '=', '\"', '1', '\"', '>', '<', 'n', 'o', 't', 'e', '>', '<', 'p', 'i', 't', 'c', 'h', '>', '<', 's', 't', 'e', 'p', '>', 'C', '<', '/', 's', 't', 'e', 'p', '>', '<', 'o', 'c', 't', 'a', 'v', 'e', '>', '4', '<', '/', 'o', 'c', 't', 'a', 'v', 'e', '>', '<', '/', 'p', 'i', 't', 'c', 'h', '>', '<', 'd', 'u', 'r', 'a', 't', 'i', 'o', 'n', '>'], insideHeader := false, insidePart := true, insideMeasure := true }) (SaxEvent.text ['4']) = { header := ['<', 's', 'c', 'o', 'r', 'e', '-', 'p', 'a', 'r', 't', 'w', 'i', 's', 'e', ' ', 'v', 'e', 'r', 's', 'i', 'o', 'n', '=', '\"', '3', '.', '1', '\"', '>', '<', 'w', 'o', 'r', 'k', '>', '<', 'w', 'o', 'r', 'k', '-', 't', 'i', 't', 'l', 'e', '>', 'T', 'u', 'n', 'e', '<', '/', 'w', 'o', 'r', 'k', '-', 't', 'i', 't', 'l', 'e', '>', '<', '/', 'w', 'o', 'r', 'k', '>'], parts := [], currentPartId := ['P', '1'], currentPartMeasures := [], hasCurrentPart := true, currentMeasure := ['<', 'm', 'e', 'a', 's', 'u', 'r', 'e', ' ', 'n', 'u', 'm', 'b', 'e', 'r', '=', '\"', '1', '\"', '>', '<', 'n', 'o', 't', 'e', '>', '<', 'p', 'i', 't', 'c', 'h', '>', '<', 's', 't', 'e', 'p', '>', 'C', '<', '/', 's', 't', 'e', 'p', '>', '<', 'o', 'c', 't', 'a', 'v', 'e', '>', '4', '<', '/', 'o', 'c', 't', 'a', 'v', 'e', '>', '<', '/', 'p', 'i', 't', 'c', 'h', '>', '<', 'd', 'u', 'r', 'a', 't', 'i', 'o', 'n', '>', '4'], insideHeader := false, insidePart := true, insideMeasure := true } := by decide
  have g20 : stepSplit ({ header := ['<', 's', 'c', 'o', 'r', 'e', '-', 'p', 'a', 'r', 't', 'w', 'i', 's', 'e', ' ', 'v', 'e', 'r', 's', 'i', 'o', 'n', '=', '\"', '3', '.', '1', '\"', '>', '<', 'w', 'o', 'r', 'k', '>', '<', 'w', 'o', 'r', 'k', '-', 't', 'i', 't', 'l', 'e', '>', 'T', 'u', 'n', 'e', '<', '/', 'w', 'o', 'r', 'k', '-', 't', 'i', 't', 'l', 'e', '>', '<', '/', 'w', 'o', 'r', 'k', '>'], parts := [], currentPartId := ['P', '1'], currentPartMeasures := [], hasCurrentPart := true, currentMeasure := ['<', 'm', 'e', 'a', 's', 'u', 'r', 'e', ' ', 'n', 'u', 'm', 'b', 'e', 'r', '=', '\"', '1', '\"', '>', '<', 'n', 'o', 't', 'e', '>', '<', 'p', 'i', 't', 'c', 'h', '>', '<', 's', 't', 'e', 'p', '>', 'C', '<', '/', 's', 't', 'e', 'p', '>', '<', 'o', 'c', 't', 'a', 'v', 'e', '>', '4', '<', '/', 'o', 'c', 't', 'a', 'v', 'e', '>', '<', '/', 'p', 'i', 't', 'c', 'h', '>', '<', 'd', 'u', 'r', 'a', 't', 'i', 'o', 'n', '>', '4'], insideHeader := false, insidePart := true, insideMeasure := true }) (SaxEvent.closeTag ['d', 'u', 'r', 'a', 't', 'i', 'o', 'n']) = { header := ['<', 's', 'c', 'o', 'r', 'e', '-', 'p', 'a', 'r', 't', 'w', 'i', 's', 'e', ' ', 'v', 'e', 'r', 's', 'i', 'o', 'n', '=', '\"', '3', '.', '1', '\"', '>', '<', 'w', 'o', 'r', 'k', '>', '<', 'w', 'o', 'r', 'k', '-', 't', 'i', 't', 'l', 'e', '>', 'T', 'u', 'n', 'e', '<', '/', 'w', 'o', 'r', 'k', '-', 't', 'i', 't', 'l', 'e', '>', '<', '/', 'w', 'o', 'r', 'k', '>'], parts := [], currentPartId := ['P', '1'], currentPartMeasures := [], hasCurrentPart := true, currentMeasure := ['<', 'm', 'e', 'a', 's', 'u', 'r', 'e', ' ', 'n', 'u', 'm', 'b', 'e', 'r', '=', '\"', '1', '\"', '>', '<', 'n', 'o', 't', 'e', '>', '<', 'p', 'i', 't', 'c', 'h', '>', '<', 's', 't', 'e', 'p', '>', 'C', '<', '/', 's', 't', 'e', 'p', '>', '<', 'o', 'c', 't', 'a', 'v', 'e', '>', '4', '<', '/', 'o', 'c', 't', 'a', 'v', 'e', '>', '<', '/', 'p', 'i', 't', 'c', 'h', '>', '<', 'd', 'u', 'r', 'a', 't', 'i', 'o', 'n', '>', '4', '<', '/', 'd', 'u', 'r', 'a', 't', 'i', 'o', 'n', '>'], insideHeader := false, insidePart := true, insideMeasure := true } := by decide
  have g21 : stepSplit ({ header := ['<', 's', 'c', 'o', 'r', 'e', '-', 'p', 'a', 'r', 't', 'w', 'i', 's', 'e', ' ', 'v', 'e', 'r', 's', 'i', 'o', 'n', '=', '\"', '3', '.', '1', '\"', '>', '<', 'w', 'o', 'r', 'k', '>', '<', 'w', 'o', 'r', 'k', '-', 't', 'i', 't', 'l', 'e', '>', 'T', 'u', 'n', 'e', '<', '/', 'w', 'o', 'r', 'k', '-', 't', 'i', 't', 'l', 'e', '>', '<', '/', 'w', 'o', 'r', 'k', '>'], parts := [], currentPartId := ['P', '1'], currentPartMeasures := [], hasCurrentPart := true, currentMeasure := ['<', 'm', 'e', 'a', 's', 'u', 'r', 'e', ' ', 'n', 'u', 'm', 'b', 'e', 'r', '=', '\"', '1', '\"', '>', '<', 'n', 'o', 't', 'e', '>', '<', 'p', 'i', 't', 'c', 'h', '>', '<', 's', 't', 'e', 'p', '>', 'C', '<', '/', 's', 't', 'e', 'p', '>', '<', 'o', 'c', 't', 'a', 'v', 'e', '>', '4', '<', '/', 'o', 'c', 't', 'a', 'v', 'e', '>', '<', '/', 'p', 'i', 't', 'c', 'h', '>', '<', 'd', 'u', 'r', 'a', 't', 'i', 'o', 'n', '>', '4', '<', '/', 'd', 'u', 'r', 'a', 't', 'i', 'o', 'n', '>'], insideHeader := false, insidePart := true, insideMeasure := true }) (SaxEvent.closeTag ['n', 'o', 't', 'e']) = { header := ['<', 's', 'c', 'o', 'r', 'e', '-', 'p', 'a', 'r', 't', 'w', 'i', 's', 'e', ' ', 'v', 'e', 'r', 's', 'i', 'o', 'n', '=', '\"', '3', '.', '1', '\"', '>', '<', 'w', 'o', 'r', 'k', '>', '<', 'w', 'o', 'r', 'k', '-', 't', 'i', 't', 'l', 'e', '>', 'T', 'u', 'n', 'e', '<', '/', 'w', 'o', 'r', 'k', '-', 't', 'i', 't', 'l', 'e', '>', '<', '/', 'w', 'o', 'r', 'k', '>'], parts := [], currentPartId := ['P', '1'], currentPartMeasures := [], hasCurrentPart := true, currentMeasure := ['<', 'm', 'e', 'a', 's', 'u', 'r', 'e', ' ', 'n', 'u', 'm', 'b', 'e', 'r', '=', '\"', '1', '\"', '>', '<', 'n', 'o', 't', 'e', '>', '<', 'p', 'i', 't', 'c', 'h', '>', '<', 's', 't', 'e', 'p', '>', 'C', '<', '/', 's', 't', 'e', 'p', '>', '<', 'o', 'c', 't', 'a', 'v', 'e', '>', '4', '<', '/', 'o', 'c', 't', 'a', 'v', 'e', '>', '<', '/', 'p', 'i', 't', 'c', 'h', '>', '<', 'd', 'u', 'r', 'a', 't', 'i', 'o', 'n', '>', '4', '<', '/', 'd', 'u', 'r', 'a', 't', 'i', 'o', 'n', '>', '<', '/', 'n', 'o', 't', 'e', '>'], insideHeader := false, insidePart := true, insideMeasure := true } := by decide
  have g22 : stepSplit ({ header := ['<', 's', 'c', 'o', 'r', 'e', '-', 'p', 'a', 'r', 't', 'w', 'i', 's', 'e', ' ', 'v', 'e', 'r', 's', 'i', 'o', 'n', '=', '\"', '3', '.', '1', '\"', '>', '<', 'w', 'o', 'r', 'k', '>', '<', 'w', 'o', 'r', 'k', '-', 't', 'i', 't', 'l', 'e', '>', 'T', 'u', 'n', 'e', '<', '/', 'w', 'o', 'r', 'k', '-', 't', 'i', 't', 'l', 'e', '>', '<', '/', 'w', 'o', 'r', 'k', '>'], parts := [], currentPartId := ['P', '1'], currentPartMeasures := [], hasCurrentPart := true, currentMeasure := ['<', 'm', 'e', 'a', 's', 'u', 'r', 'e', ' ', 'n', 'u', 'm', 'b', 'e', 'r', '=', '\"', '1', '\"', '>', '<', 'n', 'o', 't', 'e', '>', '<', 'p', 'i', 't', 'c', 'h', '>', '<', 's', 't', 'e', 'p', '>', 'C', '<', '/', 's', 't', 'e', 'p', '>', '<', 'o', 'c', 't', 'a', 'v', 'e', '>', '4', '<', '/', 'o', 'c', 't', 'a', 'v', 'e', '>', '<', '/', 'p', 'i', 't', 'c', 'h', '>', '<', 'd', 'u', 'r', 'a', 't', 'i', 'o', 'n', '>', '4', '<', '/', 'd', 'u', 'r', 'a', 't', 'i', 'o', 'n', '>', '<', '/', 'n', 'o', 't', 'e', '>'], insideHeader := false, insidePart := true, insideMeasure := true }) (SaxEvent.closeTag ['m', 'e', 'a', 's', 'u', 'r', 'e']) = { header := ['<', 's', 'c', 'o', 'r', 'e', '-', 'p', 'a', 'r', 't', 'w', 'i', 's', 'e', ' ', 'v', 'e', 'r', 's', 'i', 'o', 'n', '=', '\"', '3', '.', '1', '\"', '>', '<', 'w', 'o', 'r', 'k', '>', '<', 'w', 'o', 'r', 'k', '-', 't', 'i', 't', 'l', 'e', '>', 'T', 'u', 'n', 'e', '<', '/', 'w', 'o', 'r', 'k', '-', 't', 'i', 't', 'l', 'e', '>', '<', '/', 'w', 'o', 'r', 'k', '>'], parts := [], currentPartId := ['P', '1'], currentPartMeasures := [['<', 'm', 'e', 'a', 's', 'u', 'r', 'e', ' ', 'n', 'u', 'm', 'b', 'e', 'r', '=', '\"', '1', '\"', '>', '<', 'n', 'o', 't', 'e', '>', '<', 'p', 'i', 't', 'c', 'h', '>', '<', 's', 't', 'e', 'p', '>', 'C', '<', '/', 's', 't', 'e', 'p', '>', '<', 'o', 'c', 't', 'a', 'v', 'e', '>', '4', '<', '/', 'o', 'c', 't', 'a', 'v', 'e', '>', '<', '/', 'p', 'i', 't', 'c', 'h', '>', '<', 'd', 'u', 'r', 'a', 't', 'i', 'o', 'n', '>', '4', '<', '/', 'd', 'u', 'r', 'a', 't', 'i', 'o', 'n', '>', '<', '/', 'n', 'o', 't', 'e', '>', '<', '/', 'm', 'e', 'a', 's', 'u', 'r', 'e', '>']], hasCurrentPart := true, currentMeasure := [], insideHeader := false, insidePart := true, insideMeasure := false } := by decide
  have g23 : stepSplit ({ header := ['<', 's', 'c', 'o', 'r', 'e', '-', 'p', 'a', 'r', 't', 'w', 'i', 's', 'e', ' ', 'v', 'e', 'r', 's', 'i', 'o', 'n', '=', '\"', '3', '.', '1', '\"', '>', '<', 'w', 'o', 'r', 'k', '>', '<', 'w', 'o', 'r', 'k', '-', 't', 'i', 't', 'l', 'e', '>', 'T', 'u', 'n', 'e', '<', '/', 'w', 'o', 'r', 'k', '-', 't', 'i', 't', 'l', 'e', '>', '<', '/', 'w', 'o', 'r', 'k', '>'], parts := [], currentPartId := ['P', '1'], currentPartMeasures := [['<', 'm', 'e', 'a', 's', 'u', 'r', 'e', ' ', 'n', 'u', 'm', 'b', 'e', 'r', '=', '\"', '1', '\"', '>', '<', 'n', 'o', 't', 'e', '>', '<', 'p', 'i', 't', 'c', 'h', '>', '<', 's', 't', 'e', 'p', '>', 'C', '<', '/', 's', 't', 'e', 'p', '>', '<', 'o', 'c', 't', 'a', 'v', 'e', '>', '4', '<', '/', 'o', 'c', 't', 'a', 'v', 'e', '>', '<', '/', 'p', 'i', 't', 'c', 'h', '>', '<', 'd', 'u', 'r', 'a', 't', 'i', 'o', 'n', '>', '4', '<', '/', 'd', 'u', 'r', 'a', 't', 'i', 'o', 'n', '>', '<', '/', 'n', 'o', 't', 'e', '>', '<', '/', 'm', 'e', 'a', 's', 'u', 'r', 'e', '>']], hasCurrentPart := true, currentMeasure := [], insideHeader := false, insidePart := true, insideMeasure := false }) (SaxEvent.closeTag ['p', 'a', 'r', 't']) = { header := ['<', 's', 'c', 'o', 'r', 'e', '-', 'p', 'a', 'r', 't', 'w', 'i', 's', 'e', ' ', 'v', 'e', 'r', 's', 'i', 'o', 'n', '=', '\"', '3', '.', '1', '\"', '>', '<', 'w', 'o', 'r', 'k', '>', '<', 'w', 'o', 'r', 'k', '-', 't', 'i', 't', 'l', 'e', '>', 'T', 'u', 'n', 'e', '<', '/', 'w', 'o', 'r', 'k', '-', 't', 'i', 't', 'l', 'e', '>', '<', '/', 'w', 'o', 'r', 'k', '>'], parts := [(['P', '1'], [['<', 'm', 'e', 'a', 's', 'u', 'r', 'e', ' ', 'n', 'u', 'm', 'b', 'e', 'r', '=', '\"', '1', '\"', '>', '<', 'n', 'o', 't', 'e', '>', '<', 'p', 'i', 't', 'c', 'h', '>', '<', 's', 't', 'e', 'p', '>', 'C', '<', '/', 's', 't', 'e', 'p', '>', '<', 'o', 'c', 't', 'a', 'v', 'e', '>', '4', '<', '/', 'o', 'c', 't', 'a', 'v', 'e', '>', '<', '/', 'p', 'i', 't', 'c', 'h', '>', '<', 'd', 'u', 'r', 'a', 't', 'i', 'o', 'n', '>', '4', '<', '/', 'd', 'u', 'r', 'a', 't', 'i', 'o', 'n', '>', '<', '/', 'n', 'o', 't', 'e', '>', '<', '/', 'm', 'e', 'a', 's', 'u', 'r', 'e', '>']])], currentPartId := ['P', '1'], currentPartMeasures := [['<', 'm', 'e', 'a', 's', 'u', 'r', 'e', ' ', 'n', 'u', 'm', 'b', 'e', 'r', '=', '\"', '1', '\"', '>', '<', 'n', 'o', 't', 'e', '>', '<', 'p', 'i', 't', 'c', 'h', '>', '<', 's', 't', 'e', 'p', '>', 'C', '<', '/', 's', 't', 'e', 'p', '>', '<', 'o', 'c', 't', 'a', 'v', 'e', '>', '4', '<', '/', 'o', 'c', 't', 'a', 'v', 'e', '>', '<', '/', 'p', 'i', 't', 'c', 'h', '>', '<', 'd', 'u', 'r', 'a', 't', 'i', 'o', 'n', '>', '4', '<', '/', 'd', 'u', 'r', 'a', 't', 'i', 'o', 'n', '>', '<', '/', 'n', 'o', 't', 'e', '>', '<', '/', 'm', 'e', 'a', 's', 'u', 'r', 'e', '>']], hasCurrentPart := false, currentMeasure := [], insideHeader := false, insidePart := false, insideMeasure := false } := by decide
  have g24 : stepSplit ({ header := ['<', 's', 'c', 'o', 'r', 'e', '-', 'p', 'a', 'r', 't', 'w', 'i', 's', 'e', ' ', 'v', 'e', 'r', 's', 'i', 'o', 'n', '=', '\"', '3', '.', '1', '\"', '>', '<', 'w', 'o', 'r', 'k', '>', '<', 'w', 'o', 'r', 'k', '-', 't', 'i', 't', 'l', 'e', '>', 'T', 'u', 'n', 'e', '<', '/', 'w', 'o', 'r', 'k', '-', 't', 'i', 't', 'l', 'e', '>', '<', '/', 'w', 'o', 'r', 'k', '>'], parts := [(['P', '1'], [['<', 'm', 'e', 'a', 's', 'u', 'r', 'e', ' ', 'n', 'u', 'm', 'b', 'e', 'r', '=', '\"', '1', '\"', '>', '<', 'n', 'o', 't', 'e', '>', '<', 'p', 'i', 't', 'c', 'h', '>', '<', 's', 't', 'e', 'p', '>', 'C', '<', '/', 's', 't', 'e', 'p', '>', '<', 'o', 'c', 't', 'a', 'v', 'e', '>', '4', '<', '/', 'o', 'c', 't', 'a', 'v', 'e', '>', '<', '/', 'p', 'i', 't', 'c', 'h', '>', '<', 'd', 'u', 'r', 'a', 't', 'i', 'o', 'n', '>', '4', '<', '/', 'd', 'u', 'r', 'a', 't', 'i', 'o', 'n', '>', '<', '/', 'n', 'o', 't', 'e', '>', '<', '/', 'm', 'e', 'a', 's', 'u', 'r', 'e', '>']])], currentPartId := ['P', '1'], currentPartMeasures := [['<', 'm', 'e', 'a', 's', 'u', 'r', 'e', ' ', 'n', 'u', 'm', 'b', 'e', 'r', '=', '\"', '1', '\"', '>', '<', 'n', 'o', 't', 'e', '>', '<', 'p', 'i', 't', 'c', 'h', '>', '<', 's', 't', 'e', 'p', '>', 'C', '<', '/', 's', 't', 'e', 'p', '>', '<', 'o', 'c', 't', 'a', 'v', 'e', '>', '4', '<', '/', 'o', 'c', 't', 'a', 'v', 'e', '>', '<', '/', 'p', 'i', 't', 'c', 'h', '>', '<', 'd', 'u', 'r', 'a', 't', 'i', 'o', 'n', '>', '4', '<', '/', 'd', 'u', 'r', 'a', 't', 'i', 'o', 'n', '>', '<', '/', 'n', 'o', 't', 'e', '>', '<', '/', 'm', 'e', 'a', 's', 'u', 'r', 'e', '>']], hasCurrentPart := false, currentMeasure := [], insideHeader := false, insidePart := false, insideMeasure := false }) (SaxEvent.closeTag ['s', 'c', 'o', 'r', 'e', '-', 'p', 'a', 'r', 't', 'w', 'i', 's', 'e']) = { header := ['<', 's', 'c', 'o', 'r', 'e', '-', 'p', 'a', 'r', 't', 'w', 'i', 's', 'e', ' ', 'v', 'e', 'r', 's', 'i', 'o', 'n', '=', '\"', '3', '.', '1', '\"', '>', '<', 'w', 'o', 'r', 'k', '>', '<', 'w', 'o', 'r', 'k', '-', 't', 'i', 't', 'l', 'e', '>', 'T', 'u', 'n', 'e', '<', '/', 'w', 'o', 'r', 'k', '-', 't', 'i', 't', 'l', 'e', '>', '<', '/', 'w', 'o', 'r', 'k', '>'], parts := [(['P', '1'], [['<', 'm', 'e', 'a', 's', 'u', 'r', 'e', ' ', 'n', 'u', 'm', 'b', 'e', 'r', '=', '\"', '1', '\"', '>', '<', 'n', 'o', 't', 'e', '>', '<', 'p', 'i', 't', 'c', 'h', '>', '<', 's', 't', 'e', 'p', '>', 'C', '<', '/', 's', 't', 'e', 'p', '>', '<', 'o', 'c', 't', 'a', 'v', 'e', '>', '4', '<', '/', 'o', 'c', 't', 'a', 'v', 'e', '>', '<', '/', 'p', 'i', 't', 'c', 'h', '>', '<', 'd', 'u', 'r', 'a', 't', 'i', 'o', 'n', '>', '4', '<', '/', 'd', 'u', 'r', 'a', 't', 'i', 'o', 'n', '>', '<', '/', 'n', 'o', 't', 'e', '>', '<', '/', 'm', 'e', 'a', 's', 'u', 'r', 'e', '>']])], currentPartId := ['P', '1'], currentPartMeasures := [['<', 'm', 'e', 'a', 's', 'u', 'r', 'e', ' ', 'n', 'u', 'm', 'b', 'e', 'r', '=', '\"', '1', '\"', '>', '<', 'n', 'o', 't', 'e', '>', '<', 'p', 'i', 't', 'c', 'h', '>', '<', 's', 't', 'e', 'p', '>', 'C', '<', '/', 's', 't', 'e', 'p', '>', '<', 'o', 'c', 't', 'a', 'v', 'e', '>', '4', '<', '/', 'o', 'c', 't', 'a', 'v', 'e', '>', '<', '/', 'p', 'i', 't', 'c', 'h', '>', '<', 'd', 'u', 'r', 'a', 't', 'i', 'o', 'n', '>', '4', '<', '/', 'd', 'u', 'r', 'a', 't', 'i', 'o', 'n', '>', '<', '/', 'n', 'o', 't', 'e', '>', '<', '/', 'm', 'e', 'a', 's', 'u', 'r', 'e', '>']], hasCurrentPart := false, currentMeasure := [], insideHeader := false, insidePart := false, insideMeasure := false } := by decide
  show (stepSplit (stepSplit (stepSplit (stepSplit (stepSplit (stepSplit (stepSplit (stepSplit (stepSplit (stepSplit (stepSplit (stepSplit (stepSplit (stepSplit (stepSplit (stepSplit (stepSplit (stepSplit (stepSplit (stepSplit (stepSplit (stepSplit (stepSplit (stepSplit (({} : SplitState)) (SaxEvent.openTag ['s', 'c', 'o', 'r', 'e', '-', 'p', 'a', 'r', 't', 'w', 'i', 's', 'e'] [(['v', 'e', 'r', 's', 'i', 'o', 'n'], ['3', '.', '1'])])) (SaxEvent.openTag ['w', 'o', 'r', 'k'] [])) (SaxEvent.openTag ['w', 'o', 'r', 'k', '-', 't', 'i', 't', 'l', 'e'] [])) (SaxEvent.text ['T', 'u', 'n', 'e'])) (SaxEvent.closeTag ['w', 'o', 'r', 'k', '-', 't', 'i', 't', 'l', 'e'])) (SaxEvent.closeTag ['w', 'o', 'r', 'k'])) (SaxEvent.openTag ['p', 'a', 'r', 't'] [(['i', 'd'], ['P', '1'])])) (SaxEvent.openTag ['m', 'e', 'a', 's', 'u', 'r', 'e'] [(['n', 'u', 'm', 'b', 'e', 'r'], ['1'])])) (SaxEvent.openTag ['n', 'o', 't', 'e'] [])) (SaxEvent.openTag ['p', 'i', 't', 'c', 'h'] [])) (SaxEvent.openTag ['s', 't', 'e', 'p'] [])) (SaxEvent.text ['C'])) (SaxEvent.closeTag ['s', 't', 'e', 'p'])) (SaxEvent.openTag ['o', 'c', 't', 'a', 'v', 'e'] [])) (SaxEvent.text ['4'])) (SaxEvent.closeTag ['o', 'c', 't', 'a', 'v', 'e'])) (SaxEvent.closeTag ['p', 'i', 't', 'c', 'h'])) (SaxEvent.openTag ['d', 'u', 'r', 'a', 't', 'i', 'o', 'n'] [])) (SaxEvent.text ['4'])) (SaxEvent.closeTag ['d', 'u', 'r', 'a', 't', 'i', 'o', 'n'])) (SaxEvent.closeTag ['n', 'o', 't', 'e'])) (SaxEvent.closeTag ['m', 'e', 'a', 's', 'u', 'r', 'e'])) (SaxEvent.closeTag ['p', 'a', 'r', 't'])) (SaxEvent.closeTag ['s', 'c', 'o', 'r', 'e', '-', 'p', 'a', 'r', 't', 'w', 'i', 's', 'e'])) = _
  rw [g1]
  rw [g2]
  rw [g3]
  rw [g4]
  rw [g5]
  rw [g6]
  rw [g7]
  rw [g8]
  rw [g9]
  rw [g10]
  rw [g11]
  rw [g12]
  rw [g13]
  rw [g14]
  rw [g15]
  rw [g16]
  rw [g17]
  rw [g18]
  rw [g19]
  rw [g20]
  rw [g21]
  rw [g22]
  rw [g23]
  rw [g24]

set_option maxHeartbeats 4000000 in
/-- The splitter's result on `docSplitText`: the space inside the part is
nowhere in the captured structure. -/
lemma splitStructure_docSplitText :
    splitStructure docSplitText = { header := ['<', 's', 'c', 'o', 'r', 'e', '-', 'p', 'a', 'r', 't', 'w', 'i', 's', 'e', ' ', 'v', 'e', 'r', 's', 'i', 'o', 'n', '=', '\"', '3', '.', '1', '\"', '>'], parts := [(['P', '1'], [['<', 'm', 'e', 'a', 's', 'u', 'r', 'e', ' ', 'n', 'u', 'm', 'b', 'e', 'r', '=', '\"', '1', '\"', '>', '<', '/', 'm', 'e', 'a', 's', 'u', 'r', 'e', '>']])], currentPartId := ['P', '1'], currentPartMeasures := [['<', 'm', 'e', 'a', 's', 'u', 'r', 'e', ' ', 'n', 'u', 'm', 'b', 'e', 'r', '=', '\"', '1', '\"', '>', '<', '/', 'm', 'e', 'a', 's', 'u', 'r', 'e', '>']], hasCurrentPart := false, currentMeasure := [], insideHeader := false, insidePart := false, insideMeasure := false } := by
  have g1 : stepSplit (({} : SplitState)) (SaxEvent.openTag ['s', 'c', 'o', 'r', 'e', '-', 'p', 'a', 'r', 't', 'w', 'i', 's', 'e'] [(['v', 'e', 'r', 's', 'i', 'o', 'n'], ['3', '.', '1'])]) = { header := ['<', 's', 'c', 'o', 'r', 'e', '-', 'p', 'a', 'r', 't', 'w', 'i', 's', 'e', ' ', 'v', 'e', 'r', 's', 'i', 'o', 'n', '=', '\"', '3', '.', '1', '\"', '>'], parts := [], currentPartId := [], currentPartMeasures := [], hasCurrentPart := false, currentMeasure := [], insideHeader := true, insidePart := false, insideMeasure := false } := by decide
  have g2 : stepSplit ({ header := ['<', 's', 'c', 'o', 'r', 'e', '-', 'p', 'a', 'r', 't', 'w', 'i', 's', 'e', ' ', 'v', 'e', 'r', 's', 'i', 'o', 'n', '=', '\"', '3', '.', '1', '\"', '>'], parts := [], currentPartId := [], currentPartMeasures := [], hasCurrentPart := false, currentMeasure := [], insideHeader := true, insidePart := false, insideMeasure := false }) (SaxEvent.openTag ['p', 'a', 'r', 't'] [(['i', 'd'], ['P', '1'])]) = { header := ['<', 's', 'c', 'o', 'r', 'e', '-', 'p', 'a', 'r', 't', 'w', 'i', 's', 'e', ' ', 'v', 'e', 'r', 's', 'i', 'o', 'n', '=', '\"', '3', '.', '1', '\"', '>'], parts := [], currentPartId := ['P', '1'], currentPartMeasures := [], hasCurrentPart := true, currentMeasure := [], insideHeader := false, insidePart := true, insideMeasure := false } := by decide
  have g3 : stepSplit ({ header := ['<', 's', 'c', 'o', 'r', 'e', '-', 'p', 'a', 'r', 't', 'w', 'i', 's', 'e', ' ', 'v', 'e', 'r', 's', 'i', 'o', 'n', '=', '\"', '3', '.', '1', '\"', '>'], parts := [], currentPartId := ['P', '1'], currentPartMeasures := [], hasCurrentPart := true, currentMeasure := [], insideHeader := false, insidePart := true, insideMeasure := false }) (SaxEvent.text [' ']) = { header := ['<', 's', 'c', 'o', 'r', 'e', '-', 'p', 'a', 'r', 't', 'w', 'i', 's', 'e', ' ', 'v', 'e', 'r', 's', 'i', 'o', 'n', '=', '\"', '3', '.', '1', '\"', '>'], parts := [], currentPartId := ['P', '1'], currentPartMeasures := [], hasCurrentPart := true, currentMeasure := [], insideHeader := false, insidePart := true, insideMeasure := false } := by decide
  have g4 : stepSplit ({ header := ['<', 's', 'c', 'o', 'r', 'e', '-', 'p', 'a', 'r', 't', 'w', 'i', 's', 'e', ' ', 'v', 'e', 'r', 's', 'i', 'o', 'n', '=', '\"', '3', '.', '1', '\"', '>'], parts := [], currentPartId := ['P', '1'], currentPartMeasures := [], hasCurrentPart := true, currentMeasure := [], insideHeader := false, insidePart := true, insideMeasure := false }) (SaxEvent.openTag ['m', 'e', 'a', 's', 'u', 'r', 'e'] [(['n', 'u', 'm', 'b', 'e', 'r'], ['1'])]) = { header := ['<', 's', 'c', 'o', 'r', 'e', '-', 'p', 'a', 'r', 't', 'w', 'i', 's', 'e', ' ', 'v', 'e', 'r', 's', 'i', 'o', 'n', '=', '\"', '3', '.', '1', '\"', '>'], parts := [], currentPartId := ['P', '1'], currentPartMeasures := [], hasCurrentPart := true, currentMeasure := ['<', 'm', 'e', 'a', 's', 'u', 'r', 'e', ' ', 'n', 'u', 'm', 'b', 'e', 'r', '=', '\"', '1', '\"', '>'], insideHeader := false, insidePart := true, insideMeasure := true } := by decide
  have g5 : stepSplit ({ header := ['<', 's', 'c', 'o', 'r', 'e', '-', 'p', 'a', 'r', 't', 'w', 'i', 's', 'e', ' ', 'v', 'e', 'r', 's', 'i', 'o', 'n', '=', '\"', '3', '.', '1', '\"', '>'], parts := [], currentPartId := ['P', '1'], currentPartMeasures := [], hasCurrentPart := true, currentMeasure := ['<', 'm', 'e', 'a', 's', 'u', 'r', 'e', ' ', 'n', 'u', 'm', 'b', 'e', 'r', '=', '\"', '1', '\"', '>'], insideHeader := false, insidePart := true, insideMeasure := true }) (SaxEvent.closeTag ['m', 'e', 'a', 's', 'u', 'r', 'e']) = { header := ['<', 's', 'c', 'o', 'r', 'e', '-', 'p', 'a', 'r', 't', 'w', 'i', 's', 'e', ' ', 'v', 'e', 'r', 's', 'i', 'o', 'n', '=', '\"', '3', '.', '1', '\"', '>'], parts := [], currentPartId := ['P', '1'], currentPartMeasures := [['<', 'm', 'e', 'a', 's', 'u', 'r', 'e', ' ', 'n', 'u', 'm', 'b', 'e', 'r', '=', '\"', '1', '\"', '>', '<', '/', 'm', 'e', 'a', 's', 'u', 'r', 'e', '>']], hasCurrentPart := true, currentMeasure := [], insideHeader := false, insidePart := true, insideMeasure := false } := by decide
  have g6 : stepSplit ({ header := ['<', 's', 'c', 'o', 'r', 'e', '-', 'p', 'a', 'r', 't', 'w', 'i', 's', 'e', ' ', 'v', 'e', 'r', 's', 'i', 'o', 'n', '=', '\"', '3', '.', '1', '\"', '>'], parts := [], currentPartId := ['P', '1'], currentPartMeasures := [['<', 'm', 'e', 'a', 's', 'u', 'r', 'e', ' ', 'n', 'u', 'm', 'b', 'e', 'r', '=', '\"', '1', '\"', '>', '<', '/', 'm', 'e', 'a', 's', 'u', 'r', 'e', '>']], hasCurrentPart := true, currentMeasure := [], insideHeader := false, insidePart := true, insideMeasure := false }) (SaxEvent.closeTag ['p', 'a', 'r', 't']) = { header := ['<', 's', 'c', 'o', 'r', 'e', '-', 'p', 'a', 'r', 't', 'w', 'i', 's', 'e', ' ', 'v', 'e', 'r', 's', 'i', 'o', 'n', '=', '\"', '3', '.', '1', '\"', '>'], parts := [(['P', '1'], [['<', 'm', 'e', 'a', 's', 'u', 'r', 'e', ' ', 'n', 'u', 'm', 'b', 'e', 'r', '=', '\"', '1', '\"', '>', '<', '/', 'm', 'e', 'a', 's', 'u', 'r', 'e', '>']])], currentPartId := ['P', '1'], currentPartMeasures := [['<', 'm', 'e', 'a', 's', 'u', 'r', 'e', ' ', 'n', 'u', 'm', 'b', 'e', 'r', '=', '\"', '1', '\"', '>', '<', '/', 'm', 'e', 'a', 's', 'u', 'r', 'e', '>']], hasCurrentPart := false, currentMeasure := [], insideHeader := false, insidePart := false, insideMeasure := false } := by decide
  have g7 : stepSplit ({ header := ['<', 's', 'c', 'o', 'r', 'e', '-', 'p', 'a', 'r', 't', 'w', 'i', 's', 'e', ' ', 'v', 'e', 'r', 's', 'i', 'o', 'n', '=', '\"', '3', '.', '1', '\"', '>'], parts := [(['P', '1'], [['<', 'm', 'e', 'a', 's', 'u', 'r', 'e', ' ', 'n', 'u', 'm', 'b', 'e', 'r', '=', '\"', '1', '\"', '>', '<', '/', 'm', 'e', 'a', 's', 'u', 'r', 'e', '>']])], currentPartId := ['P', '1'], currentPartMeasures := [['<', 'm', 'e', 'a', 's', 'u', 'r', 'e', ' ', 'n', 'u', 'm', 'b', 'e', 'r', '=', '\"', '1', '\"', '>', '<', '/', 'm', 'e', 'a', 's', 'u', 'r', 'e', '>']], hasCurrentPart := false, currentMeasure := [], insideHeader := false, insidePart := false, insideMeasure := false }) (SaxEvent.closeTag ['s', 'c', 'o', 'r', 'e', '-', 'p', 'a', 'r', 't', 'w', 'i', 's', 'e']) = { header := ['<', 's', 'c', 'o', 'r', 'e', '-', 'p', 'a', 'r', 't', 'w', 'i', 's', 'e', ' ', 'v', 'e', 'r', 's', 'i', 'o', 'n', '=', '\"', '3', '.', '1', '\"', '>'], parts := [(['P', '1'], [['<', 'm', 'e', 'a', 's', 'u', 'r', 'e', ' ', 'n', 'u', 'm', 'b', 'e', 'r', '=', '\"', '1', '\"', '>', '<', '/', 'm', 'e', 'a', 's', 'u', 'r', 'e', '>']])], currentPartId := ['P', '1'], currentPartMeasures := [['<', 'm', 'e', 'a', 's', 'u', 'r', 'e', ' ', 'n', 'u', 'm', 'b', 'e', 'r', '=', '\"', '1', '\"', '>', '<', '/', 'm', 'e', 'a', 's', 'u', 'r', 'e', '>']], hasCurrentPart := false, currentMeasure := [], insideHeader := false, insidePart := false, insideMeasure := false } := by decide
  show (stepSplit (stepSplit (stepSplit (stepSplit (stepSplit (stepSplit (stepSplit (({} : SplitState)) (SaxEvent.openTag ['s', 'c', 'o', 'r', 'e', '-', 'p', 'a', 'r', 't', 'w', 'i', 's', 'e'] [(['v', 'e', 'r', 's', 'i', 'o', 'n'], ['3', '.', '1'])])) (SaxEvent.openTag ['p', 'a', 'r', 't'] [(['i', 'd'], ['P', '1'])])) (SaxEvent.text [' '])) (SaxEvent.openTag ['m', 'e', 'a', 's', 'u', 'r', 'e'] [(['n', 'u', 'm', 'b', 'e', 'r'], ['1'])])) (SaxEvent.closeTag ['m', 'e', 'a', 's', 'u', 'r', 'e'])) (SaxEvent.closeTag ['p', 'a', 'r', 't'])) (SaxEvent.closeTag ['s', 'c', 'o', 'r', 'e', '-', 'p', 'a', 'r', 't', 'w', 'i', 's', 'e'])) = _
  rw [g1]
  rw [g2]
  rw [g3]
  rw [g4]
  rw [g5]
  rw [g6]
  rw [g7]

set_option maxHeartbeats 4000000 in
/-- The 0-semitone rewrite leaves `docSplitGood`'s (canonical) measure
unchanged. -/
lemma measure_rewrite_zero :
    rewriteMeasureZero (['<', 'm', 'e', 'a', 's', 'u', 'r', 'e', ' ', 'n', 'u', 'm', 'b', 'e', 'r', '=', '\"', '1', '\"', '>', '<', 'n', 'o', 't', 'e', '>', '<', 'p', 'i', 't', 'c', 'h', '>', '<', 's', 't', 'e', 'p', '>', 'C', '<', '/', 's', 't', 'e', 'p', '>', '<', 'o', 'c', 't', 'a', 'v', 'e', '>', '4', '<', '/', 'o', 'c', 't', 'a', 'v', 'e', '>', '<', '/', 'p', 'i', 't', 'c', 'h', '>', '<', 'd', 'u', 'r', 'a', 't', 'i', 'o', 'n', '>', '4', '<', '/', 'd', 'u', 'r', 'a', 't', 'i', 'o', 'n', '>', '<', '/', 'n', 'o', 't', 'e', '>', '<', '/', 'm', 'e', 'a', 's', 'u', 'r', 'e', '>']) = ['<', 'm', 'e', 'a', 's', 'u', 'r', 'e', ' ', 'n', 'u', 'm', 'b', 'e', 'r', '=', '\"', '1', '\"', '>', '<', 'n', 'o', 't', 'e', '>', '<', 'p', 'i', 't', 'c', 'h', '>', '<', 's', 't', 'e', 'p', '>', 'C', '<', '/', 's', 't', 'e', 'p', '>', '<', 'o', 'c', 't', 'a', 'v', 'e', '>', '4', '<', '/', 'o', 'c', 't', 'a', 'v', 'e', '>', '<', '/', 'p', 'i', 't', 'c', 'h', '>', '<', 'd', 'u', 'r', 'a', 't', 'i', 'o', 'n', '>', '4', '<', '/', 'd', 'u', 'r', 'a', 't', 'i', 'o', 'n', '>', '<', '/', 'n', 'o', 't', 'e', '>', '<', '/', 'm', 'e', 'a', 's', 'u', 'r', 'e', '>'] := by
  have hlex : lexXML (['<', 'm', 'e', 'a', 's', 'u', 'r', 'e', ' ', 'n', 'u', 'm', 'b', 'e', 'r', '=', '\"', '1', '\"', '>', '<', 'n', 'o', 't', 'e', '>', '<', 'p', 'i', 't', 'c', 'h', '>', '<', 's', 't', 'e', 'p', '>', 'C', '<', '/', 's', 't', 'e', 'p', '>', '<', 'o', 'c', 't', 'a', 'v', 'e', '>', '4', '<', '/', 'o', 'c', 't', 'a', 'v', 'e', '>', '<', '/', 'p', 'i', 't', 'c', 'h', '>', '<', 'd', 'u', 'r', 'a', 't', 'i', 'o', 'n', '>', '4', '<', '/', 'd', 'u', 'r', 'a', 't', 'i', 'o', 'n', '>', '<', '/', 'n', 'o', 't', 'e', '>', '<', '/', 'm', 'e', 'a', 's', 'u', 'r', 'e', '>']) = [SaxEvent.openTag ['m', 'e', 'a', 's', 'u', 'r', 'e'] [(['n', 'u', 'm', 'b', 'e', 'r'], ['1'])], SaxEvent.openTag ['n', 'o', 't', 'e'] [], SaxEvent.openTag ['p', 'i', 't', 'c', 'h'] [], SaxEvent.openTag ['s', 't', 'e', 'p'] [], SaxEvent.text ['C'], SaxEvent.closeTag ['s', 't', 'e', 'p'], SaxEvent.openTag ['o', 'c', 't', 'a', 'v', 'e'] [], SaxEvent.text ['4'], SaxEvent.closeTag ['o', 'c', 't', 'a', 'v', 'e'], SaxEvent.closeTag ['p', 'i', 't', 'c', 'h'], SaxEvent.openTag ['d', 'u', 'r', 'a', 't', 'i', 'o', 'n'] [], SaxEvent.text ['4'], SaxEvent.closeTag ['d', 'u', 'r', 'a', 't', 'i', 'o', 'n'], SaxEvent.closeTag ['n', 'o', 't', 'e'], SaxEvent.closeTag ['m', 'e', 'a', 's', 'u', 'r', 'e']] := by decide
  have h1 : stepEvent 0 initialState (SaxEvent.openTag ['m', 'e', 'a', 's', 'u', 'r', 'e'] [(['n', 'u', 'm', 'b', 'e', 'r'], ['1'])]) = { output := ['<', 'm', 'e', 'a', 's', 'u', 'r', 'e', ' ', 'n', 'u', 'm', 'b', 'e', 'r', '=', '\"', '1', '\"', '>'], currentElement := none, textContent := [], insideHarmony := false, insideKey := false, insidePitch := false, insideAccidental := false, noteStep := none, noteAlter := none, noteOctave := none, noteTransposedAlter := none, pitchBuffer := [], harmonyRootStepText := none, harmonyBassStepText := none, transposedRoot := none, transposedBass := none, needsRootAlter := false, needsBassAlter := false, hasOriginalRootAlter := false, hasOriginalBassAlter := false, updateRootStep := false, removeLastRootAlter := false, removeLastBassAlter := false } := by decide
  have h2 : stepEvent 0 ({ output := ['<', 'm', 'e', 'a', 's', 'u', 'r', 'e', ' ', 'n', 'u', 'm', 'b', 'e', 'r', '=', '\"', '1', '\"', '>'], currentElement := none, textContent := [], insideHarmony := false, insideKey := false, insidePitch := false, insideAccidental := false, noteStep := none, noteAlter := none, noteOctave := none, noteTransposedAlter := none, pitchBuffer := [], harmonyRootStepText := none, harmonyBassStepText := none, transposedRoot := none, transposedBass := none, needsRootAlter := false, needsBassAlter := false, hasOriginalRootAlter := false, hasOriginalBassAlter := false, updateRootStep := false, removeLastRootAlter := false, removeLastBassAlter := false }) (SaxEvent.openTag ['n', 'o', 't', 'e'] []) = { output := ['<', 'm', 'e', 'a', 's', 'u', 'r', 'e', ' ', 'n', 'u', 'm', 'b', 'e', 'r', '=', '\"', '1', '\"', '>', '<', 'n', 'o', 't', 'e', '>'], currentElement := none, textContent := [], insideHarmony := false, insideKey := false, insidePitch := false, insideAccidental := false, noteStep := none, noteAlter := none, noteOctave := none, noteTransposedAlter := none, pitchBuffer := [], harmonyRootStepText := none, harmonyBassStepText := none, transposedRoot := none, transposedBass := none, needsRootAlter := false, needsBassAlter := false, hasOriginalRootAlter := false, hasOriginalBassAlter := false, updateRootStep := false, removeLastRootAlter := false, removeLastBassAlter := false } := by decide
  have h3 : stepEvent 0 ({ output := ['<', 'm', 'e', 'a', 's', 'u', 'r', 'e', ' ', 'n', 'u', 'm', 'b', 'e', 'r', '=', '\"', '1', '\"', '>', '<', 'n', 'o', 't', 'e', '>'], currentElement := none, textContent := [], insideHarmony := false, insideKey := false, insidePitch := false, insideAccidental := false, noteStep := none, noteAlter := none, noteOctave := none, noteTransposedAlter := none, pitchBuffer := [], harmonyRootStepText := none, harmonyBassStepText := none, transposedRoot := none, transposedBass := none, needsRootAlter := false, needsBassAlter := false, hasOriginalRootAlter := false, hasOriginalBassAlter := false, updateRootStep := false, removeLastRootAlter := false, removeLastBassAlter := false }) (SaxEvent.openTag ['p', 'i', 't', 'c', 'h'] []) = { output := ['<', 'm', 'e', 'a', 's', 'u', 'r', 'e', ' ', 'n', 'u', 'm', 'b', 'e', 'r', '=', '\"', '1', '\"', '>', '<', 'n', 'o', 't', 'e', '>'], currentElement := none, textContent := [], insideHarmony := false, insideKey := false, insidePitch := true, insideAccidental := false, noteStep := none, noteAlter := none, noteOctave := none, noteTransposedAlter := none, pitchBuffer := ['<', 'p', 'i', 't', 'c', 'h', '>'], harmonyRootStepText := none, harmonyBassStepText := none, transposedRoot := none, transposedBass := none, needsRootAlter := false, needsBassAlter := false, hasOriginalRootAlter := false, hasOriginalBassAlter := false, updateRootStep := false, removeLastRootAlter := false, removeLastBassAlter := false } := by decide
  have h4 : stepEvent 0 ({ output := ['<', 'm', 'e', 'a', 's', 'u', 'r', 'e', ' ', 'n', 'u', 'm', 'b', 'e', 'r', '=', '\"', '1', '\"', '>', '<', 'n', 'o', 't', 'e', '>'], currentElement := none, textContent := [], insideHarmony := false, insideKey := false, insidePitch := true, insideAccidental := false, noteStep := none, noteAlter := none, noteOctave := none, noteTransposedAlter := none, pitchBuffer := ['<', 'p', 'i', 't', 'c', 'h', '>'], harmonyRootStepText := none, harmonyBassStepText := none, transposedRoot := none, transposedBass := none, needsRootAlter := false, needsBassAlter := false, hasOriginalRootAlter := false, hasOriginalBassAlter := false, updateRootStep := false, removeLastRootAlter := false, removeLastBassAlter := false }) (SaxEvent.openTag ['s', 't', 'e', 'p'] []) = { output := ['<', 'm', 'e', 'a', 's', 'u', 'r', 'e', ' ', 'n', 'u', 'm', 'b', 'e', 'r', '=', '\"', '1', '\"', '>', '<', 'n', 'o', 't', 'e', '>'], currentElement := some ['s', 't', 'e', 'p'], textContent := [], insideHarmony := false, insideKey := false, insidePitch := true, insideAccidental := false, noteStep := none, noteAlter := none, noteOctave := none, noteTransposedAlter := none, pitchBuffer := ['<', 'p', 'i', 't', 'c', 'h', '>', '<', 's', 't', 'e', 'p', '>'], harmonyRootStepText := none, harmonyBassStepText := none, transposedRoot := none, transposedBass := none, needsRootAlter := false, needsBassAlter := false, hasOriginalRootAlter := false, hasOriginalBassAlter := false, updateRootStep := false, removeLastRootAlter := false, removeLastBassAlter := false } := by decide
  have h5 : stepEvent 0 ({ output := ['<', 'm', 'e', 'a', 's', 'u', 'r', 'e', ' ', 'n', 'u', 'm', 'b', 'e', 'r', '=', '\"', '1', '\"', '>', '<', 'n', 'o', 't', 'e', '>'], currentElement := some ['s', 't', 'e', 'p'], textContent := [], insideHarmony := false, insideKey := false, insidePitch := true, insideAccidental := false, noteStep := none, noteAlter := none, noteOctave := none, noteTransposedAlter := none, pitchBuffer := ['<', 'p', 'i', 't', 'c', 'h', '>', '<', 's', 't', 'e', 'p', '>'], harmonyRootStepText := none, harmonyBassStepText := none, transposedRoot := none, transposedBass := none, needsRootAlter := false, needsBassAlter := false, hasOriginalRootAlter := false, hasOriginalBassAlter := false, updateRootStep := false, removeLastRootAlter := false, removeLastBassAlter := false }) (SaxEvent.text ['C']) = { output := ['<', 'm', 'e', 'a', 's', 'u', 'r', 'e', ' ', 'n', 'u', 'm', 'b', 'e', 'r', '=', '\"', '1', '\"', '>', '<', 'n', 'o', 't', 'e', '>'], currentElement := some ['s', 't', 'e', 'p'], textContent := ['C'], insideHarmony := false, insideKey := false, insidePitch := true, insideAccidental := false, noteStep := none, noteAlter := none, noteOctave := none, noteTransposedAlter := none, pitchBuffer := ['<', 'p', 'i', 't', 'c', 'h', '>', '<', 's', 't', 'e', 'p', '>'], harmonyRootStepText := none, harmonyBassStepText := none, transposedRoot := none, transposedBass := none, needsRootAlter := false, needsBassAlter := false, hasOriginalRootAlter := false, hasOriginalBassAlter := false, updateRootStep := false, removeLastRootAlter := false, removeLastBassAlter := false } := by decide
  have h6 : stepEvent 0 ({ output := ['<', 'm', 'e', 'a', 's', 'u', 'r', 'e', ' ', 'n', 'u', 'm', 'b', 'e', 'r', '=', '\"', '1', '\"', '>', '<', 'n', 'o', 't', 'e', '>'], currentElement := some ['s', 't', 'e', 'p'], textContent := ['C'], insideHarmony := false, insideKey := false, insidePitch := true, insideAccidental := false, noteStep := none, noteAlter := none, noteOctave := none, noteTransposedAlter := none, pitchBuffer := ['<', 'p', 'i', 't', 'c', 'h', '>', '<', 's', 't', 'e', 'p', '>'], harmonyRootStepText := none, harmonyBassStepText := none, transposedRoot := none, transposedBass := none, needsRootAlter := false, needsBassAlter := false, hasOriginalRootAlter := false, hasOriginalBassAlter := false, updateRootStep := false, removeLastRootAlter := false, removeLastBassAlter := false }) (SaxEvent.closeTag ['s', 't', 'e', 'p']) = { output := ['<', 'm', 'e', 'a', 's', 'u', 'r', 'e', ' ', 'n', 'u', 'm', 'b', 'e', 'r', '=', '\"', '1', '\"', '>', '<', 'n', 'o', 't', 'e', '>'], currentElement := none, textContent := [], insideHarmony := false, insideKey := false, insidePitch := true, insideAccidental := false, noteStep := some ['C'], noteAlter := none, noteOctave := none, noteTransposedAlter := none, pitchBuffer := ['<', 'p', 'i', 't', 'c', 'h', '>', '<', 's', 't', 'e', 'p', '>', 'C', '<', '/', 's', 't', 'e', 'p', '>'], harmonyRootStepText := none, harmonyBassStepText := none, transposedRoot := none, transposedBass := none, needsRootAlter := false, needsBassAlter := false, hasOriginalRootAlter := false, hasOriginalBassAlter := false, updateRootStep := false, removeLastRootAlter := false, removeLastBassAlter := false } := by decide
  have h7 : stepEvent 0 ({ output := ['<', 'm', 'e', 'a', 's', 'u', 'r', 'e', ' ', 'n', 'u', 'm', 'b', 'e', 'r', '=', '\"', '1', '\"', '>', '<', 'n', 'o', 't', 'e', '>'], currentElement := none, textContent := [], insideHarmony := false, insideKey := false, insidePitch := true, insideAccidental := false, noteStep := some ['C'], noteAlter := none, noteOctave := none, noteTransposedAlter := none, pitchBuffer := ['<', 'p', 'i', 't', 'c', 'h', '>', '<', 's', 't', 'e', 'p', '>', 'C', '<', '/', 's', 't', 'e', 'p', '>'], harmonyRootStepText := none, harmonyBassStepText := none, transposedRoot := none, transposedBass := none, needsRootAlter := false, needsBassAlter := false, hasOriginalRootAlter := false, hasOriginalBassAlter := false, updateRootStep := false, removeLastRootAlter := false, removeLastBassAlter := false }) (SaxEvent.openTag ['o', 'c', 't', 'a', 'v', 'e'] []) = { output := ['<', 'm', 'e', 'a', 's', 'u', 'r', 'e', ' ', 'n', 'u', 'm', 'b', 'e', 'r', '=', '\"', '1', '\"', '>', '<', 'n', 'o', 't', 'e', '>'], currentElement := some ['o', 'c', 't', 'a', 'v', 'e'], textContent := [], insideHarmony := false, insideKey := false, insidePitch := true, insideAccidental := false, noteStep := some ['C'], noteAlter := none, noteOctave := none, noteTransposedAlter := none, pitchBuffer := ['<', 'p', 'i', 't', 'c', 'h', '>', '<', 's', 't', 'e', 'p', '>', 'C', '<', '/', 's', 't', 'e', 'p', '>', '<', 'o', 'c', 't', 'a', 'v', 'e', '>'], harmonyRootStepText := none, harmonyBassStepText := none, transposedRoot := none, transposedBass := none, needsRootAlter := false, needsBassAlter := false, hasOriginalRootAlter := false, hasOriginalBassAlter := false, updateRootStep := false, removeLastRootAlter := false, removeLastBassAlter := false } := by decide
  have h8 : stepEvent 0 ({ output := ['<', 'm', 'e', 'a', 's', 'u', 'r', 'e', ' ', 'n', 'u', 'm', 'b', 'e', 'r', '=', '\"', '1', '\"', '>', '<', 'n', 'o', 't', 'e', '>'], currentElement := some ['o', 'c', 't', 'a', 'v', 'e'], textContent := [], insideHarmony := false, insideKey := false, insidePitch := true, insideAccidental := false, noteStep := some ['C'], noteAlter := none, noteOctave := none, noteTransposedAlter := none, pitchBuffer := ['<', 'p', 'i', 't', 'c', 'h', '>', '<', 's', 't', 'e', 'p', '>', 'C', '<', '/', 's', 't', 'e', 'p', '>', '<', 'o', 'c', 't', 'a', 'v', 'e', '>'], harmonyRootStepText := none, harmonyBassStepText := none, transposedRoot := none, transposedBass := none, needsRootAlter := false, needsBassAlter := false, hasOriginalRootAlter := false, hasOriginalBassAlter := false, updateRootStep := false, removeLastRootAlter := false, removeLastBassAlter := false }) (SaxEvent.text ['4']) = { output := ['<', 'm', 'e', 'a', 's', 'u', 'r', 'e', ' ', 'n', 'u', 'm', 'b', 'e', 'r', '=', '\"', '1', '\"', '>', '<', 'n', 'o', 't', 'e', '>'], currentElement := some ['o', 'c', 't', 'a', 'v', 'e'], textContent := ['4'], insideHarmony := false, insideKey := false, insidePitch := true, insideAccidental := false, noteStep := some ['C'], noteAlter := none, noteOctave := none, noteTransposedAlter := none, pitchBuffer := ['<', 'p', 'i', 't', 'c', 'h', '>', '<', 's', 't', 'e', 'p', '>', 'C', '<', '/', 's', 't', 'e', 'p', '>', '<', 'o', 'c', 't', 'a', 'v', 'e', '>'], harmonyRootStepText := none, harmonyBassStepText := none, transposedRoot := none, transposedBass := none, needsRootAlter := false, needsBassAlter := false, hasOriginalRootAlter := false, hasOriginalBassAlter := false, updateRootStep := false, removeLastRootAlter := false, removeLastBassAlter := false } := by decide
  have h9 : stepEvent 0 ({ output := ['<', 'm', 'e', 'a', 's', 'u', 'r', 'e', ' ', 'n', 'u', 'm', 'b', 'e', 'r', '=', '\"', '1', '\"', '>', '<', 'n', 'o', 't', 'e', '>'], currentElement := some ['o', 'c', 't', 'a', 'v', 'e'], textContent := ['4'], insideHarmony := false, insideKey := false, insidePitch := true, insideAccidental := false, noteStep := some ['C'], noteAlter := none, noteOctave := none, noteTransposedAlter := none, pitchBuffer := ['<', 'p', 'i', 't', 'c', 'h', '>', '<', 's', 't', 'e', 'p', '>', 'C', '<', '/', 's', 't', 'e', 'p', '>', '<', 'o', 'c', 't', 'a', 'v', 'e', '>'], harmonyRootStepText := none, harmonyBassStepText := none, transposedRoot := none, transposedBass := none, needsRootAlter := false, needsBassAlter := false, hasOriginalRootAlter := false, hasOriginalBassAlter := false, updateRootStep := false, removeLastRootAlter := false, removeLastBassAlter := false }) (SaxEvent.closeTag ['o', 'c', 't', 'a', 'v', 'e']) = { output := ['<', 'm', 'e', 'a', 's', 'u', 'r', 'e', ' ', 'n', 'u', 'm', 'b', 'e', 'r', '=', '\"', '1', '\"', '>', '<', 'n', 'o', 't', 'e', '>'], currentElement := none, textContent := [], insideHarmony := false, insideKey := false, insidePitch := true, insideAccidental := false, noteStep := some ['C'], noteAlter := none, noteOctave := some 4, noteTransposedAlter := none, pitchBuffer := ['<', 'p', 'i', 't', 'c', 'h', '>', '<', 's', 't', 'e', 'p', '>', 'C', '<', '/', 's', 't', 'e', 'p', '>', '<', 'o', 'c', 't', 'a', 'v', 'e', '>', '4', '<', '/', 'o', 'c', 't', 'a', 'v', 'e', '>'], harmonyRootStepText := none, harmonyBassStepText := none, transposedRoot := none, transposedBass := none, needsRootAlter := false, needsBassAlter := false, hasOriginalRootAlter := false, hasOriginalBassAlter := false, updateRootStep := false, removeLastRootAlter := false, removeLastBassAlter := false } := by decide
  have h10 : stepEvent 0 ({ output := ['<', 'm', 'e', 'a', 's', 'u', 'r', 'e', ' ', 'n', 'u', 'm', 'b', 'e', 'r', '=', '\"', '1', '\"', '>', '<', 'n', 'o', 't', 'e', '>'], currentElement := none, textContent := [], insideHarmony := false, insideKey := false, insidePitch := true, insideAccidental := false, noteStep := some ['C'], noteAlter := none, noteOctave := some 4, noteTransposedAlter := none, pitchBuffer := ['<', 'p', 'i', 't', 'c', 'h', '>', '<', 's', 't', 'e', 'p', '>', 'C', '<', '/', 's', 't', 'e', 'p', '>', '<', 'o', 'c', 't', 'a', 'v', 'e', '>', '4', '<', '/', 'o', 'c', 't', 'a', 'v', 'e', '>'], harmonyRootStepText := none, harmonyBassStepText := none, transposedRoot := none, transposedBass := none, needsRootAlter := false, needsBassAlter := false, hasOriginalRootAlter := false, hasOriginalBassAlter := false, updateRootStep := false, removeLastRootAlter := false, removeLastBassAlter := false }) (SaxEvent.closeTag ['p', 'i', 't', 'c', 'h']) = { output := ['<', 'm', 'e', 'a', 's', 'u', 'r', 'e', ' ', 'n', 'u', 'm', 'b', 'e', 'r', '=', '\"', '1', '\"', '>', '<', 'n', 'o', 't', 'e', '>', '<', 'p', 'i', 't', 'c', 'h', '>', '<', 's', 't', 'e', 'p', '>', 'C', '<', '/', 's', 't', 'e', 'p', '>', '<', 'o', 'c', 't', 'a', 'v', 'e', '>', '4', '<', '/', 'o', 'c', 't', 'a', 'v', 'e', '>', '<', '/', 'p', 'i', 't', 'c', 'h', '>'], currentElement := none, textContent := [], insideHarmony := false, insideKey := false, insidePitch := false, insideAccidental := false, noteStep := some ['C'], noteAlter := none, noteOctave := some 4, noteTransposedAlter := some 0, pitchBuffer := [], harmonyRootStepText := none, harmonyBassStepText := none, transposedRoot := none, transposedBass := none, needsRootAlter := false, needsBassAlter := false, hasOriginalRootAlter := false, hasOriginalBassAlter := false, updateRootStep := false, removeLastRootAlter := false, removeLastBassAlter := false } := by decide
  have h11 : stepEvent 0 ({ output := ['<', 'm', 'e', 'a', 's', 'u', 'r', 'e', ' ', 'n', 'u', 'm', 'b', 'e', 'r', '=', '\"', '1', '\"', '>', '<', 'n', 'o', 't', 'e', '>', '<', 'p', 'i', 't', 'c', 'h', '>', '<', 's', 't', 'e', 'p', '>', 'C', '<', '/', 's', 't', 'e', 'p', '>', '<', 'o', 'c', 't', 'a', 'v', 'e', '>', '4', '<', '/', 'o', 'c', 't', 'a', 'v', 'e', '>', '<', '/', 'p', 'i', 't', 'c', 'h', '>'], currentElement := none, textContent := [], insideHarmony := false, insideKey := false, insidePitch := false, insideAccidental := false, noteStep := some ['C'], noteAlter := none, noteOctave := some 4, noteTransposedAlter := some 0, pitchBuffer := [], harmonyRootStepText := none, harmonyBassStepText := none, transposedRoot := none, transposedBass := none, needsRootAlter := false, needsBassAlter := false, hasOriginalRootAlter := false, hasOriginalBassAlter := false, updateRootStep := false, removeLastRootAlter := false, removeLastBassAlter := false }) (SaxEvent.openTag ['d', 'u', 'r', 'a', 't', 'i', 'o', 'n'] []) = { output := ['<', 'm', 'e', 'a', 's', 'u', 'r', 'e', ' ', 'n', 'u', 'm', 'b', 'e', 'r', '=', '\"', '1', '\"', '>', '<', 'n', 'o', 't', 'e', '>', '<', 'p', 'i', 't', 'c', 'h', '>', '<', 's', 't', 'e', 'p', '>', 'C', '<', '/', 's', 't', 'e', 'p', '>', '<', 'o', 'c', 't', 'a', 'v', 'e', '>', '4', '<', '/', 'o', 'c', 't', 'a', 'v', 'e', '>', '<', '/', 'p', 'i', 't', 'c', 'h', '>', '<', 'd', 'u', 'r', 'a', 't', 'i', 'o', 'n', '>'], currentElement := none, textContent := [], insideHarmony := false, insideKey := false, insidePitch := false, insideAccidental := false, noteStep := some ['C'], noteAlter := none, noteOctave := some 4, noteTransposedAlter := some 0, pitchBuffer := [], harmonyRootStepText := none, harmonyBassStepText := none, transposedRoot := none, transposedBass := none, needsRootAlter := false, needsBassAlter := false, hasOriginalRootAlter := false, hasOriginalBassAlter := false, updateRootStep := false, removeLastRootAlter := false, removeLastBassAlter := false } := by decide
  have h12 : stepEvent 0 ({ output := ['<', 'm', 'e', 'a', 's', 'u', 'r', 'e', ' ', 'n', 'u', 'm', 'b', 'e', 'r', '=', '\"', '1', '\"', '>', '<', 'n', 'o', 't', 'e', '>', '<', 'p', 'i', 't', 'c', 'h', '>', '<', 's', 't', 'e', 'p', '>', 'C', '<', '/', 's', 't', 'e', 'p', '>', '<', 'o', 'c', 't', 'a', 'v', 'e', '>', '4', '<', '/', 'o', 'c', 't', 'a', 'v', 'e', '>', '<', '/', 'p', 'i', 't', 'c', 'h', '>', '<', 'd', 'u', 'r', 'a', 't', 'i', 'o', 'n', '>'], currentElement := none, textContent := [], insideHarmony := false, insideKey := false, insidePitch := false, insideAccidental := false, noteStep := some ['C'], noteAlter := none, noteOctave := some 4, noteTransposedAlter := some 0, pitchBuffer := [], harmonyRootStepText := none, harmonyBassStepText := none, transposedRoot := none, transposedBass := none, needsRootAlter := false, needsBassAlter := false, hasOriginalRootAlter := false, hasOriginalBassAlter := false, updateRootStep := false, removeLastRootAlter := false, removeLastBassAlter := false }) (SaxEvent.text ['4']) = { output := ['<', 'm', 'e', 'a', 's', 'u', 'r', 'e', ' ', 'n', 'u', 'm', 'b', 'e', 'r', '=', '\"', '1', '\"', '>', '<', 'n', 'o', 't', 'e', '>', '<', 'p', 'i', 't', 'c', 'h', '>', '<', 's', 't', 'e', 'p', '>', 'C', '<', '/', 's', 't', 'e', 'p', '>', '<', 'o', 'c', 't', 'a', 'v', 'e', '>', '4', '<', '/', 'o', 'c', 't', 'a', 'v', 'e', '>', '<', '/', 'p', 'i', 't', 'c', 'h', '>', '<', 'd', 'u', 'r', 'a', 't', 'i', 'o', 'n', '>'], currentElement := none, textContent := ['4'], insideHarmony := false, insideKey := false, insidePitch := false, insideAccidental := false, noteStep := some ['C'], noteAlter := none, noteOctave := some 4, noteTransposedAlter := some 0, pitchBuffer := [], harmonyRootStepText := none, harmonyBassStepText := none, transposedRoot := none, transposedBass := none, needsRootAlter := false, needsBassAlter := false, hasOriginalRootAlter := false, hasOriginalBassAlter := false, updateRootStep := false, removeLastRootAlter := false, removeLastBassAlter := false } := by decide
  have h13 : stepEvent 0 ({ output := ['<', 'm', 'e', 'a', 's', 'u', 'r', 'e', ' ', 'n', 'u', 'm', 'b', 'e', 'r', '=', '\"', '1', '\"', '>', '<', 'n', 'o', 't', 'e', '>', '<', 'p', 'i', 't', 'c', 'h', '>', '<', 's', 't', 'e', 'p', '>', 'C', '<', '/', 's', 't', 'e', 'p', '>', '<', 'o', 'c', 't', 'a', 'v', 'e', '>', '4', '<', '/', 'o', 'c', 't', 'a', 'v', 'e', '>', '<', '/', 'p', 'i', 't', 'c', 'h', '>', '<', 'd', 'u', 'r', 'a', 't', 'i', 'o', 'n', '>'], currentElement := none, textContent := ['4'], insideHarmony := false, insideKey := false, insidePitch := false, insideAccidental := false, noteStep := some ['C'], noteAlter := none, noteOctave := some 4, noteTransposedAlter := some 0, pitchBuffer := [], harmonyRootStepText := none, harmonyBassStepText := none, transposedRoot := none, transposedBass := none, needsRootAlter := false, needsBassAlter := false, hasOriginalRootAlter := false, hasOriginalBassAlter := false, updateRootStep := false, removeLastRootAlter := false, removeLastBassAlter := false }) (SaxEvent.closeTag ['d', 'u', 'r', 'a', 't', 'i', 'o', 'n']) = { output := ['<', 'm', 'e', 'a', 's', 'u', 'r', 'e', ' ', 'n', 'u', 'm', 'b', 'e', 'r', '=', '\"', '1', '\"', '>', '<', 'n', 'o', 't', 'e', '>', '<', 'p', 'i', 't', 'c', 'h', '>', '<', 's', 't', 'e', 'p', '>', 'C', '<', '/', 's', 't', 'e', 'p', '>', '<', 'o', 'c', 't', 'a', 'v', 'e', '>', '4', '<', '/', 'o', 'c', 't', 'a', 'v', 'e', '>', '<', '/', 'p', 'i', 't', 'c', 'h', '>', '<', 'd', 'u', 'r', 'a', 't', 'i', 'o', 'n', '>', '4', '<', '/', 'd', 'u', 'r', 'a', 't', 'i', 'o', 'n', '>'], currentElement := none, textContent := [], insideHarmony := false, insideKey := false, insidePitch := false, insideAccidental := false, noteStep := some ['C'], noteAlter := none, noteOctave := some 4, noteTransposedAlter := some 0, pitchBuffer := [], harmonyRootStepText := none, harmonyBassStepText := none, transposedRoot := none, transposedBass := none, needsRootAlter := false, needsBassAlter := false, hasOriginalRootAlter := false, hasOriginalBassAlter := false, updateRootStep := false, removeLastRootAlter := false, removeLastBassAlter := false } := by decide
  have h14 : stepEvent 0 ({ output := ['<', 'm', 'e', 'a', 's', 'u', 'r', 'e', ' ', 'n', 'u', 'm', 'b', 'e', 'r', '=', '\"', '1', '\"', '>', '<', 'n', 'o', 't', 'e', '>', '<', 'p', 'i', 't', 'c', 'h', '>', '<', 's', 't', 'e', 'p', '>', 'C', '<', '/', 's', 't', 'e', 'p', '>', '<', 'o', 'c', 't', 'a', 'v', 'e', '>', '4', '<', '/', 'o', 'c', 't', 'a', 'v', 'e', '>', '<', '/', 'p', 'i', 't', 'c', 'h', '>', '<', 'd', 'u', 'r', 'a', 't', 'i', 'o', 'n', '>', '4', '<', '/', 'd', 'u', 'r', 'a', 't', 'i', 'o', 'n', '>'], currentElement := none, textContent := [], insideHarmony := false, insideKey := false, insidePitch := false, insideAccidental := false, noteStep := some ['C'], noteAlter := none, noteOctave := some 4, noteTransposedAlter := some 0, pitchBuffer := [], harmonyRootStepText := none, harmonyBassStepText := none, transposedRoot := none, transposedBass := none, needsRootAlter := false, needsBassAlter := false, hasOriginalRootAlter := false, hasOriginalBassAlter := false, updateRootStep := false, removeLastRootAlter := false, removeLastBassAlter := false }) (SaxEvent.closeTag ['n', 'o', 't', 'e']) = { output := ['<', 'm', 'e', 'a', 's', 'u', 'r', 'e', ' ', 'n', 'u', 'm', 'b', 'e', 'r', '=', '\"', '1', '\"', '>', '<', 'n', 'o', 't', 'e', '>', '<', 'p', 'i', 't', 'c', 'h', '>', '<', 's', 't', 'e', 'p', '>', 'C', '<', '/', 's', 't', 'e', 'p', '>', '<', 'o', 'c', 't', 'a', 'v', 'e', '>', '4', '<', '/', 'o', 'c', 't', 'a', 'v', 'e', '>', '<', '/', 'p', 'i', 't', 'c', 'h', '>', '<', 'd', 'u', 'r', 'a', 't', 'i', 'o', 'n', '>', '4', '<', '/', 'd', 'u', 'r', 'a', 't', 'i', 'o', 'n', '>', '<', '/', 'n', 'o', 't', 'e', '>'], currentElement := none, textContent := [], insideHarmony := false, insideKey := false, insidePitch := false, insideAccidental := false, noteStep := none, noteAlter := none, noteOctave := none, noteTransposedAlter := none, pitchBuffer := [], harmonyRootStepText := none, harmonyBassStepText := none, transposedRoot := none, transposedBass := none, needsRootAlter := false, needsBassAlter := false, hasOriginalRootAlter := false, hasOriginalBassAlter := false, updateRootStep := false, removeLastRootAlter := false, removeLastBassAlter := false } := by decide
  have h15 : stepEvent 0 ({ output := ['<', 'm', 'e', 'a', 's', 'u', 'r', 'e', ' ', 'n', 'u', 'm', 'b', 'e', 'r', '=', '\"', '1', '\"', '>', '<', 'n', 'o', 't', 'e', '>', '<', 'p', 'i', 't', 'c', 'h', '>', '<', 's', 't', 'e', 'p', '>', 'C', '<', '/', 's', 't', 'e', 'p', '>', '<', 'o', 'c', 't', 'a', 'v', 'e', '>', '4', '<', '/', 'o', 'c', 't', 'a', 'v', 'e', '>', '<', '/', 'p', 'i', 't', 'c', 'h', '>', '<', 'd', 'u', 'r', 'a', 't', 'i', 'o', 'n', '>', '4', '<', '/', 'd', 'u', 'r', 'a', 't', 'i', 'o', 'n', '>', '<', '/', 'n', 'o', 't', 'e', '>'], currentElement := none, textContent := [], insideHarmony := false, insideKey := false, insidePitch := false, insideAccidental := false, noteStep := none, noteAlter := none, noteOctave := none, noteTransposedAlter := none, pitchBuffer := [], harmonyRootStepText := none, harmonyBassStepText := none, transposedRoot := none, transposedBass := none, needsRootAlter := false, needsBassAlter := false, hasOriginalRootAlter := false, hasOriginalBassAlter := false, updateRootStep := false, removeLastRootAlter := false, removeLastBassAlter := false }) (SaxEvent.closeTag ['m', 'e', 'a', 's', 'u', 'r', 'e']) = { output := ['<', 'm', 'e', 'a', 's', 'u', 'r', 'e', ' ', 'n', 'u', 'm', 'b', 'e', 'r', '=', '\"', '1', '\"', '>', '<', 'n', 'o', 't', 'e', '>', '<', 'p', 'i', 't', 'c', 'h', '>', '<', 's', 't', 'e', 'p', '>', 'C', '<', '/', 's', 't', 'e', 'p', '>', '<', 'o', 'c', 't', 'a', 'v', 'e', '>', '4', '<', '/', 'o', 'c', 't', 'a', 'v', 'e', '>', '<', '/', 'p', 'i', 't', 'c', 'h', '>', '<', 'd', 'u', 'r', 'a', 't', 'i', 'o', 'n', '>', '4', '<', '/', 'd', 'u', 'r', 'a', 't', 'i', 'o', 'n', '>', '<', '/', 'n', 'o', 't', 'e', '>', '<', '/', 'm', 'e', 'a', 's', 'u', 'r', 'e', '>'], currentElement := none, textContent := [], insideHarmony := false, insideKey := false, insidePitch := false, insideAccidental := false, noteStep := none, noteAlter := none, noteOctave := none, noteTransposedAlter := none, pitchBuffer := [], harmonyRootStepText := none, harmonyBassStepText := none, transposedRoot := none, transposedBass := none, needsRootAlter := false, needsBassAlter := false, hasOriginalRootAlter := false, hasOriginalBassAlter := false, updateRootStep := false, removeLastRootAlter := false, removeLastBassAlter := false } := by decide
  show rewriteDoc 0 (lexXML (['<', 'm', 'e', 'a', 's', 'u', 'r', 'e', ' ', 'n', 'u', 'm', 'b', 'e', 'r', '=', '\"', '1', '\"', '>', '<', 'n', 'o', 't', 'e', '>', '<', 'p', 'i', 't', 'c', 'h', '>', '<', 's', 't', 'e', 'p', '>', 'C', '<', '/', 's', 't', 'e', 'p', '>', '<', 'o', 'c', 't', 'a', 'v', 'e', '>', '4', '<', '/', 'o', 'c', 't', 'a', 'v', 'e', '>', '<', '/', 'p', 'i', 't', 'c', 'h', '>', '<', 'd', 'u', 'r', 'a', 't', 'i', 'o', 'n', '>', '4', '<', '/', 'd', 'u', 'r', 'a', 't', 'i', 'o', 'n', '>', '<', '/', 'n', 'o', 't', 'e', '>', '<', '/', 'm', 'e', 'a', 's', 'u', 'r', 'e', '>'])) = _
  rw [hlex]
  show (stepEvent 0 (stepEvent 0 (stepEvent 0 (stepEvent 0 (stepEvent 0 (stepEvent 0 (stepEvent 0 (stepEvent 0 (stepEvent 0 (stepEvent 0 (stepEvent 0 (stepEvent 0 (stepEvent 0 (stepEvent 0 (stepEvent 0 (initialState) (SaxEvent.openTag ['m', 'e', 'a', 's', 'u', 'r', 'e'] [(['n', 'u', 'm', 'b', 'e', 'r'], ['1'])])) (SaxEvent.openTag ['n', 'o', 't', 'e'] [])) (SaxEvent.openTag ['p', 'i', 't', 'c', 'h'] [])) (SaxEvent.openTag ['s', 't', 'e', 'p'] [])) (SaxEvent.text ['C'])) (SaxEvent.closeTag ['s', 't', 'e', 'p'])) (SaxEvent.openTag ['o', 'c', 't', 'a', 'v', 'e'] [])) (SaxEvent.text ['4'])) (SaxEvent.closeTag ['o', 'c', 't', 'a', 'v', 'e'])) (SaxEvent.closeTag ['p', 'i', 't', 'c', 'h'])) (SaxEvent.openTag ['d', 'u', 'r', 'a', 't', 'i', 'o', 'n'] [])) (SaxEvent.text ['4'])) (SaxEvent.closeTag ['d', 'u', 'r', 'a', 't', 'i', 'o', 'n'])) (SaxEvent.closeTag ['n', 'o', 't', 'e'])) (SaxEvent.closeTag ['m', 'e', 'a', 's', 'u', 'r', 'e'])).output = _
  rw [h1]
  rw [h2]
  rw [h3]
  rw [h4]
  rw [h5]
  rw [h6]
  rw [h7]
  rw [h8]
  rw [h9]
  rw [h10]
  rw [h11]
  rw [h12]
  rw [h13]
  rw [h14]
  rw [h15]



/-- The rewriter at 0 semitones reproduces the canonical empty measure of
`docSplitText` byte for byte. -/
lemma measure_empty_rewrite_zero :
    rewriteMeasureZero ['<', 'm', 'e', 'a', 's', 'u', 'r', 'e', ' ', 'n', 'u', 'm', 'b', 'e', 'r', '=', '\"', '1', '\"', '>', '<', '/', 'm', 'e', 'a', 's', 'u', 'r', 'e', '>'] = ['<', 'm', 'e', 'a', 's', 'u', 'r', 'e', ' ', 'n', 'u', 'm', 'b', 'e', 'r', '=', '\"', '1', '\"', '>', '<', '/', 'm', 'e', 'a', 's', 'u', 'r', 'e', '>'] := by
  have hlex : lexXML ['<', 'm', 'e', 'a', 's', 'u', 'r', 'e', ' ', 'n', 'u', 'm', 'b', 'e', 'r', '=', '\"', '1', '\"', '>', '<', '/', 'm', 'e', 'a', 's', 'u', 'r', 'e', '>'] =
      [SaxEvent.openTag ['m', 'e', 'a', 's', 'u', 'r', 'e'] [(['n', 'u', 'm', 'b', 'e', 'r'], ['1'])],
       SaxEvent.closeTag ['m', 'e', 'a', 's', 'u', 'r', 'e']] := by decide
  have h1 : stepEvent 0 initialState (SaxEvent.openTag ['m', 'e', 'a', 's', 'u', 'r', 'e'] [(['n', 'u', 'm', 'b', 'e', 'r'], ['1'])]) =
      { output := ['<', 'm', 'e', 'a', 's', 'u', 'r', 'e', ' ', 'n', 'u', 'm', 'b', 'e', 'r', '=', '\"', '1', '\"', '>'] } := by decide
  have h2 : stepEvent 0 ({ output := ['<', 'm', 'e', 'a', 's', 'u', 'r', 'e', ' ', 'n', 'u', 'm', 'b', 'e', 'r', '=', '\"', '1', '\"', '>'] } : RState)
      (SaxEvent.closeTag ['m', 'e', 'a', 's', 'u', 'r', 'e']) =
      { output := ['<', 'm', 'e', 'a', 's', 'u', 'r', 'e', ' ', 'n', 'u', 'm', 'b', 'e', 'r', '=', '\"', '1', '\"', '>', '<', '/', 'm', 'e', 'a', 's', 'u', 'r', 'e', '>'] } := by decide
  show rewriteDoc 0 (lexXML ['<', 'm', 'e', 'a', 's', 'u', 'r', 'e', ' ', 'n', 'u', 'm', 'b', 'e', 'r', '=', '\"', '1', '\"', '>', '<', '/', 'm', 'e', 'a', 's', 'u', 'r', 'e', '>']) = ['<', 'm', 'e', 'a', 's', 'u', 'r', 'e', ' ', 'n', 'u', 'm', 'b', 'e', 'r', '=', '\"', '1', '\"', '>', '<', '/', 'm', 'e', 'a', 's', 'u', 'r', 'e', '>']
  rw [hlex]
  show (stepEvent 0 (stepEvent 0 initialState (SaxEvent.openTag ['m', 'e', 'a', 's', 'u', 'r', 'e'] [(['n', 'u', 'm', 'b', 'e', 'r'], ['1'])])) (SaxEvent.closeTag ['m', 'e', 'a', 's', 'u', 'r', 'e'])).output = ['<', 'm', 'e', 'a', 's', 'u', 'r', 'e', ' ', 'n', 'u', 'm', 'b', 'e', 'r', '=', '\"', '1', '\"', '>', '<', '/', 'm', 'e', 'a', 's', 'u', 'r', 'e', '>']
  rw [h1, h2]


/-!
## Claim theorems
-/

/-- Claim C1 (counterexample): on `step = C`, `alter = 0`, `octave = 0`,
`semitones = -1` the code's octave is `-2` while `floor(total / 12)` is
`-1`, so the octave is not `Math.floor(totalSemitones / 12)` as claimed. -/
theorem transposeNote_negative_total_cex :
    (transposeNote ("C".toList) 0 0 (-1)).octave = -2 ∧
    Int.fdiv (naturalValue ("C".toList) + 0 + 0 * 12 + (-1)) 12 = -1 ∧
    (transposeNote ("C".toList) 0 0 (-1)).octave ≠
      Int.fdiv (naturalValue ("C".toList) + 0 + 0 * 12 + (-1)) 12 := by
  decide

/-- Claim C1 (amended): `transposeNote` computes
`total = naturalValue(step) + alter + octave * 12 + semitones` with the
claimed letter values, spells the result from the sharp-only table at the
Euclidean pitch class `total mod 12`, and sets the octave to
`floor(total / 12)` except when `total` is negative and not a multiple of
12, where the remainder adjustment makes it `floor(total / 12) - 1`. -/
theorem transposeNote_total_formula :
    (∀ (step : Str) (alter octave semitones : Int),
      transposeNote step alter octave semitones =
        (let total := naturalValue step + alter + octave * 12 + semitones
         { step := spellStepOfClass (total % 12).toNat
           alter := spellAlterOfClass (total % 12).toNat
           octave :=
             if total < 0 ∧ total % 12 ≠ 0 then Int.fdiv total 12 - 1
             else Int.fdiv total 12 })) ∧
    naturalValue ("C".toList) = 0 ∧ naturalValue ("D".toList) = 2 ∧
    naturalValue ("E".toList) = 4 ∧ naturalValue ("F".toList) = 5 ∧
    naturalValue ("G".toList) = 7 ∧ naturalValue ("A".toList) = 9 ∧
    naturalValue ("B".toList) = 11 :=
  ⟨transposeNote_closed, by decide, by decide, by decide, by decide, by decide,
   by decide, by decide⟩

/-- Claim C2: the table-driven key mapper normalizes the interval to
`((semitones % 12) + 12) % 12` (the Euclidean class, in `[0, 12)`), adds
the mapped fifths delta, wraps the result into `[-7, 7]` by steps of 12
fifths, stays congruent to `fifths + delta` modulo 12, and on `fifths = 0`,
`semitones = 7` returns `1` where the naive `transposeKeySignature` of
`src/transposer.js` returns `7`. -/
theorem transposeFifthsTable_spec :
    ∀ (fifths semitones : Int),
      (Int.tmod (Int.tmod semitones 12 + 12) 12 = semitones % 12) ∧
      (0 ≤ semitones % 12 ∧ semitones % 12 < 12) ∧
      (-7 ≤ transposeFifthsTable fifths semitones ∧
        transposeFifthsTable fifths semitones ≤ 7) ∧
      ((12 : Int) ∣ (transposeFifthsTable fifths semitones -
        (fifths + semitonesToFifthsMap.getD (semitones % 12).toNat 0))) ∧
      transposeFifthsTable 0 7 = 1 ∧ transposeKeySignatureFifths 0 7 = 7 := by
  intro fifths s
  have hn := normalizedSemitones_eq s
  have core : ∀ m : Int, -7 ≤ wrapFifthsUp (wrapFifthsDown m) ∧
      wrapFifthsUp (wrapFifthsDown m) ≤ 7 ∧
      (12 : Int) ∣ (wrapFifthsUp (wrapFifthsDown m) - m) := by
    intro m
    refine ⟨wrapFifthsUp_ge _, wrapFifthsUp_le _ (wrapFifthsDown_le m), ?_⟩
    have d1 := wrapFifthsUp_dvd (wrapFifthsDown m)
    have d2 := wrapFifthsDown_dvd m
    omega
  have hres : transposeFifthsTable fifths s =
      wrapFifthsUp (wrapFifthsDown
        (fifths + semitonesToFifthsMap.getD (s % 12).toNat 0)) := by
    simp only [transposeFifthsTable, hn]
  refine ⟨hn,
    ⟨Int.emod_nonneg _ (by norm_num), Int.emod_lt_of_pos _ (by norm_num)⟩,
    ?_, ?_, by decide, by decide⟩
  · rw [hres]; exact ⟨(core _).1, (core _).2.1⟩
  · rw [hres]; exact (core _).2.2

/-- Claim C3 (counterexample): the rewriter does not reproduce non-musical
content byte for byte — `docFrameText` is entirely outside the musical
element set, yet its whitespace before an opening child tag is dropped. -/
theorem frame_text_before_open_dropped_cex :
    (∀ e ∈ docFrameText, eventOutsideMusicalSet e) ∧
    rewriteDoc 0 docFrameText ≠ serAllEvents docFrameText := by
  refine ⟨by decide, ?_⟩
  rw [docFrameText_out]
  decide

/-- Claim C3 (amended): for documents in which every text node immediately
precedes a closing tag and no element is in the musical set (note, pitch,
accidental, harmony, key), the rewriter reproduces the canonical
serialization unchanged, for every interval. -/
theorem frame_reproduced_amended :
    ∀ (s : Int) (items : List FrameItem),
      (∀ it ∈ items, goodFrameItem it) →
      rewriteDoc s (frameEvents items) = serFrame items := by
  intro s items hg
  have h := runRewriter_frame s items initialState cleanFrameState_initial hg
  simp only [rewriteDoc, h]
  rfl

/-- Witness for the amended Claim C3 theorem at a concrete four-item
document and interval 5. -/
theorem frame_reproduced_amended_witness :
    (∀ it ∈ [FrameItem.openTag ("measure".toList)
        [(("number".toList), ("1".toList))],
      FrameItem.openTag ("duration".toList) [],
      FrameItem.closeTag ("4".toList) ("duration".toList),
      FrameItem.closeTag ("\n".toList) ("measure".toList)],
        goodFrameItem it) ∧
    rewriteDoc 5 (frameEvents
      [FrameItem.openTag ("measure".toList)
        [(("number".toList), ("1".toList))],
       FrameItem.openTag ("duration".toList) [],
       FrameItem.closeTag ("4".toList) ("duration".toList),
       FrameItem.closeTag ("\n".toList) ("measure".toList)]) =
      serFrame
      [FrameItem.openTag ("measure".toList)
        [(("number".toList), ("1".toList))],
       FrameItem.openTag ("duration".toList) [],
       FrameItem.closeTag ("4".toList) ("duration".toList),
       FrameItem.closeTag ("\n".toList) ("measure".toList)] :=
  ⟨by decide, frame_reproduced_amended 5 _ (by decide)⟩

/-- Claim C4: on a harmony whose bass is D with an explicit bass-alter 1,
transposing by +1 emits the alter-ignorant bass step D (with the alter
element removed), although the joint transposition of D sharp by one
semitone is E — the bass path has no step-patching pass. -/
theorem bassStep_not_joint :
    rewriteDoc 1 docBassAlter =
      ("<harmony><bass><bass-step>D</bass-step></bass></harmony>").toList ∧
    (transposeNote ("D".toList) 1 4 1).step = "E".toList ∧
    containsSub (rewriteDoc 1 docBassAlter) ("<bass-step>E".toList) = false := by
  rw [docBassAlter_out]
  refine ⟨by decide, by decide, by decide⟩

set_option maxRecDepth 40000 in
/-- Claim C5: when the second harmony's root alter collapses to zero (B
sharp at 0 semitones), the removal regex deletes the first root-alter of
the whole document — the other block's — so the C-rooted block loses its
alter while the collapsing block keeps a stale `<root-alter>1</root-alter>`. -/
theorem alterRemoval_hits_first :
    rewriteDoc 0 docCollapsingAlter =
      ("<harmony><root><root-step>C</root-step></root></harmony>" ++
       "<harmony><root><root-step>B</root-step>" ++
       "<root-alter>1</root-alter></root></harmony>").toList ∧
    containsSub (rewriteDoc 0 docCollapsingAlter)
      ("<root-step>C</root-step><root-alter>".toList) = false ∧
    containsSub (rewriteDoc 0 docCollapsingAlter)
      ("<root-step>B</root-step><root-alter>1</root-alter>".toList) = true := by
  rw [docCollapsingAlter_out]
  refine ⟨by decide, by decide, by decide⟩

set_option maxRecDepth 40000 in
/-- Claim C6 (counterexample): with a later harmony carrying a root-alter,
the C-rooted block's step is overwritten to E by the document-wide
first-occurrence patch of `_updateRootStep`, and its inserted alter is the
one removed, so no `<root-step>C` survives. -/
theorem rootC_insertion_cex :
    rewriteDoc 1 docTwoHarmonies =
      ("<harmony><root><root-step>E</root-step></root></harmony>" ++
       "<harmony><root><root-step>D</root-step>" ++
       "<root-alter>1</root-alter></root></harmony>").toList ∧
    containsSub (rewriteDoc 1 docTwoHarmonies)
      ("<root-step>C</root-step>".toList) = false := by
  rw [docTwoHarmonies_out]
  refine ⟨by decide, by decide⟩

/-- Claim C6 (amended): when the C-rooted harmony is the only musical
element of the document, transposing by +1 does insert
`<root-alter>1</root-alter>` immediately before the block's `</root>`, for
any non-musical frame around it. -/
theorem rootC_insertion_amended :
    ∀ (pre post : List FrameItem),
      (∀ it ∈ pre, goodFrameItem it) → (∀ it ∈ post, goodFrameItem it) →
      rewriteDoc 1 (frameEvents pre ++ harmonyRootCEvents ++
          frameEvents post) =
        serFrame pre ++
          ("<harmony><root><root-step>C</root-step>" ++
           "<root-alter>1</root-alter></root></harmony>").toList ++
          serFrame post := by
  intro pre post hg1 hg2
  unfold rewriteDoc
  rw [runRewriter_append, runRewriter_append,
    runRewriter_frame 1 pre initialState cleanFrameState_initial hg1]
  rw [show ({ initialState with
        output := initialState.output ++ serFrame pre } : RState) =
      { initialState with output := serFrame pre } from by
    simp [initialState]]
  rw [harmonyRootC_block (serFrame pre)]
  rw [runRewriter_frame 1 post _
    (cleanFrameState_set_output initialState _ cleanFrameState_initial) hg2]

/-- Witness for the amended Claim C6 theorem at a concrete measure frame. -/
theorem rootC_insertion_amended_witness :
    (∀ it ∈ [FrameItem.openTag ("measure".toList) []], goodFrameItem it) ∧
    (∀ it ∈ [FrameItem.closeTag ("".toList) ("measure".toList)],
      goodFrameItem it) ∧
    rewriteDoc 1 (frameEvents [FrameItem.openTag ("measure".toList) []] ++
        harmonyRootCEvents ++
        frameEvents [FrameItem.closeTag ("".toList) ("measure".toList)]) =
      serFrame [FrameItem.openTag ("measure".toList) []] ++
        ("<harmony><root><root-step>C</root-step>" ++
         "<root-alter>1</root-alter></root></harmony>").toList ++
        serFrame [FrameItem.closeTag ("".toList) ("measure".toList)] :=
  ⟨by decide, by decide,
   rootC_insertion_amended [FrameItem.openTag ("measure".toList) []]
     [FrameItem.closeTag ("".toList) ("measure".toList)]
     (by decide) (by decide)⟩

/-- Claim C7: the all-keys label ignores the table-driven mapper — for an
original key of 0 fifths, major mode, +7 semitones, the label is
`C♯ major` (naive fifths + semitones, clamped spelling) while the
documents' key signatures are transposed to 1 fifth, i.e. `G major`. -/
theorem allKeysLabel_mismatch :
    calculateTransposedKeyName 0 ("major".toList) 7 = "C♯ major".toList ∧
    transposeFifthsTable 0 7 = 1 ∧
    fifthsToKeyName 1 ("major".toList) = "G major".toList ∧
    calculateTransposedKeyName 0 ("major".toList) 7 ≠
      fifthsToKeyName (transposeFifthsTable 0 7) ("major".toList) := by
  decide

/-- Claim C8 (counterexample): `parseStructure` drops the text node between
the part-opening tag and the first measure, so reassembling the split of
`docSplitText` with identity (0-semitone) measure rewriting does not
reproduce the document's serialization. -/
theorem reassembly_drops_text_cex :
    reassembleZero docSplitText ≠ serAllEvents docSplitText := by
  simp only [reassembleZero, splitStructure_docSplitText, List.map_cons,
    List.map_nil, measure_empty_rewrite_zero]
  decide

/-- Claim C9: `parseInterval` accepts exactly the strings matching
`^[+-]?\d+$`; a rejected interval makes `transposeByInterval` fail with
`Invalid interval format` before the document is even parsed; and accepted
strings evaluate to their signed decimal value. -/
theorem parseInterval_matches_pattern :
    ∀ (s : Str) (docParse : Except Str (List SaxEvent)) (ds : Str),
      ((parseInterval s).isSome = intervalPatternSpec s) ∧
      (parseInterval s = none →
        transposeByInterval docParse s =
          Except.error ("Invalid interval format".toList)) ∧
      (ds ≠ [] → ds.all Char.isDigit →
        parseInterval ('-' :: ds) = some (-(decimalValue ds : Int)) ∧
        parseInterval ('+' :: ds) = some ((decimalValue ds : Int)) ∧
        parseInterval ds = some ((decimalValue ds : Int))) := by
  intro s docParse ds
  refine ⟨?_, ?_, ?_⟩
  · match s with
    | [] => rfl
    | c :: rest =>
      by_cases hm : c = '-'
      · subst hm
        by_cases he : rest = []
        · subst he; rfl
        · by_cases hd : rest.all Char.isDigit
          · simp [parseInterval, intervalPatternSpec, he, hd,
              List.isEmpty_iff]
          · simp [parseInterval, intervalPatternSpec, he, hd,
              List.isEmpty_iff]
      · by_cases hp : c = '+'
        · subst hp
          by_cases he : rest = []
          · subst he; rfl
          · by_cases hd : rest.all Char.isDigit
            · simp [parseInterval, intervalPatternSpec, he, hd,
                List.isEmpty_iff]
            · simp [parseInterval, intervalPatternSpec, he, hd,
                List.isEmpty_iff]
        · by_cases hd : (c :: rest).all Char.isDigit
          · simp [parseInterval, intervalPatternSpec, hm, hp, hd]
          · simp [parseInterval, intervalPatternSpec, hm, hp, hd]
  · intro h
    simp [transposeByInterval, h]
  · intro h1 h2
    have hds : ∃ c rest, ds = c :: rest := by
      cases ds with
      | nil => exact absurd rfl h1
      | cons c rest => exact ⟨c, rest, rfl⟩
    obtain ⟨c, rest, rfl⟩ := hds
    have hcd : c.isDigit := by
      have := h2
      simp [List.all_cons] at this
      exact this.1
    have hcm : c ≠ '-' := by intro h; subst h; simp [Char.isDigit] at hcd
    have hcp : c ≠ '+' := by intro h; subst h; simp [Char.isDigit] at hcd
    have hrd : rest.all Char.isDigit := by
      simp only [List.all_cons, Bool.and_eq_true] at h2
      exact h2.2
    refine ⟨?_, ?_, ?_⟩
    · simp [parseInterval, h1, h2, decimalValue, hrd]
    · simp [parseInterval, h1, h2, decimalValue, hrd]
    · simp [parseInterval, hcm, hcp, h2, decimalValue]

/-- Witness for the Claim C9 theorem: the pattern agreement and signed
value at `-12`, and the early error on the non-matching interval `a`. -/
theorem parseInterval_matches_pattern_witness :
    ((parseInterval ['-', '1', '2']).isSome =
      intervalPatternSpec ['-', '1', '2']) ∧
    parseInterval ['-', '1', '2'] = some (-(decimalValue ['1', '2'] : Int)) ∧
    transposeByInterval (Except.ok []) ['a'] =
      Except.error ("Invalid interval format".toList) := by
  have h1 := parseInterval_matches_pattern ['-', '1', '2'] (Except.ok []) ['1', '2']
  have h2 := parseInterval_matches_pattern ['a'] (Except.ok []) ['1']
  exact ⟨h1.1, (h1.2.2 (by decide) (by decide)).1, h2.2.1 (by decide)⟩

/-- Claim C10: every note the transposer emits is spelled from the
sharp-only table — the alter is always absent or +1, never -1, and the
accidental replacement is always `sharp` or `natural`. -/
theorem transposeNote_sharp_only :
    ∀ (step : Str) (alter octave semitones : Int) (orig : Str),
      ((transposeNote step alter octave semitones).alter = none ∨
       (transposeNote step alter octave semitones).alter = some 1) ∧
      (accidentalReplacement
          (some ((transposeNote step alter octave semitones).alter.getD 0))
          orig = "sharp".toList ∨
       accidentalReplacement
          (some ((transposeNote step alter octave semitones).alter.getD 0))
          orig = "natural".toList) := by
  intro step alter octave semitones orig
  rw [transposeNote_closed]
  simp only [spellAlterOfClass]
  by_cases hc : (numberToNote.getD ((naturalValue step + alter + octave * 12 +
      semitones) % 12).toNat []).contains '#'
  · rw [if_pos hc]
    exact ⟨Or.inr rfl, Or.inl rfl⟩
  · rw [if_neg hc]
    exact ⟨Or.inl rfl, Or.inr rfl⟩


lemma serAllEvents_append (a b : List SaxEvent) :
    serAllEvents (a ++ b) = serAllEvents a ++ serAllEvents b := by
  induction a with
  | nil => rfl
  | cons e r ih => cases e <;> simp [serAllEvents, ih, List.append_assoc]

lemma serAllEvents_flatten (l : List (List SaxEvent)) :
    serAllEvents l.flatten = (l.map serAllEvents).flatten := by
  induction l with
  | nil => rfl
  | cons a t ih => simp [List.flatten_cons, serAllEvents_append, ih]

lemma map_congr_mem {α β : Type} (f g : α → β) : ∀ (l : List α),
    (∀ a ∈ l, f a = g a) → l.map f = l.map g := by
  intro l
  induction l with
  | nil => intro _; rfl
  | cons a t ih =>
    intro h
    simp [List.map_cons, h a (by simp),
      ih (fun x hx => h x (by simp [hx]))]

/-- The rebuilt part tag of the reassembly loop coincides with the
canonical serialization of a part tag carrying only its id. -/
lemma partOpenTag_eq (id : Str) :
    partOpenTag id = serializeTag ("part".toList) [("id".toList, id)] := by
  show ('<' :: 'p' :: 'a' :: 'r' :: 't' :: ' ' :: 'i' :: 'd' :: '=' :: '"' ::
      (id ++ ['"', '>'])) =
    ('<' :: 'p' :: 'a' :: 'r' :: 't' :: ' ' :: 'i' :: 'd' :: '=' :: '"' ::
      ((id ++ ['"']) ++ ['>']))
  rw [List.append_assoc]
  rfl

/-- During the header phase, `parseStructure` captures every event that
does not open a part byte for byte. -/
lemma foldSplit_header : ∀ (evts : List SaxEvent),
    (∀ e ∈ evts, nonPartOpen e) → ∀ (H : Str) (P : List (Str × List Str))
    (pid : Str) (M : List Str),
    List.foldl stepSplit (donePartSt H P pid M true) evts =
      donePartSt (H ++ serAllEvents evts) P pid M true := by
  intro evts
  induction evts with
  | nil => intro _ H P pid M; simp [serAllEvents]
  | cons e r ih =>
    intro hg H P pid M
    have hgr : ∀ x ∈ r, nonPartOpen x :=
      fun x hx => hg x (List.mem_cons_of_mem _ hx)
    cases e with
    | openTag n a =>
      have hn : ¬ n = ['p', 'a', 'r', 't'] := hg _ (List.mem_cons_self _ _)
      rw [List.foldl_cons,
        show stepSplit (donePartSt H P pid M true) (SaxEvent.openTag n a) =
          donePartSt (H ++ serializeTag n a) P pid M true from by
          simp [stepSplit, stepSplitOpen, splitAppendPhase, donePartSt, hn],
        ih hgr]
      simp [serAllEvents, List.append_assoc]
    | text t =>
      rw [List.foldl_cons,
        show stepSplit (donePartSt H P pid M true) (SaxEvent.text t) =
          donePartSt (H ++ t) P pid M true from by
          simp [stepSplit, stepSplitText, donePartSt],
        ih hgr]
      simp [serAllEvents, List.append_assoc]
    | closeTag n =>
      have hstep : stepSplit (donePartSt H P pid M true)
          (SaxEvent.closeTag n) =
          donePartSt (H ++ closeTagStr n) P pid M true := by
        by_cases hn : n = ['p', 'a', 'r', 't']
        · subst hn
          simp [stepSplit, stepSplitClose, splitAppendPhase, donePartSt]
        · simp [stepSplit, stepSplitClose, splitAppendPhase, donePartSt, hn]
      rw [List.foldl_cons, hstep, ih hgr]
      simp [serAllEvents, List.append_assoc]

/-- Inside a measure, `parseStructure` captures every admissible event
byte for byte. -/
lemma foldSplit_content : ∀ (evts : List SaxEvent),
    (∀ e ∈ evts, measureContentEvent e) → ∀ (H : Str)
    (P : List (Str × List Str)) (pid : Str) (M : List Str) (C : Str),
    List.foldl stepSplit (partPhaseSt H P pid M C true) evts =
      partPhaseSt H P pid M (C ++ serAllEvents evts) true := by
  intro evts
  induction evts with
  | nil => intro _ H P pid M C; simp [serAllEvents]
  | cons e r ih =>
    intro hg H P pid M C
    have hgr : ∀ x ∈ r, measureContentEvent x :=
      fun x hx => hg x (List.mem_cons_of_mem _ hx)
    cases e with
    | openTag n a =>
      have hn := hg _ (List.mem_cons_self _ _)
      have hn1 : ¬ n = ['p', 'a', 'r', 't'] := hn.1
      have hn2 : ¬ n = ['m', 'e', 'a', 's', 'u', 'r', 'e'] := hn.2
      rw [List.foldl_cons,
        show stepSplit (partPhaseSt H P pid M C true)
            (SaxEvent.openTag n a) =
          partPhaseSt H P pid M (C ++ serializeTag n a) true from by
          simp [stepSplit, stepSplitOpen, splitAppendPhase, partPhaseSt,
            hn1, hn2],
        ih hgr]
      simp [serAllEvents, List.append_assoc]
    | text t =>
      rw [List.foldl_cons,
        show stepSplit (partPhaseSt H P pid M C true) (SaxEvent.text t) =
          partPhaseSt H P pid M (C ++ t) true from by
          simp [stepSplit, stepSplitText, partPhaseSt],
        ih hgr]
      simp [serAllEvents, List.append_assoc]
    | closeTag n =>
      have hn := hg _ (List.mem_cons_self _ _)
      have hn1 : ¬ n = ['p', 'a', 'r', 't'] := hn.1
      have hn2 : ¬ n = ['m', 'e', 'a', 's', 'u', 'r', 'e'] := hn.2
      rw [List.foldl_cons,
        show stepSplit (partPhaseSt H P pid M C true)
            (SaxEvent.closeTag n) =
          partPhaseSt H P pid M (C ++ closeTagStr n) true from by
          simp [stepSplit, stepSplitClose, splitAppendPhase, partPhaseSt,
            hn1, hn2],
        ih hgr]
      simp [serAllEvents, List.append_assoc]

/-- One measure block is captured as exactly its serialization. -/
lemma foldSplit_measure (m : MeasureBlock)
    (hm : ∀ e ∈ m.content, measureContentEvent e) (H : Str)
    (P : List (Str × List Str)) (pid : Str) (M : List Str) :
    List.foldl stepSplit (partPhaseSt H P pid M [] false)
        (measureEvents m) =
      partPhaseSt H P pid (M ++ [measureStr m]) [] false := by
  have hmp : ¬(['m', 'e', 'a', 's', 'u', 'r', 'e'] : Str) =
      ['p', 'a', 'r', 't'] := by decide
  rw [show measureEvents m = SaxEvent.openTag ("measure".toList) m.attrs ::
      (m.content ++ [SaxEvent.closeTag ("measure".toList)]) from rfl,
    List.foldl_cons,
    show stepSplit (partPhaseSt H P pid M [] false)
        (SaxEvent.openTag ("measure".toList) m.attrs) =
      partPhaseSt H P pid M (serializeTag ("measure".toList) m.attrs)
        true from by
      simp [stepSplit, stepSplitOpen, partPhaseSt, hmp],
    List.foldl_append, foldSplit_content m.content hm,
    show List.foldl stepSplit (partPhaseSt H P pid M
        (serializeTag ("measure".toList) m.attrs ++ serAllEvents m.content)
        true) [SaxEvent.closeTag ("measure".toList)] =
      partPhaseSt H P pid (M ++ [serializeTag ("measure".toList) m.attrs ++
        serAllEvents m.content ++ closeTagStr ("measure".toList)]) []
        false from by
      simp [stepSplit, stepSplitClose, partPhaseSt, hmp, List.append_assoc]]
  simp [measureStr, measureEvents, serAllEvents, serAllEvents_append,
    List.append_assoc]

/-- A run of measure blocks is captured as the list of their
serializations. -/
lemma foldSplit_measures : ∀ (ms : List MeasureBlock),
    (∀ m ∈ ms, ∀ e ∈ m.content, measureContentEvent e) → ∀ (H : Str)
    (P : List (Str × List Str)) (pid : Str) (M : List Str),
    List.foldl stepSplit (partPhaseSt H P pid M [] false)
        ((ms.map measureEvents).flatten) =
      partPhaseSt H P pid (M ++ ms.map measureStr) [] false := by
  intro ms
  induction ms with
  | nil => intro _ H P pid M; simp
  | cons m t ih =>
    intro hg H P pid M
    rw [show ((m :: t).map measureEvents).flatten =
        measureEvents m ++ (t.map measureEvents).flatten from by
        simp [List.map_cons, List.flatten_cons],
      List.foldl_append,
      foldSplit_measure m (hg m (List.mem_cons_self _ _)),
      ih (fun x hx => hg x (List.mem_cons_of_mem _ hx))]
    simp [List.append_assoc]

/-- One part block: the rebuilt tag is dropped from capture, the measures
are recorded under the part's id, and the state returns to the
between-parts shape. -/
lemma foldSplit_part (p : PartBlock)
    (hp : ∀ m ∈ p.measures, ∀ e ∈ m.content, measureContentEvent e)
    (H : Str) (P : List (Str × List Str)) (pid0 : Str) (M0 : List Str)
    (b : Bool) :
    List.foldl stepSplit (donePartSt H P pid0 M0 b) (partEvents p) =
      donePartSt H (P ++ [(p.id, p.measures.map measureStr)]) p.id
        (p.measures.map measureStr) false := by
  rw [show partEvents p =
      SaxEvent.openTag ("part".toList) [("id".toList, p.id)] ::
        ((p.measures.map measureEvents).flatten ++
          [SaxEvent.closeTag ("part".toList)]) from rfl,
    List.foldl_cons,
    show stepSplit (donePartSt H P pid0 M0 b)
        (SaxEvent.openTag ("part".toList) [("id".toList, p.id)]) =
      partPhaseSt H P p.id [] [] false from by
      simp [stepSplit, stepSplitOpen, splitAppendPhase, donePartSt,
        partPhaseSt],
    List.foldl_append, foldSplit_measures p.measures hp,
    show List.foldl stepSplit (partPhaseSt H P p.id
        ([] ++ p.measures.map measureStr) [] false)
        [SaxEvent.closeTag ("part".toList)] =
      donePartSt H (P ++ [(p.id, p.measures.map measureStr)]) p.id
        (p.measures.map measureStr) false from by
      simp [stepSplit, stepSplitClose, splitAppendPhase, partPhaseSt,
        donePartSt]]

/-- Part blocks after the first: each one appends its pair to `parts`;
the trailing scratch fields depend on the last block, hence the
existential. -/
lemma foldSplit_parts_aux : ∀ (ps : List PartBlock),
    (∀ p ∈ ps, ∀ m ∈ p.measures, ∀ e ∈ m.content, measureContentEvent e) →
    ∀ (H : Str) (P : List (Str × List Str)) (pid0 : Str) (M0 : List Str),
    ∃ (pid : Str) (M : List Str),
    List.foldl stepSplit (donePartSt H P pid0 M0 false)
        ((ps.map partEvents).flatten) =
      donePartSt H
        (P ++ ps.map (fun p => (p.id, p.measures.map measureStr))) pid M
        false := by
  intro ps
  induction ps with
  | nil => intro _ H P pid0 M0; exact ⟨pid0, M0, by simp⟩
  | cons p t ih =>
    intro hg H P pid0 M0
    obtain ⟨pid, M, hres⟩ := ih
      (fun x hx => hg x (List.mem_cons_of_mem _ hx)) H
      (P ++ [(p.id, p.measures.map measureStr)]) p.id
      (p.measures.map measureStr)
    refine ⟨pid, M, ?_⟩
    rw [show ((p :: t).map partEvents).flatten =
        partEvents p ++ (t.map partEvents).flatten from by
        simp [List.map_cons, List.flatten_cons],
      List.foldl_append,
      foldSplit_part p (hg p (List.mem_cons_self _ _)), hres]
    simp [List.append_assoc]

/-- `parseStructure` on a structured score: the header is serialized
exactly, and the parts list records each part's id with its measures'
serializations. -/
lemma splitStructure_canonical (header : List SaxEvent) (p0 : PartBlock)
    (ps : List PartBlock) (hh : ∀ e ∈ header, nonPartOpen e)
    (hc : ∀ p ∈ p0 :: ps, ∀ m ∈ p.measures, ∀ e ∈ m.content,
      measureContentEvent e) :
    ∃ (pid : Str) (M : List Str),
    splitStructure (canonicalDoc header (p0 :: ps)) =
      donePartSt (serAllEvents header)
        ((p0 :: ps).map (fun p => (p.id, p.measures.map measureStr))) pid M
        false := by
  obtain ⟨pid, M, hres⟩ := foldSplit_parts_aux ps
    (fun x hx => hc x (List.mem_cons_of_mem _ hx)) (serAllEvents header)
    [(p0.id, p0.measures.map measureStr)] p0.id (p0.measures.map measureStr)
  refine ⟨pid, M, ?_⟩
  have hsp : ¬(['s', 'c', 'o', 'r', 'e', '-', 'p', 'a', 'r', 't', 'w', 'i',
      's', 'e'] : Str) = ['p', 'a', 'r', 't'] := by decide
  have hsm : ¬(['s', 'c', 'o', 'r', 'e', '-', 'p', 'a', 'r', 't', 'w', 'i',
      's', 'e'] : Str) = ['m', 'e', 'a', 's', 'u', 'r', 'e'] := by decide
  rw [show splitStructure (canonicalDoc header (p0 :: ps)) =
      List.foldl stepSplit (donePartSt [] [] [] [] true)
        (header ++ (((p0 :: ps).map partEvents).flatten ++
          [SaxEvent.closeTag ("score-partwise".toList)])) from by
      simp [splitStructure, canonicalDoc, donePartSt, List.append_assoc],
    List.foldl_append, foldSplit_header header hh,
    show (((p0 :: ps).map partEvents).flatten ++
        [SaxEvent.closeTag ("score-partwise".toList)]) =
      partEvents p0 ++ ((ps.map partEvents).flatten ++
        [SaxEvent.closeTag ("score-partwise".toList)]) from by
      simp [List.map_cons, List.flatten_cons, List.append_assoc],
    List.foldl_append, List.foldl_append,
    show List.foldl stepSplit (donePartSt ([] ++ serAllEvents header) [] []
        [] true) (partEvents p0) =
      donePartSt (serAllEvents header)
        ([] ++ [(p0.id, p0.measures.map measureStr)]) p0.id
        (p0.measures.map measureStr) false from by
      rw [foldSplit_part p0 (hc p0 (List.mem_cons_self _ _))]
      simp,
    show ([] ++ [(p0.id, p0.measures.map measureStr)] :
        List (Str × List Str)) = [(p0.id, p0.measures.map measureStr)] from
      by simp,
    hres,
    show List.foldl stepSplit (donePartSt (serAllEvents header)
        ([(p0.id, p0.measures.map measureStr)] ++
          ps.map (fun p => (p.id, p.measures.map measureStr))) pid M false)
        [SaxEvent.closeTag ("score-partwise".toList)] =
      donePartSt (serAllEvents header)
        ([(p0.id, p0.measures.map measureStr)] ++
          ps.map (fun p => (p.id, p.measures.map measureStr))) pid M
        false from by
      simp [stepSplit, stepSplitClose, splitAppendPhase, donePartSt, hsp,
        hsm]]
  simp [List.map_cons]

/-- The serialization of a part block, in the reassembly loop's shape. -/
lemma serAllEvents_partEvents (p : PartBlock) :
    serAllEvents (partEvents p) =
      partOpenTag p.id ++ (p.measures.map measureStr).flatten ++
        closeTagStr ("part".toList) := by
  rw [partOpenTag_eq]
  simp only [partEvents, serAllEvents, serAllEvents_append,
    serAllEvents_flatten, List.append_assoc, List.append_nil]
  rw [List.map_map]
  rfl

/-- Claim C8 (amended): on every structured score — arbitrary header events
none of which opens a `part`, at least one part whose opening tag carries
only its id, measures back to back with nothing between or after them —
whose measures' serializations are fixed points of the 0-semitone rewrite,
splitting with `parseStructure` and reassembling header, rebuilt part tags
and 0-semitone-rewritten measures reproduces the serialization byte for
byte. -/
theorem reassembly_fixedpoint_amended :
    ∀ (header : List SaxEvent) (parts : List PartBlock),
      parts ≠ [] →
      (∀ e ∈ header, nonPartOpen e) →
      (∀ p ∈ parts, ∀ m ∈ p.measures, ∀ e ∈ m.content,
        measureContentEvent e) →
      (∀ p ∈ parts, ∀ m ∈ p.measures,
        rewriteMeasureZero (measureStr m) = measureStr m) →
      reassembleZero (canonicalDoc header parts) =
        serAllEvents (canonicalDoc header parts) := by
  intro header parts hne hh hc hfix
  obtain ⟨p0, ps, rfl⟩ : ∃ p0 ps, parts = p0 :: ps := by
    cases parts with
    | nil => exact absurd rfl hne
    | cons a l => exact ⟨a, l, rfl⟩
  obtain ⟨pid, M, hsplit⟩ := splitStructure_canonical header p0 ps hh hc
  have hper : ∀ p ∈ p0 :: ps,
      (fun pr : Str × List Str => partOpenTag pr.1 ++
        (pr.2.map rewriteMeasureZero).flatten ++ ("</part>".toList))
        ((fun p : PartBlock => (p.id, p.measures.map measureStr)) p) =
      serAllEvents (partEvents p) := by
    intro p hp
    have hfx : (p.measures.map measureStr).map rewriteMeasureZero =
        p.measures.map measureStr := by
      rw [List.map_map]
      exact map_congr_mem _ _ _ (fun m hm => hfix p hp m hm)
    show partOpenTag p.id ++
        ((p.measures.map measureStr).map rewriteMeasureZero).flatten ++
        ("</part>".toList) = serAllEvents (partEvents p)
    rw [hfx, serAllEvents_partEvents,
      show ("</part>".toList : Str) = closeTagStr ("part".toList) from by
        decide]
  simp only [reassembleZero, hsplit, donePartSt]
  rw [show (((p0 :: ps).map
        (fun p : PartBlock => (p.id, p.measures.map measureStr))).map
        (fun pr : Str × List Str => partOpenTag pr.1 ++
          (pr.2.map rewriteMeasureZero).flatten ++ ("</part>".toList))) =
      (p0 :: ps).map (fun p => serAllEvents (partEvents p)) from by
    rw [List.map_map]
    exact map_congr_mem _ _ _ hper]
  rw [show ((p0 :: ps).map (fun p => serAllEvents (partEvents p))) =
      ((p0 :: ps).map partEvents).map serAllEvents from by
    rw [List.map_map]; rfl]
  rw [← serAllEvents_flatten]
  simp [canonicalDoc, serAllEvents_append, serAllEvents, List.append_assoc]
  decide


/-- Witness for the amended Claim C8 theorem: `docSplitGood` in structured
form — its single measure is a proven 0-semitone fixed point — is
reassembled byte for byte. -/
theorem reassembly_fixedpoint_amended_witness :
    (canonicalDoc
      [SaxEvent.openTag ("score-partwise".toList)
        [("version".toList, "3.1".toList)],
      SaxEvent.openTag ("work".toList) [],
      SaxEvent.openTag ("work-title".toList) [],
      SaxEvent.text ("Tune".toList),
      SaxEvent.closeTag ("work-title".toList),
      SaxEvent.closeTag ("work".toList)]
      [(⟨"P1".toList, [(⟨[("number".toList, "1".toList)],
      [SaxEvent.openTag ("note".toList) [],
      SaxEvent.openTag ("pitch".toList) [],
      SaxEvent.openTag ("step".toList) [], SaxEvent.text ("C".toList),
      SaxEvent.closeTag ("step".toList),
      SaxEvent.openTag ("octave".toList) [], SaxEvent.text ("4".toList),
      SaxEvent.closeTag ("octave".toList), SaxEvent.closeTag ("pitch".toList),
      SaxEvent.openTag ("duration".toList) [], SaxEvent.text ("4".toList),
      SaxEvent.closeTag ("duration".toList),
      SaxEvent.closeTag ("note".toList)]⟩ : MeasureBlock)]⟩ : PartBlock)] = docSplitGood) ∧
    reassembleZero docSplitGood = serAllEvents docSplitGood := by
  have hdoc : canonicalDoc
      [SaxEvent.openTag ("score-partwise".toList)
        [("version".toList, "3.1".toList)],
      SaxEvent.openTag ("work".toList) [],
      SaxEvent.openTag ("work-title".toList) [],
      SaxEvent.text ("Tune".toList),
      SaxEvent.closeTag ("work-title".toList),
      SaxEvent.closeTag ("work".toList)]
      [(⟨"P1".toList, [(⟨[("number".toList, "1".toList)],
      [SaxEvent.openTag ("note".toList) [],
      SaxEvent.openTag ("pitch".toList) [],
      SaxEvent.openTag ("step".toList) [], SaxEvent.text ("C".toList),
      SaxEvent.closeTag ("step".toList),
      SaxEvent.openTag ("octave".toList) [], SaxEvent.text ("4".toList),
      SaxEvent.closeTag ("octave".toList), SaxEvent.closeTag ("pitch".toList),
      SaxEvent.openTag ("duration".toList) [], SaxEvent.text ("4".toList),
      SaxEvent.closeTag ("duration".toList),
      SaxEvent.closeTag ("note".toList)]⟩ : MeasureBlock)]⟩ : PartBlock)] = docSplitGood := by decide
  have hfix : ∀ p ∈ ([(⟨"P1".toList, [(⟨[("number".toList, "1".toList)],
      [SaxEvent.openTag ("note".toList) [],
      SaxEvent.openTag ("pitch".toList) [],
      SaxEvent.openTag ("step".toList) [], SaxEvent.text ("C".toList),
      SaxEvent.closeTag ("step".toList),
      SaxEvent.openTag ("octave".toList) [], SaxEvent.text ("4".toList),
      SaxEvent.closeTag ("octave".toList), SaxEvent.closeTag ("pitch".toList),
      SaxEvent.openTag ("duration".toList) [], SaxEvent.text ("4".toList),
      SaxEvent.closeTag ("duration".toList),
      SaxEvent.closeTag ("note".toList)]⟩ : MeasureBlock)]⟩ : PartBlock)] : List PartBlock),
      ∀ m ∈ p.measures, rewriteMeasureZero (measureStr m) = measureStr m := by
    intro p hp m hm
    rw [List.mem_singleton] at hp
    subst hp
    rw [List.mem_singleton] at hm
    subst hm
    rw [show measureStr
      (⟨[("number".toList, "1".toList)],
      [SaxEvent.openTag ("note".toList) [],
      SaxEvent.openTag ("pitch".toList) [],
      SaxEvent.openTag ("step".toList) [], SaxEvent.text ("C".toList),
      SaxEvent.closeTag ("step".toList),
      SaxEvent.openTag ("octave".toList) [], SaxEvent.text ("4".toList),
      SaxEvent.closeTag ("octave".toList), SaxEvent.closeTag ("pitch".toList),
      SaxEvent.openTag ("duration".toList) [], SaxEvent.text ("4".toList),
      SaxEvent.closeTag ("duration".toList),
      SaxEvent.closeTag ("note".toList)]⟩ : MeasureBlock) =
      ['<', 'm', 'e', 'a', 's', 'u', 'r', 'e', ' ', 'n', 'u', 'm', 'b', 'e', 'r', '=', '\"', '1', '\"', '>', '<', 'n', 'o', 't', 'e', '>', '<', 'p', 'i', 't', 'c', 'h', '>', '<', 's', 't', 'e', 'p', '>', 'C', '<', '/', 's', 't', 'e', 'p', '>', '<', 'o', 'c', 't', 'a', 'v', 'e', '>', '4', '<', '/', 'o', 'c', 't', 'a', 'v', 'e', '>', '<', '/', 'p', 'i', 't', 'c', 'h', '>', '<', 'd', 'u', 'r', 'a', 't', 'i', 'o', 'n', '>', '4', '<', '/', 'd', 'u', 'r', 'a', 't', 'i', 'o', 'n', '>', '<', '/', 'n', 'o', 't', 'e', '>', '<', '/', 'm', 'e', 'a', 's', 'u', 'r', 'e', '>'] from by decide]
    exact measure_rewrite_zero
  refine ⟨hdoc, ?_⟩
  rw [← hdoc]
  exact reassembly_fixedpoint_amended
    [SaxEvent.openTag ("score-partwise".toList)
        [("version".toList, "3.1".toList)],
      SaxEvent.openTag ("work".toList) [],
      SaxEvent.openTag ("work-title".toList) [],
      SaxEvent.text ("Tune".toList),
      SaxEvent.closeTag ("work-title".toList),
      SaxEvent.closeTag ("work".toList)]
    [(⟨"P1".toList, [(⟨[("number".toList, "1".toList)],
      [SaxEvent.openTag ("note".toList) [],
      SaxEvent.openTag ("pitch".toList) [],
      SaxEvent.openTag ("step".toList) [], SaxEvent.text ("C".toList),
      SaxEvent.closeTag ("step".toList),
      SaxEvent.openTag ("octave".toList) [], SaxEvent.text ("4".toList),
      SaxEvent.closeTag ("octave".toList), SaxEvent.closeTag ("pitch".toList),
      SaxEvent.openTag ("duration".toList) [], SaxEvent.text ("4".toList),
      SaxEvent.closeTag ("duration".toList),
      SaxEvent.closeTag ("note".toList)]⟩ : MeasureBlock)]⟩ : PartBlock)] (by decide) (by decide) (by decide) hfix

end TransposeMusicXML

